import Mathlib

/-!
# xschem `actions.c`: a shallow embedding and its verified properties

Bytes are natural numbers below 256 (`(unsigned char)line[i]` is the identity
there); `unsigned int` values are natural numbers reduced modulo `2^32`;
C strings that may be `NULL` are `Option String`; `double` coordinates are
rational numbers (exact arithmetic). Each function works on a record of the
fields of `xctx` it reads or writes. Functions, macros and constants that
actions.c uses but does not define are parameters, or are modelled from the
specification where a concrete value is needed.
-/

namespace Xschem

/-! ## `hash_file` (actions.c, lines 33-80) -/

/-- Reduction of an `unsigned int` result to 32 bits. -/
def u32 (x : Nat) : Nat := x % 4294967296

/-- The statement `h += (h << 5) + c;` on a 32 bit `unsigned int`. -/
def hash_add (h c : Nat) : Nat := u32 (h + u32 (u32 (h * 32) + c))

/-- Modelled from the spec: my_fgets is not part of actions.c; the text format
uses LF separated records, so successive calls hand out the content cut after
each LF (byte 10), the LF included, a last unterminated piece coming alone.
This is the list of all lines returned until my_fgets yields NULL. -/
def my_fgets_lines : List Nat → List (List Nat)
  | [] => []
  | b :: rest =>
    if b = 10 then [10] :: my_fgets_lines rest
    else
      match my_fgets_lines rest with
      | [] => [[b]]
      | l :: ls => (b :: l) :: ls

/-- The bytes of `" sch_path: "`. -/
def sch_path_tag : List Nat := [32, 115, 99, 104, 95, 112, 97, 116, 104, 58, 32]

/-- The bytes of `" sym_path: "`. -/
def sym_path_tag : List Nat := [32, 115, 121, 109, 95, 112, 97, 116, 104, 58, 32]

/-- The test of lines 52-53: `n > 14` and `strncmp(line+2, tag, 11) == 0` for
one of the two tags. -/
def is_path_line (line : List Nat) : Bool :=
  decide (line.length > 14) &&
    (decide ((line.drop 2).take 11 = sch_path_tag) ||
     decide ((line.drop 2).take 11 = sym_path_tag))

/-- One round of the inner `for` loop (lines 58-70) on the pair `(h, cr)`. -/
def hash_byte (st : Nat × Bool) (b : Nat) : Nat × Bool :=
  if b = 13 then (st.1, true)
  else if b = 10 ∧ st.2 = true then (hash_add st.1 b, false)
  else if st.2 = true then (hash_add (hash_add st.1 13) b, false)
  else (hash_add st.1 b, st.2)

/-- One round of the `while` loop (lines 50-72): a path line is dropped when
`skip_path_lines` is non-zero, any other line is hashed byte by byte. -/
def hash_line (skip_path_lines : Int) (st : Nat × Bool) (line : List Nat) : Nat × Bool :=
  if skip_path_lines ≠ 0 ∧ is_path_line line = true then st
  else line.foldl hash_byte st

/-- Line 73 and the return of line 75. -/
def hash_finish (st : Nat × Bool) : Nat :=
  if st.2 = true then hash_add st.1 13 else st.1

/-- `hash_file`: the argument is the content of the file when `fopen`
succeeds and `none` when it fails (then the result is 0). -/
def hash_file (f : Option (List Nat)) (skip_path_lines : Int) : Nat :=
  match f with
  | none => 0
  | some content =>
    hash_finish ((my_fgets_lines content).foldl (hash_line skip_path_lines) (5381, false))

/-! ### Reference functions written from the specification -/

/-- The CRLF variant of a text: every LF becomes CR LF. -/
def to_crlf : List Nat → List Nat
  | [] => []
  | b :: rest => if b = 10 then 13 :: 10 :: to_crlf rest else b :: to_crlf rest

/-- Deletes exactly the CR bytes that are immediately followed by LF. -/
def drop_cr_before_lf : List Nat → List Nat
  | [] => []
  | [b] => [b]
  | b :: c :: rest =>
    if b = 13 ∧ c = 10 then drop_cr_before_lf (c :: rest)
    else b :: drop_cr_before_lf (c :: rest)

/-- DJB2 over 32 bits: `h := (h * 33 + b) mod 2^32` for each byte, from 5381. -/
def djb2 (bytes : List Nat) : Nat :=
  bytes.foldl (fun h b => (h * 33 + b) % 4294967296) 5381

/-- The value the specification assigns to a content when no line is skipped. -/
def hash_spec (content : List Nat) : Nat := djb2 (drop_cr_before_lf content)

/-- Removal of whole lines from a content: the lines are those my_fgets hands
out, the ones satisfying `p` are deleted, the others are kept in order. -/
def remove_lines (p : List Nat → Bool) (content : List Nat) : List Nat :=
  ((my_fgets_lines content).filter (fun l => !p l)).flatten

/-- A line beginning with one of the three annotations named by the
specification, `** sch_path:`, `-- sch_path:` or `// sym_path:`. -/
def is_annotation_line (line : List Nat) : Bool :=
  decide (line.take 12 = [42, 42, 32, 115, 99, 104, 95, 112, 97, 116, 104, 58]) ||
  decide (line.take 12 = [45, 45, 32, 115, 99, 104, 95, 112, 97, 116, 104, 58]) ||
  decide (line.take 12 = [47, 47, 32, 115, 121, 109, 95, 112, 97, 116, 104, 58])

/-- The text made of the single line `** sch_path: ` closed by LF (14 bytes). -/
def empty_path_line : List Nat :=
  [42, 42, 32, 115, 99, 104, 95, 112, 97, 116, 104, 58, 32, 10]

/-- The text made of the single line `// sch_path: abc` closed by LF. -/
def verilog_sch_path_line : List Nat :=
  [47, 47, 32, 115, 99, 104, 95, 112, 97, 116, 104, 58, 32, 97, 98, 99, 10]

/-- No CR byte is immediately followed by another CR byte. -/
def no_double_cr : List Nat → Prop
  | [] => True
  | [_] => True
  | b :: c :: rest => ¬ (b = 13 ∧ c = 13) ∧ no_double_cr (c :: rest)

/-- A line closed by its LF: LF free bytes followed by one LF. -/
def terminated (l : List Nat) : Prop := ∃ body, 10 ∉ body ∧ l = body ++ [10]

/-- The shape of what my_fgets hands out: every line but the last is closed by
its LF, the last is closed or is a non-empty LF free remainder. -/
def lines_ok : List (List Nat) → Prop
  | [] => True
  | [l] => terminated l ∨ (l ≠ [] ∧ 10 ∉ l)
  | l :: l2 :: ls => terminated l ∧ lines_ok (l2 :: ls)

/-! ## The symbol cache: `remove_symbol`, `copy_symbol`, `get_additional_symbols`

Coordinates (`double` in C) are rational numbers: arithmetic is exact. -/

/-- Modelled from the spec: my_strdup is not in actions.c. It duplicates a
string into an owned destination; as this file relies on (the results are
tested against NULL at lines 1554-1562) an empty or NULL source leaves the
destination NULL. -/
def my_strdup (src : Option String) : Option String :=
  match src with
  | none => none
  | some s => if s = "" then none else some s

/-- Modelled from the spec: my_strdup2 is not in actions.c. It duplicates a
string into an owned destination, an empty source giving an empty copy and a
NULL source a NULL destination. -/
def my_strdup2 (src : Option String) : Option String := src

/-- A line of a symbol or of the sheet. -/
structure xLine where
  x1 : Rat
  y1 : Rat
  x2 : Rat
  y2 : Rat
  sel : Nat
  prop_ptr : Option String
deriving DecidableEq

/-- A rectangle; `extraptr` stands for the owned image data, if any. -/
structure xRect where
  x1 : Rat
  y1 : Rat
  x2 : Rat
  y2 : Rat
  sel : Nat
  prop_ptr : Option String
  flags : Nat
  extraptr : Option Nat
deriving DecidableEq

/-- An arc. -/
structure xArc where
  x : Rat
  y : Rat
  r : Rat
  a : Rat
  b : Rat
  sel : Nat
  prop_ptr : Option String
deriving DecidableEq

/-- A polygon with its parallel arrays. -/
structure xPoly where
  x : List Rat
  y : List Rat
  selected_point : List Nat
  points : Nat
  sel : Nat
  prop_ptr : Option String
deriving DecidableEq

/-- A text item; `layer` is -1 when the text has no layer of its own. -/
structure xText where
  txt_ptr : Option String
  x0 : Rat
  y0 : Rat
  rot : Int
  flip : Int
  sel : Nat
  prop_ptr : Option String
  font : Option String
  floater_instname : Option String
  floater_ptr : Option String
  flags : Nat
  layer : Int := -1
deriving DecidableEq

/-- A symbol of the cache. The per-layer arrays (`xLine **line`, `int *lines`,
...) are `none` when the pointer is NULL. -/
structure xSymbol where
  name : Option String
  base_name : Option String
  minx : Rat
  maxx : Rat
  miny : Rat
  maxy : Rat
  line : Option (List (List xLine))
  rect : Option (List (List xRect))
  poly : Option (List (List xPoly))
  arc : Option (List (List xArc))
  text : Option (List xText)
  lines : Option (List Int)
  rects : Option (List Int)
  polygons : Option (List Int)
  arcs : Option (List Int)
  texts : Int
  prop_ptr : Option String
  type : Option String
  templ : Option String
  flags : Nat
deriving DecidableEq

/-- An instance: `name` is the symbol reference, `ptr` the index of its symbol
in the cache (-1 when unresolved). `x1 .. y2` is the cached bounding box,
`color` the hilight colour (-10000 when not hilighted), `lab` the label of a
label or pin instance, `node` the net attached to each pin (an entry is
`none` when the pointer is NULL), `embed` the flag set_inst_flags derives
from the attribute `embed`. -/
structure xInstance where
  name : Option String
  ptr : Int
  x0 : Rat
  y0 : Rat
  rot : Int
  flip : Int
  sel : Nat
  flags : Nat
  prop_ptr : Option String
  instname : Option String
  x1 : Rat := 0
  y1 : Rat := 0
  x2 : Rat := 0
  y2 : Rat := 0
  color : Int := -10000
  lab : Option String := none
  node : List (Option String) := []
  embed : Int := 0
deriving DecidableEq

/-- The fields of `xctx` used by the symbol cache functions, together with the
static `num_syms` of get_additional_symbols. `sym` is the whole allocated
array (its length is the capacity), `symbols` the number of live entries. -/
structure SymCache where
  sym : List xSymbol
  symbols : Nat
  inst : List xInstance
  instances : Nat
  num_syms : Nat
deriving DecidableEq

/-- Lines 562-633 of remove_symbol: the slot once everything it owns has been
released. Strings, per-layer arrays, count arrays and the text array are freed
(NULL) and `texts` is 0; the other fields keep their values. -/
def clear_symbol (s : xSymbol) : xSymbol :=
  { s with
    prop_ptr := none, templ := none, type := none, name := none,
    poly := none, line := none, arc := none, rect := none, text := none,
    lines := none, polygons := none, arcs := none, rects := none,
    texts := 0 }

/-- The loop of lines 636-638, `for(i = j + 1; i < symbols; ++i) sym[i-1] = sym[i];`,
started at `i` with `n` rounds left; `none` if a read leaves the array. -/
def shift_symbols (sym : List xSymbol) (i : Nat) : Nat → Option (List xSymbol)
  | 0 => some sym
  | n + 1 =>
    match sym[i]? with
    | none => none
    | some s => shift_symbols (sym.set (i - 1) s) (i + 1) n

/-- `remove_symbol(j)`; `none` when `j` or `symbols - 1` is not a slot of the
array. -/
def remove_symbol (ctx : SymCache) (j : Nat) : Option SymCache :=
  match ctx.sym[j]? with
  | none => none
  | some sj =>
    let save := clear_symbol sj
    match shift_symbols (ctx.sym.set j save) (j + 1) (ctx.symbols - (j + 1)) with
    | none => none
    | some sym2 =>
      if 0 < ctx.symbols ∧ ctx.symbols - 1 < sym2.length then
        some { ctx with sym := sym2.set (ctx.symbols - 1) save, symbols := ctx.symbols - 1 }
      else none

/-- `copy_symbol` on a line, rectangle, arc, polygon: the struct is copied and
its attribute string duplicated with my_strdup (lines 1449-1481); a copied
rectangle owns no image data. -/
def copy_line (l : xLine) : xLine := { l with prop_ptr := my_strdup l.prop_ptr }

/-- See `copy_line`. -/
def copy_rect (r : xRect) : xRect :=
  { r with prop_ptr := my_strdup r.prop_ptr, extraptr := none }

/-- See `copy_line`. -/
def copy_arc (a : xArc) : xArc := { a with prop_ptr := my_strdup a.prop_ptr }

/-- See `copy_line`. -/
def copy_poly (q : xPoly) : xPoly := { q with prop_ptr := my_strdup q.prop_ptr }

/-- `copy_symbol` on a text (lines 1485-1498). -/
def copy_text (t : xText) : xText :=
  { t with
    prop_ptr := my_strdup t.prop_ptr,
    floater_ptr := my_strdup t.floater_ptr,
    txt_ptr := my_strdup t.txt_ptr,
    font := my_strdup t.font,
    floater_instname := my_strdup2 t.floater_instname }

/-- `copy_symbol(dest_sym, src_sym)`: the value written to the destination,
every field of which is overwritten. The source is a loaded symbol: its
per-layer arrays hold `cadlayers` arrays of the counted items. -/
def copy_symbol (src_sym : xSymbol) : xSymbol :=
  { minx := src_sym.minx, maxx := src_sym.maxx, miny := src_sym.miny, maxy := src_sym.maxy,
    flags := src_sym.flags,
    texts := src_sym.texts,
    name := my_strdup2 src_sym.name,
    base_name := none,
    prop_ptr := my_strdup2 src_sym.prop_ptr,
    type := my_strdup2 src_sym.type,
    templ := my_strdup2 src_sym.templ,
    lines := some (src_sym.lines.getD []),
    rects := some (src_sym.rects.getD []),
    arcs := some (src_sym.arcs.getD []),
    polygons := some (src_sym.polygons.getD []),
    line := some ((src_sym.line.getD []).map (fun a => a.map copy_line)),
    rect := some ((src_sym.rect.getD []).map (fun a => a.map copy_rect)),
    arc := some ((src_sym.arc.getD []).map (fun a => a.map copy_arc)),
    poly := some ((src_sym.poly.getD []).map (fun a => a.map copy_poly)),
    text := some ((src_sym.text.getD []).map copy_text) }

/-- The helpers of get_additional_symbols that live outside actions.c, taken
as parameters. `get_tok_value` returns the value together with the
`xctx->tok_size` it leaves; `ELEMDEF` is the growth chunk of the cache and
`fresh_slot` the content of a newly allocated slot. -/
structure SymHelpers where
  get_tok_value : Option String → String → Nat → String × Nat
  str_replace : String → String → String → Char → String
  tcl_hook2 : String → String
  get_cell : Option String → Nat → String
  is_generator : String → Bool
  add_ext : String → String → String
  rel_sym_path : String → String
  subst_token : Option String → String → Option String → String
  ELEMDEF : Nat
  fresh_slot : xSymbol

/-- Modelled from the spec: check_symbol_storage is not in actions.c. The cache
"exposes a check_storage hook to grow capacity in chunks": when the count has
reached the capacity, a chunk of `ELEMDEF` fresh slots (at least one) is
appended, existing entries keeping their index and content. -/
def check_symbol_storage (H : SymHelpers) (ctx : SymCache) : SymCache :=
  if ctx.symbols ≥ ctx.sym.length then
    { ctx with sym := ctx.sym ++ List.replicate (max 1 H.ELEMDEF) H.fresh_slot }
  else ctx

/-- The `what` argument of int_hash_lookup. -/
inductive HashWhat where
  | XINSERT
  | XLOOKUP
deriving DecidableEq

/-- Modelled from the spec: int_hash_lookup is not in actions.c. The table is
the "hash set" of the polymorphic expansion, keyed by name: XLOOKUP returns
the entry of the token or NULL; XINSERT returns the existing entry, updating
its value, or adds the token and returns NULL. A NULL token is never found
nor added. The result is the returned entry and the table afterwards. -/
def int_hash_lookup (table : List (String × Int)) (token : Option String) (value : Int)
    (what : HashWhat) : Option (String × Int) × List (String × Int) :=
  match token with
  | none => (none, table)
  | some tok =>
    match table.find? (fun e => e.1 == tok) with
    | some e =>
      match what with
      | HashWhat.XLOOKUP => (some e, table)
      | HashWhat.XINSERT =>
        (some e, table.map (fun x => if x.1 == tok then (x.1, value) else x))
    | none =>
      match what with
      | HashWhat.XLOOKUP => (none, table)
      | HashWhat.XINSERT => (none, (tok, value) :: table)

/-- The loop of lines 1515-1517: the names of the live symbols `i, i+1, ...`
(`n` of them) are entered in the table. -/
def hash_symbol_names (sym : List xSymbol) (table : List (String × Int)) (i : Nat) :
    Nat → Option (List (String × Int))
  | 0 => some table
  | n + 1 =>
    match sym[i]? with
    | none => none
    | some s =>
      hash_symbol_names sym (int_hash_lookup table s.name i HashWhat.XINSERT).2 (i + 1) n

/-- Lines 1528-1542: the name `sym` of the symbol variant asked for by the
`schematic` attribute of an instance. -/
def schematic_sym_name (H : SymHelpers) (inst : xInstance) : String :=
  let sch := H.tcl_hook2 (H.str_replace (H.get_tok_value inst.prop_ptr "schematic" 2).1
    "@symname" (H.get_cell inst.name 0) (Char.ofNat 92))
  if H.is_generator sch = true then sch else H.add_ext (H.rel_sym_path sch) ".sym"

/-- Lines 1550-1562: the clone stored in the new slot, a copy of the base
symbol `base` of the instance, renamed to `sym`, with the `*_sym_def` values
of the instance (lines 1525-1527) patched into its attribute string. -/
def polymorphic_clone (H : SymHelpers) (inst : xInstance) (base : xSymbol) (sym : String) :
    xSymbol :=
  let spice_sym_def := my_strdup (some (H.get_tok_value inst.prop_ptr "spice_sym_def" 0).1)
  let verilog_sym_def := my_strdup (some (H.get_tok_value inst.prop_ptr "verilog_sym_def" 0).1)
  let vhdl_sym_def := my_strdup (some (H.get_tok_value inst.prop_ptr "vhdl_sym_def" 0).1)
  let c0 := copy_symbol base
  let c1 := { c0 with base_name := base.name, name := my_strdup (some sym) }
  let c2 := if spice_sym_def.isSome then
      { c1 with prop_ptr :=
          my_strdup (some (H.subst_token c1.prop_ptr "spice_sym_def" spice_sym_def)) }
    else c1
  let c3 := if verilog_sym_def.isSome then
      { c2 with prop_ptr :=
          my_strdup (some (H.subst_token c2.prop_ptr "verilog_sym_def" verilog_sym_def)) }
    else c2
  if vhdl_sym_def.isSome then
    { c3 with prop_ptr :=
        my_strdup (some (H.subst_token c3.prop_ptr "vhdl_sym_def" vhdl_sym_def)) }
  else c3

/-- One round of the loop over the instances (lines 1519-1572) for instance
`i`, on the cache and the table; `none` when the instance, its symbol or the
new slot is not a slot of its array. The test `xctx->tok_size` reads what the
lookup of `schematic` left. -/
def additional_symbol_step (H : SymHelpers) (st : SymCache × List (String × Int)) (i : Nat) :
    Option (SymCache × List (String × Int)) :=
  match st.1.inst[i]? with
  | none => none
  | some inst =>
    if (H.get_tok_value inst.prop_ptr "schematic" 2).2 ≠ 0 then
      let sym := schematic_sym_name H inst
      match (int_hash_lookup st.2 (some sym) 0 HashWhat.XLOOKUP).1 with
      | some _ => some st
      | none =>
        let j := st.1.symbols
        let table2 := (int_hash_lookup st.2 (some sym) j HashWhat.XINSERT).2
        let ctx2 := check_symbol_storage H st.1
        if 0 ≤ inst.ptr then
          match ctx2.sym[inst.ptr.toNat]? with
          | none => none
          | some base =>
            if j < ctx2.sym.length then
              some ({ ctx2 with sym := ctx2.sym.set j (polymorphic_clone H inst base sym),
                                symbols := ctx2.symbols + 1 }, table2)
            else none
        else none
    else some st

/-- The loop over the instances, for the instance indices of the list. -/
def additional_symbols_loop (H : SymHelpers) :
    List Nat → SymCache × List (String × Int) → Option (SymCache × List (String × Int))
  | [], st => some st
  | i :: rest, st =>
    match additional_symbol_step H st i with
    | none => none
    | some st2 => additional_symbols_loop H rest st2

/-- The loop of lines 1575-1577, `for(i = symbols - 1; i >= num_syms; --i)
remove_symbol(i);`, at index `i` with `n` rounds left. -/
def remove_clones (ctx : SymCache) (i : Nat) : Nat → Option SymCache
  | 0 => some ctx
  | n + 1 =>
    match remove_symbol ctx i with
    | none => none
    | some ctx2 => remove_clones ctx2 (i - 1) n

/-- `get_additional_symbols(what)`: start for `what = 1`, end otherwise. -/
def get_additional_symbols (H : SymHelpers) (what : Int) (ctx : SymCache) : Option SymCache :=
  if what = 1 then
    let ctx1 := { ctx with num_syms := ctx.symbols }
    match hash_symbol_names ctx1.sym [] 0 ctx1.symbols with
    | none => none
    | some table =>
      match additional_symbols_loop H (List.range ctx1.instances) (ctx1, table) with
      | none => none
      | some st => some st.1
  else
    match remove_clones ctx (ctx.symbols - 1) (ctx.symbols - ctx.num_syms) with
    | none => none
    | some ctx2 => some { ctx2 with symbols := ctx.num_syms }

/-- The names of the live symbols, in cache order (a freed name is no name). -/
def live_names (ctx : SymCache) : List String :=
  (ctx.sym.take ctx.symbols).filterMap (fun s => s.name)

/-- The cache state the code relies on: the live entries and the instances lie
within their arrays and every instance refers to a live symbol. -/
def cache_ok (ctx : SymCache) : Prop :=
  ctx.symbols ≤ ctx.sym.length ∧ ctx.instances ≤ ctx.inst.length ∧
  ∀ inst ∈ ctx.inst.take ctx.instances, 0 ≤ inst.ptr ∧ inst.ptr.toNat < ctx.symbols

/-- The invariant of the loop over the instances of get_additional_symbols,
relative to the cache `c0` at the call: the live entries of `c0` are in place,
every live name is in the table, and distinct names stay distinct. -/
def start_inv (c0 : SymCache) (st : SymCache × List (String × Int)) : Prop :=
  c0.symbols ≤ st.1.symbols ∧ st.1.symbols ≤ st.1.sym.length ∧
  st.1.inst = c0.inst ∧ st.1.instances = c0.instances ∧ st.1.num_syms = c0.symbols ∧
  (∀ i, i < c0.symbols → st.1.sym[i]? = c0.sym[i]?) ∧
  (∀ k, k ∈ live_names st.1 → k ∈ st.2.map Prod.fst) ∧
  ((live_names c0).Nodup → (live_names st.1).Nodup)

/-! ## `set_rect_flags` (lines 658-678) -/

/-- The C library test `strstr(hay, needle) != NULL` on character lists. -/
def strstr : List Char → List Char → Bool
  | [], needle => decide (needle = [])
  | c :: rest, needle =>
    decide ((c :: rest).take needle.length = needle) || strstr rest needle

/-- `set_rect_flags(r)`: the rectangle with its cached `flags` and the value
returned. `get_tok_value` (outside actions.c) is a parameter, returning the
value of the token and the `tok_size` it leaves. -/
def set_rect_flags (get_tok_value : Option String → String → Nat → String × Nat) (r : xRect) :
    xRect × Nat :=
  let f : Nat :=
    match r.prop_ptr with
    | none => 0
    | some p =>
      if p ≠ "" then
        let flags := (get_tok_value r.prop_ptr "flags" 0).1
        if strstr flags.data "unscaled".data = true then 0 ||| 3072
        else if strstr flags.data "image".data = true then 0 ||| 1024
        else if strstr flags.data "unlocked".data = true then 0 ||| 3
        else if strstr flags.data "graph".data = true then 0 ||| 1
        else 0
      else 0
  ({ r with flags := f }, f)

/-- The rule of the specification on the value of the `flags` attribute:
`unscaled` gives bits 10 and 11, else `image` bit 10, else `unlocked` bits 0
and 1, else `graph` bit 0, else nothing. "Contains" is the infix relation. -/
def rect_flags_rule (v : String) : Nat :=
  if "unscaled".data <:+: v.data then 2 ^ 10 + 2 ^ 11
  else if "image".data <:+: v.data then 2 ^ 10
  else if "unlocked".data <:+: v.data then 2 ^ 0 + 2 ^ 1
  else if "graph".data <:+: v.data then 2 ^ 0
  else 0

/-! ## `set_modify` (lines 124-160) -/

/-- The fields of `xctx` used by set_modify. `current_cell` stands for
`get_cell(xctx->sch[xctx->currsch], 1)`, `tcl` for the commands handed to the
Tcl interpreter so far, `floater_inst_table` is `none` when the table is
freed. -/
structure ModCtx where
  modified : Int
  prev_set_modify : Int
  text : List xText
  texts : Nat
  floater_inst_table : Option (List (String × Int))
  has_x : Bool
  current_cell : String
  top_path : String
  tcl : List String
deriving DecidableEq

/-- The loop of lines 137-141 over the first `n` texts: a text whose flags
have the bit `TEXT_FLOATER` loses its cached floater string. -/
def clear_floaters (TEXT_FLOATER : Nat) : List xText → Nat → List xText
  | [], _ => []
  | t :: rest, 0 => t :: rest
  | t :: rest, n + 1 =>
    (if t.flags &&& TEXT_FLOATER ≠ 0 then { t with floater_ptr := none } else t)
      :: clear_floaters TEXT_FLOATER rest n

/-- Lines 132-143 of set_modify: the modified flag and the floater caches. The
constant `TEXT_FLOATER` of xschem.h is a parameter. -/
def set_modify_caches (TEXT_FLOATER : Nat) (mod : Int) (ctx : ModCtx) : ModCtx :=
  let ctx1 := if mod ≠ -2 ∧ mod ≠ -1 then { ctx with modified := mod } else ctx
  if mod = 1 ∨ mod = -1 ∨ mod = -2 then
    { ctx1 with text := clear_floaters TEXT_FLOATER ctx1.text ctx1.texts,
                floater_inst_table := none }
  else ctx1

/-- Lines 144-159 of set_modify: the window title and the tab names. -/
def set_modify_title (mod : Int) (ctx2 : ModCtx) : ModCtx :=
  if mod ≠ -2 ∧ (mod = -1 ∨ mod ≠ ctx2.prev_set_modify) then
    let ctx3 := if mod ≠ -1 then { ctx2 with prev_set_modify := mod } else ctx2
    let mod2 := if mod ≠ -1 then mod else ctx2.modified
    let ctx4 :=
      if ctx3.has_x = true ∧ ctx3.current_cell ≠ "systemlib/font" then
        let top_path := if ctx3.top_path ≠ "" then ctx3.top_path else "."
        if mod2 = 1 then
          { ctx3 with tcl := ctx3.tcl ++
              ["wm title " ++ top_path ++ " \"xschem - [file tail [xschem get schname]]*\"",
               "wm iconname " ++ top_path ++ " \"xschem - [file tail [xschem get schname]]*\""] }
        else
          { ctx3 with tcl := ctx3.tcl ++
              ["wm title " ++ top_path ++ " \"xschem - [file tail [xschem get schname]]\"",
               "wm iconname " ++ top_path ++ " \"xschem - [file tail [xschem get schname]]\""] }
      else ctx3
    if ctx4.modified ≠ 0 then { ctx4 with tcl := ctx4.tcl ++ ["set_tab_names *"] }
    else { ctx4 with tcl := ctx4.tcl ++ ["set_tab_names"] }
  else ctx2

/-- `set_modify(mod)`: the two parts in sequence. -/
def set_modify (TEXT_FLOATER : Nat) (mod : Int) (ctx : ModCtx) : ModCtx :=
  set_modify_title mod (set_modify_caches TEXT_FLOATER mod ctx)

/-- A text item with the given flags and cached floater string, all else
empty. -/
def text_with (flags : Nat) (floater_ptr : Option String) : xText :=
  { txt_ptr := some "@name", x0 := 0, y0 := 0, rot := 0, flip := 0, sel := 0,
    prop_ptr := none, font := none, floater_instname := none,
    floater_ptr := floater_ptr, flags := flags }

/-- A sheet state holding the given texts, unmodified, without display. -/
def sheet_with_texts (text : List xText) : ModCtx :=
  { modified := 0, prev_set_modify := 0, text := text, texts := text.length,
    floater_inst_table := none, has_x := false, current_cell := "top",
    top_path := "", tcl := [] }

/-! ## `connect_by_kissing` (lines 918-993)

The state is taken after the calls `rebuild_selected_array()` and
`prepare_netlist_structs(0)` of lines 931-933 (both outside actions.c): the
selection array and the two spatial tables are those the loops read. The
closing `rebuild_selected_array()` only refreshes the selection array and is
not applied. An index that is not a slot of its array does not occur in a
consistent state; the loops pass over such an entry. -/

/-- A wire of the sheet; `node` is the name of its net, `none` when not set. -/
structure xWire where
  x1 : Rat
  y1 : Rat
  x2 : Rat
  y2 : Rat
  sel : Nat
  bus : Int
  prop_ptr : Option String
  node : Option String := none
deriving DecidableEq

/-- An entry of a chain of the instance pin table: instance `n`, pin `pin`,
world point `(x0, y0)`. -/
structure Instpinentry where
  x0 : Rat
  y0 : Rat
  n : Nat
  pin : Nat
deriving DecidableEq

/-- The object kinds of the selection array. -/
inductive ObjType where
  | ELEMENT
  | WIRE
  | xRECT
  | LINE
  | ARC
  | POLYGON
  | xTEXT
deriving DecidableEq

/-- An entry of `xctx->sel_array`. -/
structure Selected where
  type : ObjType
  n : Nat
  col : Nat
deriving DecidableEq

/-- The fields of `xctx` used by connect_by_kissing. The chains of the two
spatial tables are lists in chain order, a wire chain holding wire indices.
`undo` is the stack of document snapshots (here the wires) of push_undo. -/
structure KissCtx where
  inst : List xInstance
  sym : List xSymbol
  wire : List xWire
  sel_array : List Selected
  lastsel : Nat
  instpin_spatial_table : Int → Int → List Instpinentry
  wire_spatial_table : Int → Int → List Nat
  need_reb_sel_arr : Int
  undo : List (List xWire)

/-- What connect_by_kissing takes from outside actions.c: the bucket of a
point, the incidence test of a point and a segment, the macro `ROTATION` (the
rotated and flipped point), and the constants `PINLAYER` and `SELECTED1`. -/
structure KissHelpers where
  get_square : Rat → Rat → Int × Int
  touch : Rat → Rat → Rat → Rat → Rat → Rat → Bool
  ROTATION : Int → Int → Rat → Rat → Rat → Rat → Rat × Rat
  PINLAYER : Nat
  SELECTED1 : Nat

/-- The locals `changed` and `done_undo` with the state. -/
structure KissLoop where
  ctx : KissCtx
  changed : Int
  done_undo : Int

/-- Modelled from the spec: push_undo is reached through `xctx->push_undo` and
is not in actions.c; "the entire Document is serialized to an opaque snapshot
and pushed" on the undo stack. -/
def push_undo (ctx : KissCtx) : KissCtx := { ctx with undo := ctx.wire :: ctx.undo }

/-- Modelled from the spec: storeobject is not in actions.c; called with
position -1 and type WIRE it appends the wire `(x1,y1)-(x2,y2)` with the given
selection state and attribute string after the last wire. -/
def storeobject_wire (ctx : KissCtx) (x1 y1 x2 y2 : Rat) (sel : Nat)
    (prop_ptr : Option String) : KissCtx :=
  { ctx with wire := ctx.wire ++
      [{ x1 := x1, y1 := y1, x2 := x2, y2 := y2, sel := sel, bus := 0, prop_ptr := prop_ptr }] }

/-- Lines 943-947: the world point of a pin rectangle of an instance. -/
def pin_point (H : KissHelpers) (inst : xInstance) (r : xRect) : Rat × Rat :=
  let pinx0 := (r.x1 + r.x2) / 2
  let piny0 := (r.y1 + r.y2) / 2
  let p := H.ROTATION inst.rot inst.flip 0 0 pinx0 piny0
  (p.1 + inst.x0, p.2 + inst.y0)

/-- The test `xctx->inst[ii].sel == 0` of line 958. -/
def inst_unselected (ctx : KissCtx) (ii : Nat) : Bool :=
  match ctx.inst[ii]? with
  | some i2 => decide (i2.sel = 0)
  | none => false

/-- The first `while` loop (lines 951-963) over the chain of instance pins:
the value of `kissing` after it. `seln` is `xctx->sel_array[j].n`. -/
def kissing_instpins (ctx : KissCtx) (seln : Nat) (pinx0 piny0 : Rat) :
    List Instpinentry → Bool
  | [] => false
  | iptr :: next =>
    if iptr.n = seln then kissing_instpins ctx seln pinx0 piny0 next
    else if iptr.x0 = pinx0 ∧ iptr.y0 = piny0 ∧ inst_unselected ctx iptr.n = true then true
    else kissing_instpins ctx seln pinx0 piny0 next

/-- The second `while` loop (lines 964-977) over the chain of wires, entered
with the value `kissing` left by the first loop. -/
def kissing_wires (H : KissHelpers) (ctx : KissCtx) (pinx0 piny0 : Rat) (kissing : Bool) :
    List Nat → Bool
  | [] => kissing
  | n :: next =>
    match ctx.wire[n]? with
    | none => kissing_wires H ctx pinx0 piny0 kissing next
    | some w =>
      if H.touch w.x1 w.y1 w.x2 w.y2 pinx0 piny0 = true then
        if w.sel ≠ 0 then false
        else if (pinx0 ≠ w.x1 ∨ piny0 ≠ w.y1) ∧ (pinx0 ≠ w.x2 ∨ piny0 ≠ w.y2) then true
        else kissing_wires H ctx pinx0 piny0 kissing next
      else kissing_wires H ctx pinx0 piny0 kissing next

/-- The value of `kissing` at line 978 for the pin at world point
`(pinx0, piny0)` of the selected instance `seln`. -/
def pin_kissing (H : KissHelpers) (ctx : KissCtx) (seln : Nat) (pinx0 piny0 : Rat) : Bool :=
  let sq := H.get_square pinx0 piny0
  kissing_wires H ctx pinx0 piny0
    (kissing_instpins ctx seln pinx0 piny0 (ctx.instpin_spatial_table sq.1 sq.2))
    (ctx.wire_spatial_table sq.1 sq.2)

/-- One round of the loop over the pins (lines 942-989) for the pin rectangle
`r` of instance `inst`, selected as `seln`. -/
def kiss_pin (H : KissHelpers) (seln : Nat) (inst : xInstance) (st : KissLoop) (r : xRect) :
    KissLoop :=
  let p := pin_point H inst r
  if pin_kissing H st.ctx seln p.1 p.2 = true then
    let st1 := if st.done_undo = 0 then { st with ctx := push_undo st.ctx, done_undo := 1 }
               else st
    { st1 with
      ctx := { storeobject_wire st1.ctx p.1 p.2 p.1 p.2 H.SELECTED1 none with
               need_reb_sel_arr := 1 },
      changed := 1 }
  else st

/-- The pin rectangles `rct[0 .. npin-1]` of the symbol of an instance, where
`npin = symbol->rects[PINLAYER]` and `rct = symbol->rect[PINLAYER]`. -/
def instance_pins (H : KissHelpers) (ctx : KissCtx) (inst : xInstance) : List xRect :=
  if 0 ≤ inst.ptr then
    match ctx.sym[inst.ptr.toNat]? with
    | none => []
    | some symbol =>
      match symbol.rects, symbol.rect with
      | some rects, some rect =>
        match rects[H.PINLAYER]?, rect[H.PINLAYER]? with
        | some npin, some rct => rct.take npin.toNat
        | _, _ => []
      | _, _ => []
  else []

/-- One round of the loop over the selection (lines 934-990). -/
def kiss_selected (H : KissHelpers) (st : KissLoop) (s : Selected) : KissLoop :=
  if s.type = ObjType.ELEMENT then
    match st.ctx.inst[s.n]? with
    | none => st
    | some inst => (instance_pins H st.ctx inst).foldl (kiss_pin H s.n inst) st
  else st

/-- `connect_by_kissing()`: the state afterwards and the value returned. -/
def connect_by_kissing (H : KissHelpers) (ctx : KissCtx) : KissCtx × Int :=
  let st := (ctx.sel_array.take ctx.lastsel).foldl (kiss_selected H)
    { ctx := ctx, changed := 0, done_undo := 0 }
  (st.ctx, st.changed)

/-- The degenerate wire connect_by_kissing stores at a point. -/
def kiss_wire (H : KissHelpers) (p : Rat × Rat) : xWire :=
  { x1 := p.1, y1 := p.2, x2 := p.1, y2 := p.2, sel := H.SELECTED1, bus := 0, prop_ptr := none }

/-- What the rounds of connect_by_kissing keep: `b` is reached from `a` with
the instances, symbols, selection and spatial tables untouched, wires only
appended, and `changed` staying at 1 once set. -/
def kiss_ext (a b : KissLoop) : Prop :=
  b.ctx.inst = a.ctx.inst ∧ b.ctx.sym = a.ctx.sym ∧
  b.ctx.instpin_spatial_table = a.ctx.instpin_spatial_table ∧
  b.ctx.wire_spatial_table = a.ctx.wire_spatial_table ∧
  b.ctx.sel_array = a.ctx.sel_array ∧ b.ctx.lastsel = a.ctx.lastsel ∧
  (∃ extra, b.ctx.wire = a.ctx.wire ++ extra) ∧
  (a.changed = 1 → b.changed = 1)

/-- Modelled from the spec: touch is not in actions.c. A wire "touches the
point" when the point lies on its segment: it is collinear with the two end
points and inside their bounding box. -/
def touch (x1 y1 x2 y2 x y : Rat) : Bool :=
  decide ((x2 - x1) * (y - y1) = (x - x1) * (y2 - y1) ∧
    min x1 x2 ≤ x ∧ x ≤ max x1 x2 ∧ min y1 y2 ≤ y ∧ y ≤ max y1 y2)

/-- Modelled from the spec: the macro ROTATION is not in actions.c. It is the
"flip/rotate" of the instance transform about `(x0, y0)`: a flip mirrors the
abscissa, then `rot` quarter turns are applied. -/
def ROTATION (rot flip : Int) (x0 y0 x y : Rat) : Rat × Rat :=
  let xxtmp := if flip ≠ 0 then 2 * x0 - x else x
  if rot = 0 then (xxtmp, y)
  else if rot = 1 then (x0 - y + y0, y0 + xxtmp - x0)
  else if rot = 2 then (2 * x0 - xxtmp, 2 * y0 - y)
  else (x0 + y - y0, y0 - xxtmp + x0)

/-- Modelled from the spec: get_square is not in actions.c. The index
"partitions the plane into uniform buckets" of side `BOXSIZE`, `NBOXES` of
them per axis, wrapping around. -/
def get_square (BOXSIZE : Rat) (NBOXES : Int) (x y : Rat) : Int × Int :=
  (⌊x / BOXSIZE⌋ % NBOXES, ⌊y / BOXSIZE⌋ % NBOXES)

/-- The helpers with the models above, buckets of side 400 on a 50 x 50 grid,
pin layer 5 and `SELECTED1 = 2`. -/
def std_helpers : KissHelpers :=
  { get_square := get_square 400 50, touch := touch, ROTATION := ROTATION,
    PINLAYER := 5, SELECTED1 := 2 }

/-- A symbol with the single pin rectangle (-1,-1)-(1,1) on layer 5. -/
def one_pin_symbol : xSymbol :=
  { name := some "res.sym", base_name := none, minx := -1, maxx := 1, miny := -1, maxy := 1,
    line := some [[], [], [], [], [], []],
    rect := some [[], [], [], [], [],
      [{ x1 := -1, y1 := -1, x2 := 1, y2 := 1, sel := 0, prop_ptr := some "name=p dir=inout",
         flags := 0, extraptr := none }]],
    poly := some [[], [], [], [], [], []],
    arc := some [[], [], [], [], [], []],
    text := some [],
    lines := some [0, 0, 0, 0, 0, 0], rects := some [0, 0, 0, 0, 0, 1],
    polygons := some [0, 0, 0, 0, 0, 0], arcs := some [0, 0, 0, 0, 0, 0],
    texts := 0, prop_ptr := some "type=resistor", type := some "resistor", templ := none,
    flags := 0 }

/-- An instance of symbol 0 at the origin, unrotated, with the given name and
selection state. -/
def instance_at_origin (instname : String) (sel : Nat) : xInstance :=
  { name := some "res.sym", ptr := 0, x0 := 0, y0 := 0, rot := 0, flip := 0, sel := sel,
    flags := 0, prop_ptr := none, instname := some instname }

/-- The selected instance 0 has its pin at (0,0). Wire 0, (0,0)-(0,10), is
selected and ends on that point; wire 1, (-10,0)-(10,0), is not selected and
passes through it. The bucket of (0,0) chains wire 1 before wire 0. -/
def kiss_two_wires_ctx : KissCtx :=
  { inst := [instance_at_origin "R1" 1],
    sym := [one_pin_symbol],
    wire := [{ x1 := 0, y1 := 0, x2 := 0, y2 := 10, sel := 1, bus := 0, prop_ptr := none },
             { x1 := -10, y1 := 0, x2 := 10, y2 := 0, sel := 0, bus := 0, prop_ptr := none }],
    sel_array := [{ type := ObjType.ELEMENT, n := 0, col := 0 },
                  { type := ObjType.WIRE, n := 0, col := 0 }],
    lastsel := 2,
    instpin_spatial_table := fun sqx sqy =>
      if sqx = 0 ∧ sqy = 0 then [{ x0 := 0, y0 := 0, n := 0, pin := 0 }] else [],
    wire_spatial_table := fun sqx sqy => if sqx = 0 ∧ sqy = 0 then [1, 0] else [],
    need_reb_sel_arr := 0,
    undo := [] }

/-- Instance 0 (unselected) and instance 1 (selected) both have their pin at
(0,0); there is no wire. -/
def kiss_two_pins_ctx : KissCtx :=
  { inst := [instance_at_origin "R1" 0, instance_at_origin "R2" 1],
    sym := [one_pin_symbol],
    wire := [],
    sel_array := [{ type := ObjType.ELEMENT, n := 1, col := 0 }],
    lastsel := 1,
    instpin_spatial_table := fun sqx sqy =>
      if sqx = 0 ∧ sqy = 0 then
        [{ x0 := 0, y0 := 0, n := 1, pin := 0 }, { x0 := 0, y0 := 0, n := 0, pin := 0 }]
      else [],
    wire_spatial_table := fun _ _ => [],
    need_reb_sel_arr := 0,
    undo := [] }

/-- The one pin symbol under another name. -/
def named_symbol (name : String) : xSymbol := { one_pin_symbol with name := some name }

/-- An instance of symbol `ptr` with the given attribute string. -/
def instance_of (ptr : Int) (instname : String) (prop_ptr : Option String) : xInstance :=
  { name := some "a.sym", ptr := ptr, x0 := 0, y0 := 0, rot := 0, flip := 0, sel := 0,
    flags := 0, prop_ptr := prop_ptr, instname := some instname }

/-- A cache of three symbols filling its array, with three instances: two of
symbol 0 asking for the same variant and one of symbol 1 asking for none. -/
def demo_cache : SymCache :=
  { sym := [named_symbol "a.sym", named_symbol "b.sym", named_symbol "c.sym"],
    symbols := 3,
    inst := [instance_of 0 "x1" (some "a_fast.sch"), instance_of 0 "x2" (some "a_fast.sch"),
             instance_of 1 "x3" none],
    instances := 3,
    num_syms := 0 }

/-- Simple helpers for `demo_cache`: the attribute string of an instance is
the value of its `schematic` token, names are kept as they are and `add_ext`
appends the extension. -/
def demo_helpers : SymHelpers :=
  { get_tok_value := fun prop tok _ =>
      match prop with
      | some v => if tok = "schematic" then (v, v.length) else ("", 0)
      | none => ("", 0),
    str_replace := fun s _ _ _ => s,
    tcl_hook2 := fun s => s,
    get_cell := fun n _ => n.getD "",
    is_generator := fun _ => false,
    add_ext := fun s e => s ++ e,
    rel_sym_path := fun s => s,
    subst_token := fun v _ _ => v.getD "",
    ELEMDEF := 2,
    fresh_slot := clear_symbol one_pin_symbol }

/-- The relation between the state at the call of connect_by_kissing and a
state of its loops: either nothing has happened yet, or wires have been
appended after a single snapshot, taken of the wires at the call. -/
def kiss_undo_inv (ctx : KissCtx) (st : KissLoop) : Prop :=
  (st.done_undo = 0 ∧ st.changed = 0 ∧ st.ctx.wire = ctx.wire ∧ st.ctx.undo = ctx.undo) ∨
  (st.done_undo ≠ 0 ∧ st.changed = 1 ∧ st.ctx.undo = ctx.wire :: ctx.undo ∧
    ∃ w extra, st.ctx.wire = ctx.wire ++ w :: extra)

/-! ## The placement gestures: `new_wire` (lines 2370-2549), `new_polygon` (lines 2825-2892)

Drawing calls (drawline, drawtempline, drawtemppolygon, draw_selection, bbox,
draw) and the refresh of the netlist structures after a commit act on the
rendering backend and on derived data; they are left out. Of
restore_selection the call of rebuild_selected_array remains, which writes
the mode bits. -/

/-- The part of the document the gestures store into: the wires and, each
with its layer, the polygons, lines, rectangles and arcs. -/
structure GDoc where
  wire : List xWire
  poly : List (Nat × xPoly)
  line : List (Nat × xLine) := []
  rect : List (Nat × xRect) := []
  arc : List (Nat × xArc) := []
deriving DecidableEq

/-- The fields of `xctx` used by the gestures. `nl_polyx` and `nl_polyy` are
`none` when the pointer is NULL; `undo` is the stack of document snapshots of
push_undo; `mod` holds the fields set_modify works on. The fields after `mod`
are those of new_arc, select_rect and zoom_rectangle. -/
structure GestureCtx where
  ui_state : Nat
  manhattan_lines : Int
  nl_x1 : Rat
  nl_y1 : Rat
  nl_x2 : Rat
  nl_y2 : Rat
  nl_xx1 : Rat
  nl_yy1 : Rat
  nl_xx2 : Rat
  nl_yy2 : Rat
  mousex_snap : Rat
  mousey_snap : Rat
  nl_points : Nat
  nl_maxpoints : Nat
  nl_polyx : Option (List Rat)
  nl_polyy : Option (List Rat)
  rectcolor : Nat
  doc : GDoc
  undo : List GDoc
  prep_hi_structs : Int
  mod : ModCtx
  nl_state : Int := 0
  nl_r : Rat := 0
  nl_sweep_angle : Rat := 0
  nl_x3 : Rat := 0
  nl_y3 : Rat := 0
  nl_x : Rat := 0
  nl_y : Rat := 0
  nl_a : Rat := 0
  nl_b : Rat := 0
  nl_xr : Rat := 0
  nl_yr : Rat := 0
  nl_xr2 : Rat := 0
  nl_yr2 : Rat := 0
  nl_sel : Int := 0
  nl_sem : Int := 0
  mx_double_save : Rat := 0
  my_double_save : Rat := 0
  xorigin : Rat := 0
  yorigin : Rat := 0
  zoom : Rat := 1
  mooz : Rat := 1
  lw : Rat := 0
  areaw : Int := 0
  areah : Int := 0
deriving DecidableEq

/-- What the gestures take from outside actions.c: the phase bits of `what`,
the mode bits of `ui_state`, the macro `ORDER` (the four coordinates it leaves
in its four arguments), the Tcl variable `autotrim_wires`, the effect of
trim_wires on the wires, the constants `CADCHUNKALLOC` and `TEXT_FLOATER`, the
macro `INT_WIDTH`, and the functions rebuild_selected_array, select_inside,
change_linewidth and arc_3_points. `rebuild_selected_array doc u` is the
value rebuild_selected_array leaves in `ui_state` when called on the
document `doc` with `ui_state = u` (it writes the SELECTION flag, comments of
lines 1301 and 3151); the selection array it fills is not a part of the
state. `arc_3_points` takes the three points and the five values its output
arguments hold at the call, and gives the five values they hold after it. -/
structure GestureHelpers where
  PLACE : Nat
  RUBBER : Nat
  END : Nat
  CLEAR : Nat
  ADD : Nat
  SET : Nat
  START : Nat
  STARTWIRE : Nat
  STARTPOLYGON : Nat
  STARTLINE : Nat
  STARTRECT : Nat
  STARTARC : Nat
  STARTZOOM : Nat
  STARTSELECT : Nat
  ORDER : Rat → Rat → Rat → Rat → Rat × Rat × Rat × Rat
  autotrim_wires : Bool
  trim_wires : List xWire → List xWire
  CADCHUNKALLOC : Nat
  TEXT_FLOATER : Nat
  INT_WIDTH : Rat → Int
  rebuild_selected_array : GDoc → Nat → Nat
  select_inside : Rat → Rat → Rat → Rat → Int → GestureCtx → GestureCtx
  change_linewidth : Rat → GestureCtx → GestureCtx
  arc_3_points : Rat → Rat → Rat → Rat → Rat → Rat → Rat × Rat × Rat × Rat × Rat →
    Rat × Rat × Rat × Rat × Rat

/-- The C expression `u & ~m` on non-negative values. -/
def clear_bits (u m : Nat) : Nat := u &&& (u ^^^ m)

/-- The statements `nl_xx1 = nl_x1; nl_yy1 = nl_y1; nl_xx2 = nl_x2; nl_yy2 = nl_y2;`. -/
def load_xx (c : GestureCtx) : GestureCtx :=
  { c with nl_xx1 := c.nl_x1, nl_yy1 := c.nl_y1, nl_xx2 := c.nl_x2, nl_yy2 := c.nl_y2 }

/-- `ORDER(nl_xx1, nl_yy1, nl_xx2, nl_yy1)`: the second and fourth argument are
the same variable, which keeps what the macro leaves in its fourth argument. -/
def order_x1y1_x2y1 (H : GestureHelpers) (c : GestureCtx) : GestureCtx :=
  let r := H.ORDER c.nl_xx1 c.nl_yy1 c.nl_xx2 c.nl_yy1
  { c with nl_xx1 := r.1, nl_xx2 := r.2.2.1, nl_yy1 := r.2.2.2 }

/-- `ORDER(nl_xx2, nl_yy1, nl_xx2, nl_yy2)`: the first and third argument are
the same variable, which keeps what the macro leaves in its third argument. -/
def order_x2y1_x2y2 (H : GestureHelpers) (c : GestureCtx) : GestureCtx :=
  let r := H.ORDER c.nl_xx2 c.nl_yy1 c.nl_xx2 c.nl_yy2
  { c with nl_yy1 := r.2.1, nl_yy2 := r.2.2.2, nl_xx2 := r.2.2.1 }

/-- `ORDER(nl_xx1, nl_yy1, nl_xx1, nl_yy2)`. -/
def order_x1y1_x1y2 (H : GestureHelpers) (c : GestureCtx) : GestureCtx :=
  let r := H.ORDER c.nl_xx1 c.nl_yy1 c.nl_xx1 c.nl_yy2
  { c with nl_yy1 := r.2.1, nl_yy2 := r.2.2.2, nl_xx1 := r.2.2.1 }

/-- `ORDER(nl_xx1, nl_yy2, nl_xx2, nl_yy2)`. -/
def order_x1y2_x2y2 (H : GestureHelpers) (c : GestureCtx) : GestureCtx :=
  let r := H.ORDER c.nl_xx1 c.nl_yy2 c.nl_xx2 c.nl_yy2
  { c with nl_xx1 := r.1, nl_xx2 := r.2.2.1, nl_yy2 := r.2.2.2 }

/-- `ORDER(nl_xx1, nl_yy1, nl_xx2, nl_yy2)`. -/
def order_x1y1_x2y2 (H : GestureHelpers) (c : GestureCtx) : GestureCtx :=
  let r := H.ORDER c.nl_xx1 c.nl_yy1 c.nl_xx2 c.nl_yy2
  { c with nl_xx1 := r.1, nl_yy1 := r.2.1, nl_xx2 := r.2.2.1, nl_yy2 := r.2.2.2 }

/-- The statements `nl_x2 = mx_snap; nl_y2 = my_snap;`. -/
def set_rubber_end (mx_snap my_snap : Rat) (c : GestureCtx) : GestureCtx :=
  { c with nl_x2 := mx_snap, nl_y2 := my_snap }

/-- Modelled from the spec: storeobject is not in actions.c; called with
position -1, type WIRE, selection 0 and no attribute string it appends the
wire `(x1,y1)-(x2,y2)` after the last wire of the document. -/
def store_wire (c : GestureCtx) (x1 y1 x2 y2 : Rat) : GestureCtx :=
  { c with doc := { c.doc with wire := c.doc.wire ++
      [{ x1 := x1, y1 := y1, x2 := x2, y2 := y2, sel := 0, bus := 0, prop_ptr := none }] } }

/-- Modelled from the spec: push_undo is reached through `xctx->push_undo`; the
document is snapshot and the snapshot pushed on the undo stack. -/
def gesture_push_undo (c : GestureCtx) : GestureCtx := { c with undo := c.doc :: c.undo }

/-- Lines 2378-2424: the wires stored by a commit, by Manhattan mode. The
result carries the local `modified`. -/
def new_wire_store (H : GestureHelpers) (c : GestureCtx) : GestureCtx × Int :=
  if c.manhattan_lines = 1 then
    let s1 : GestureCtx × Int :=
      if c.nl_xx2 ≠ c.nl_xx1 then
        let c1 := order_x1y1_x2y1 H (load_xx c)
        (store_wire c1 c1.nl_xx1 c1.nl_yy1 c1.nl_xx2 c1.nl_yy1, 1)
      else (c, 0)
    if s1.1.nl_yy2 ≠ s1.1.nl_yy1 then
      let c2 := order_x2y1_x2y2 H (load_xx s1.1)
      (store_wire c2 c2.nl_xx2 c2.nl_yy1 c2.nl_xx2 c2.nl_yy2, 1)
    else s1
  else if c.manhattan_lines = 2 then
    let s1 : GestureCtx × Int :=
      if c.nl_yy2 ≠ c.nl_yy1 then
        let c1 := order_x1y1_x1y2 H (load_xx c)
        (store_wire c1 c1.nl_xx1 c1.nl_yy1 c1.nl_xx1 c1.nl_yy2, 1)
      else (c, 0)
    if s1.1.nl_xx2 ≠ s1.1.nl_xx1 then
      let c2 := order_x1y2_x2y2 H (load_xx s1.1)
      (store_wire c2 c2.nl_xx1 c2.nl_yy2 c2.nl_xx2 c2.nl_yy2, 1)
    else s1
  else
    let c1 := order_x1y1_x2y2 H (load_xx c)
    (store_wire c1 c1.nl_xx1 c1.nl_yy1 c1.nl_xx2 c1.nl_yy2, 1)

/-- Lines 2376-2447: the commit of a PLACE phase. -/
def new_wire_commit (H : GestureHelpers) (c : GestureCtx) : GestureCtx × Int :=
  if c.ui_state &&& H.STARTWIRE ≠ 0 ∧ (c.nl_x1 ≠ c.nl_x2 ∨ c.nl_y1 ≠ c.nl_y2) then
    let s := new_wire_store H (gesture_push_undo c)
    let c1 := { s.1 with prep_hi_structs := 0 }
    let c2 := if H.autotrim_wires = true then
        { c1 with doc := { c1.doc with wire := H.trim_wires c1.doc.wire } }
      else c1
    (c2, s.2)
  else (c, 0)

/-- Lines 2449-2483: a new rubber segment is started at `(mx_snap, my_snap)`. -/
def new_wire_arm (H : GestureHelpers) (mx_snap my_snap : Rat) (c : GestureCtx) : GestureCtx :=
  let c1 := { c with nl_x1 := mx_snap, nl_y1 := my_snap,
                     nl_x2 := c.mousex_snap, nl_y2 := c.mousey_snap,
                     nl_xx1 := mx_snap, nl_yy1 := my_snap,
                     nl_xx2 := c.mousex_snap, nl_yy2 := c.mousey_snap }
  let c2 := set_rubber_end mx_snap my_snap c1
  if c.manhattan_lines = 1 then
    order_x2y1_x2y2 H (load_xx (order_x1y1_x2y1 H (load_xx c2)))
  else if c.manhattan_lines = 2 then
    order_x1y2_x2y2 H (load_xx (order_x1y1_x1y2 H (load_xx c2)))
  else order_x1y1_x2y2 H (load_xx c2)

/-- Lines 2356-2368, `restore_selection`: RECTORDER acts on the locals, which
only the drawing calls read; the call of rebuild_selected_array remains. -/
def restore_selection (H : GestureHelpers) (c : GestureCtx) : GestureCtx :=
  { c with ui_state := H.rebuild_selected_array c.doc c.ui_state }

/-- Lines 2491-2548: the RUBBER phase; `clear` is `what & CLEAR`. -/
def new_wire_rubber (H : GestureHelpers) (clear : Bool) (mx_snap my_snap : Rat)
    (c : GestureCtx) : GestureCtx :=
  if c.manhattan_lines = 1 then
    let c1 := order_x2y1_x2y2 H (load_xx (order_x1y1_x2y1 H (load_xx c)))
    let c2 := set_rubber_end mx_snap my_snap (restore_selection H c1)
    if clear = false then order_x2y1_x2y2 H (load_xx (order_x1y1_x2y1 H (load_xx c2)))
    else c2
  else if c.manhattan_lines = 2 then
    let c1 := order_x1y2_x2y2 H (load_xx (order_x1y1_x1y2 H (load_xx c)))
    let c2 := set_rubber_end mx_snap my_snap (restore_selection H c1)
    if clear = false then order_x1y2_x2y2 H (load_xx (order_x1y1_x1y2 H (load_xx c2)))
    else c2
  else
    let c1 := order_x1y1_x2y2 H (load_xx c)
    let c2 := set_rubber_end mx_snap my_snap (restore_selection H c1)
    if clear = false then order_x1y1_x2y2 H (load_xx c2)
    else c2

/-- Lines 2374-2487: the PLACE phase. -/
def new_wire_place (H : GestureHelpers) (what : Nat) (mx_snap my_snap : Rat) (c : GestureCtx) :
    GestureCtx :=
  let s := new_wire_commit H c
  let c1 := if what &&& H.END = 0 then new_wire_arm H mx_snap my_snap s.1 else s.1
  let c2 := { c1 with ui_state := c1.ui_state ||| H.STARTWIRE }
  if s.2 ≠ 0 then { c2 with mod := set_modify H.TEXT_FLOATER 1 c2.mod } else c2

/-- `new_wire(what, mx_snap, my_snap)`. -/
def new_wire (H : GestureHelpers) (what : Nat) (mx_snap my_snap : Rat) (c : GestureCtx) :
    GestureCtx :=
  let c1 := if what &&& H.PLACE ≠ 0 then new_wire_place H what mx_snap my_snap c else c
  let c2 := if what &&& H.END ≠ 0 then
      { c1 with ui_state := clear_bits c1.ui_state H.STARTWIRE }
    else c1
  if what &&& H.RUBBER ≠ 0 then
    new_wire_rubber H (decide (what &&& H.CLEAR ≠ 0)) mx_snap my_snap c2
  else c2

/-- What is known of the macro ORDER: it leaves its four arguments as they are
or exchanges the first point with the second. -/
def order_ok (H : GestureHelpers) : Prop :=
  ∀ a b c d, H.ORDER a b c d = (a, b, c, d) ∨ H.ORDER a b c d = (c, d, a, b)

/-- Modelled from the spec: the macro ORDER is not in actions.c. It puts the
two end points of a segment in order: they are exchanged when the second is
left of the first, or at the same abscissa and below it. -/
def ORDER (x1 y1 x2 y2 : Rat) : Rat × Rat × Rat × Rat :=
  if x2 < x1 then (x2, y2, x1, y1)
  else if x2 = x1 ∧ y2 < y1 then (x1, y2, x2, y1)
  else (x1, y1, x2, y2)

/-- The wire `(a,b)-(c,d)` as storeobject stores it from new_wire. -/
def seg (a b c d : Rat) : xWire :=
  { x1 := a, y1 := b, x2 := c, y2 := d, sel := 0, bus := 0, prop_ptr := none }

/-- The wire `w` is the segment between `(a,b)` and `(c,d)`, its end points in
either order. -/
def same_segment (w : xWire) (a b c d : Rat) : Prop := w = seg a b c d ∨ w = seg c d a b

/-- The wires after the commit of a PLACE phase that stored `ws` after the
wires `old`: trim_wires acts on them when `autotrim_wires` is set. -/
def committed_wires (H : GestureHelpers) (old ws : List xWire) : List xWire :=
  if H.autotrim_wires = true then H.trim_wires (old ++ ws) else old ++ ws

/-- The rubber coordinates `nl_xx*`, `nl_yy*` hold the two end points
`(nl_x1, nl_y1)`, `(nl_x2, nl_y2)` of the rubber segment, abscissas and
ordinates each in either order. -/
def wire_tracked (c : GestureCtx) : Prop :=
  ((c.nl_xx1 = c.nl_x1 ∧ c.nl_xx2 = c.nl_x2) ∨ (c.nl_xx1 = c.nl_x2 ∧ c.nl_xx2 = c.nl_x1)) ∧
  ((c.nl_yy1 = c.nl_y1 ∧ c.nl_yy2 = c.nl_y2) ∨ (c.nl_yy1 = c.nl_y2 ∧ c.nl_yy2 = c.nl_y1))

/-- The document, the undo stack, the modification state, the mode bits and the
Manhattan mode of a state. -/
def gesture_frame (c : GestureCtx) : GDoc × List GDoc × ModCtx × Nat × Int :=
  (c.doc, c.undo, c.mod, c.ui_state, c.manhattan_lines)

/-- The state `b` differs from `a` in the rubber coordinates `nl_xx*`, `nl_yy*`
at most. -/
def only_xx (a b : GestureCtx) : Prop :=
  b.ui_state = a.ui_state ∧ b.manhattan_lines = a.manhattan_lines ∧
  b.nl_x1 = a.nl_x1 ∧ b.nl_y1 = a.nl_y1 ∧ b.nl_x2 = a.nl_x2 ∧ b.nl_y2 = a.nl_y2 ∧
  b.mousex_snap = a.mousex_snap ∧ b.mousey_snap = a.mousey_snap ∧
  b.nl_points = a.nl_points ∧ b.nl_maxpoints = a.nl_maxpoints ∧
  b.nl_polyx = a.nl_polyx ∧ b.nl_polyy = a.nl_polyy ∧ b.rectcolor = a.rectcolor ∧
  b.doc = a.doc ∧ b.undo = a.undo ∧ b.prep_hi_structs = a.prep_hi_structs ∧ b.mod = a.mod ∧
  b.nl_state = a.nl_state ∧ b.nl_r = a.nl_r ∧ b.nl_sweep_angle = a.nl_sweep_angle ∧
  b.nl_x3 = a.nl_x3 ∧ b.nl_y3 = a.nl_y3 ∧ b.nl_x = a.nl_x ∧ b.nl_y = a.nl_y ∧ b.nl_a = a.nl_a ∧
  b.nl_b = a.nl_b ∧ b.nl_xr = a.nl_xr ∧ b.nl_yr = a.nl_yr ∧ b.nl_xr2 = a.nl_xr2 ∧
  b.nl_yr2 = a.nl_yr2 ∧ b.nl_sel = a.nl_sel ∧ b.nl_sem = a.nl_sem ∧
  b.mx_double_save = a.mx_double_save ∧ b.my_double_save = a.my_double_save ∧
  b.xorigin = a.xorigin ∧ b.yorigin = a.yorigin ∧ b.zoom = a.zoom ∧ b.mooz = a.mooz ∧
  b.lw = a.lw ∧ b.areaw = a.areaw ∧ b.areah = a.areah

/-- Modelled from the spec: rebuild_selected_array is not in actions.c. It
sets the flag SELECTION, taken as bit 128, when an object is selected, here a
wire or a polygon, and clears it when none is. -/
def selection_flag (doc : GDoc) (u : Nat) : Nat :=
  if doc.wire.any (fun w => decide (w.sel ≠ 0)) ∨ doc.poly.any (fun p => decide (p.2.sel ≠ 0))
  then u ||| 128 else clear_bits u 128

/-- Modelled from the spec: the phase bits, the mode bits and the constants are
defined outside actions.c; distinct bits are taken here. ORDER is the macro
as modelled above, `autotrim_wires` is off, `INT_WIDTH` rounds the line width
down with a minimum of 1, select_inside and change_linewidth leave the
state as it is, and arc_3_points leaves its output arguments as they are. -/
def gesture_helpers : GestureHelpers :=
  { PLACE := 1, RUBBER := 2, END := 4, CLEAR := 8, ADD := 16, SET := 32, START := 64,
    STARTWIRE := 1, STARTPOLYGON := 2, STARTLINE := 4, STARTRECT := 8, STARTARC := 16,
    STARTZOOM := 32, STARTSELECT := 64, ORDER := ORDER, autotrim_wires := false,
    trim_wires := fun ws => ws, CADCHUNKALLOC := 512, TEXT_FLOATER := 2,
    INT_WIDTH := fun lw => max 1 ⌊lw⌋,
    rebuild_selected_array := selection_flag,
    select_inside := fun _ _ _ _ _ c => c,
    change_linewidth := fun _ c => c,
    arc_3_points := fun _ _ _ _ _ _ out => out }

/-- An empty document with no gesture in progress, in Manhattan mode `m`. -/
def gesture_start (m : Int) : GestureCtx :=
  { ui_state := 0, manhattan_lines := m, nl_x1 := 0, nl_y1 := 0, nl_x2 := 0, nl_y2 := 0,
    nl_xx1 := 0, nl_yy1 := 0, nl_xx2 := 0, nl_yy2 := 0, mousex_snap := 0, mousey_snap := 0,
    nl_points := 0, nl_maxpoints := 0, nl_polyx := none, nl_polyy := none, rectcolor := 4,
    doc := { wire := [], poly := [] }, undo := [], prep_hi_structs := 0,
    mod := sheet_with_texts [] }

/-- The phases PLACE at (0,0), RUBBER to (5,5), RUBBER with CLEAR to (0,7) and
PLACE at (0,7), in mode H-then-V. -/
def stale_guard_run : GestureCtx :=
  new_wire gesture_helpers 1 0 7
    (new_wire gesture_helpers 10 0 7
      (new_wire gesture_helpers 2 5 5
        (new_wire gesture_helpers 1 0 0 (gesture_start 1))))

/-! ### `new_polygon` (lines 2825-2892)

The arrays `nl_polyx`, `nl_polyy` are lists of their allocated elements; a
read or write through a NULL pointer or off the allocated elements has no
defined result and makes the call fail (`none`). -/

/-- Element `i` of an array of doubles. -/
def arr_get (p : Option (List Rat)) (i : Int) : Option Rat :=
  match p with
  | none => none
  | some xs => if 0 ≤ i then xs[i.toNat]? else none

/-- The assignment `p[i] = v`; the result is the array after it. -/
def arr_set (p : Option (List Rat)) (i : Nat) (v : Rat) : Option (List Rat) :=
  match p with
  | none => none
  | some xs => if i < xs.length then some (xs.set i v) else none

/-- Modelled from the spec: my_realloc is not in actions.c. The array is
resized to `n` elements and keeps its leading elements; a size of 0 frees it.
The new elements have no determined value in C and are 0 here. -/
def my_realloc_doubles (p : Option (List Rat)) (n : Nat) : Option (List Rat) :=
  if n = 0 then none else some ((p.getD [] ++ List.replicate n 0).take n)

/-- Lines 2829-2833: the storage check. -/
def new_polygon_storage (H : GestureHelpers) (c : GestureCtx) : GestureCtx :=
  if (c.nl_points : Int) ≥ (c.nl_maxpoints : Int) - 1 then
    let m := (1 + c.nl_points / H.CADCHUNKALLOC) * H.CADCHUNKALLOC
    { c with nl_maxpoints := m, nl_polyx := my_realloc_doubles c.nl_polyx m,
             nl_polyy := my_realloc_doubles c.nl_polyy m }
  else c

/-- The statements `nl_points++; nl_polyx[nl_points] = nl_polyx[nl_points-1];
nl_polyy[nl_points] = nl_polyy[nl_points-1];` of lines 2839-2841 and
2863-2866. -/
def new_polygon_next (c : GestureCtx) : Option GestureCtx := do
  let n := c.nl_points + 1
  let vx ← arr_get c.nl_polyx ((n : Int) - 1)
  let px ← arr_set c.nl_polyx n vx
  let vy ← arr_get c.nl_polyy ((n : Int) - 1)
  let py ← arr_set c.nl_polyy n vy
  some { c with nl_points := n, nl_polyx := some px, nl_polyy := some py }

/-- Lines 2834-2846: the PLACE phase. -/
def new_polygon_place (H : GestureHelpers) (c : GestureCtx) : Option GestureCtx := do
  let py ← arr_set c.nl_polyy c.nl_points c.mousey_snap
  let px ← arr_set c.nl_polyx c.nl_points c.mousex_snap
  let c1 ← new_polygon_next { c with nl_polyx := some px, nl_polyy := some py }
  some { c1 with ui_state := c1.ui_state ||| H.STARTPOLYGON,
                 mod := set_modify H.TEXT_FLOATER 1 c1.mod }

/-- The condition of lines 2856-2857, the second comparison evaluated only
when the first fails. -/
def new_polygon_moved (c : GestureCtx) : Option Bool := do
  let xn ← arr_get c.nl_polyx c.nl_points
  let xp ← arr_get c.nl_polyx ((c.nl_points : Int) - 1)
  if xn ≠ xp then some true
  else do
    let yn ← arr_get c.nl_polyy c.nl_points
    let yp ← arr_get c.nl_polyy ((c.nl_points : Int) - 1)
    some (decide (yn ≠ yp))

/-- Lines 2847-2867: the ADD phase. The second component tells that the
function returns (line 2861). -/
def new_polygon_add (H : GestureHelpers) (what : Nat) (c : GestureCtx) :
    Option (GestureCtx × Bool) :=
  if what &&& H.END ≠ 0 then do
    let x0 ← arr_get c.nl_polyx 0
    let px ← arr_set c.nl_polyx c.nl_points x0
    let y0 ← arr_get c.nl_polyy 0
    let py ← arr_set c.nl_polyy c.nl_points y0
    let c1 ← new_polygon_next { c with nl_polyx := some px, nl_polyy := some py }
    some (c1, false)
  else do
    let moved ← new_polygon_moved c
    if moved = true then do
      let px ← arr_set c.nl_polyx c.nl_points c.mousex_snap
      let py ← arr_set c.nl_polyy c.nl_points c.mousey_snap
      let c1 ← new_polygon_next { c with nl_polyx := some px, nl_polyy := some py }
      some (c1, false)
    else some (c, true)

/-- The condition of lines 2869-2872, evaluated from left to right. -/
def new_polygon_ends (H : GestureHelpers) (what : Nat) (c : GestureCtx) : Option Bool :=
  if what &&& H.SET ≠ 0 ∨ what &&& H.END ≠ 0 then some true
  else if what &&& H.ADD ≠ 0 then do
    let xl ← arr_get c.nl_polyx ((c.nl_points : Int) - 1)
    let x0 ← arr_get c.nl_polyx 0
    if xl = x0 then do
      let yl ← arr_get c.nl_polyy ((c.nl_points : Int) - 1)
      let y0 ← arr_get c.nl_polyy 0
      some (decide (yl = y0))
    else some false
  else some false

/-- Modelled from the spec: store_poly is not in actions.c; called with
position -1, selection 0 and no attribute string it appends to the polygons of
layer `rectcolor` a polygon holding a copy of the first `points` elements of
the two arrays, no point of it selected. -/
def store_poly (c : GestureCtx) (points : Nat) : Option GestureCtx :=
  match c.nl_polyx, c.nl_polyy with
  | some xs, some ys =>
    if points ≤ xs.length ∧ points ≤ ys.length then
      some { c with doc := { c.doc with poly := c.doc.poly ++
        [(c.rectcolor, { x := xs.take points, y := ys.take points,
                         selected_point := List.replicate points 0,
                         points := points, sel := 0, prop_ptr := none })] } }
    else none
  | _, _ => none

/-- Lines 2873-2882: the polygon is stored and the gesture ended. -/
def new_polygon_finish (H : GestureHelpers) (c : GestureCtx) : Option GestureCtx := do
  let c1 ← store_poly (gesture_push_undo c) c.nl_points
  some { c1 with ui_state := clear_bits c1.ui_state H.STARTPOLYGON,
                 nl_polyx := none, nl_polyy := none, nl_maxpoints := 0, nl_points := 0 }

/-- Lines 2884-2891: the RUBBER phase. -/
def new_polygon_rubber (c : GestureCtx) : Option GestureCtx := do
  let py ← arr_set c.nl_polyy c.nl_points c.mousey_snap
  let px ← arr_set c.nl_polyx c.nl_points c.mousex_snap
  some { c with nl_polyx := some px, nl_polyy := some py }

/-- Lines 2868-2891: what follows the ADD phase. -/
def new_polygon_tail (H : GestureHelpers) (what : Nat) (c : GestureCtx) : Option GestureCtx := do
  let e ← new_polygon_ends H what c
  let c1 ← if e = true then new_polygon_finish H c else some c
  if what &&& H.RUBBER ≠ 0 then new_polygon_rubber c1 else some c1

/-- `new_polygon(what)`. -/
def new_polygon (H : GestureHelpers) (what : Nat) (c : GestureCtx) : Option GestureCtx := do
  let c0 := if what &&& H.PLACE ≠ 0 then { c with nl_points := 0 } else c
  let c1 := new_polygon_storage H c0
  let c2 ← if what &&& H.PLACE ≠ 0 then new_polygon_place H c1 else some c1
  let r ← if what &&& H.ADD ≠ 0 then new_polygon_add H what c2 else some (c2, false)
  if r.2 = true then some r.1 else new_polygon_tail H what r.1

/-- The polygon store_poly makes of the `points` vertices `xs`, `ys`. -/
def polygon_of (points : Nat) (xs ys : List Rat) : xPoly :=
  { x := xs, y := ys, selected_point := List.replicate points 0, points := points,
    sel := 0, prop_ptr := none }

/-- A polygon placement with the committed vertices (1,2), (5,2), the rubber
point at (7,9) and the mouse back on vertex 0; the arrays hold 4 elements. -/
def polygon_pending : GestureCtx :=
  { gesture_start 0 with ui_state := 2, nl_points := 2, nl_maxpoints := 4,
                         nl_polyx := some [1, 5, 7, 0], nl_polyy := some [2, 2, 9, 0],
                         mousex_snap := 1, mousey_snap := 2 }

/-! ## The viewport: `calc_drawing_bbox` (lines 1938-2092), `zoom_full` (lines 2095-2140), `view_zoom` and `view_unzoom` (lines 2142-2177)

Doubles are rationals (exact arithmetic); the ints of the drawing area are
integers, taken without overflow. The calls of dbg, draw and
redraw_w_a_l_r_p_rubbers act on the log and on the rendering backend and are
left out. -/

/-- The four coordinates of an `xRect` used as a bounding box. -/
structure Box where
  x1 : Rat
  y1 : Rat
  x2 : Rat
  y2 : Rat
deriving DecidableEq

/-- The fields of `xctx` and the globals (`cadhalfdotsize`, `has_x`,
`cadlayers`) the viewport functions use. `line`, `poly`, `arc`, `rect` hold
one list per layer, the list of layer `c` being the first `lines[c]`,
`polygons[c]`, `arcs[c]`, `rects[c]` elements of the array of that layer;
`wire`, `text`, `inst` likewise. `xrect_width` and `xrect_height` are
`xrect[0].width` and `xrect[0].height`. -/
structure ViewCtx where
  xorigin : Rat
  yorigin : Rat
  zoom : Rat
  mooz : Rat
  mousex_snap : Rat
  mousey_snap : Rat
  lw : Rat
  areax1 : Int
  areay1 : Int
  areax2 : Int
  areay2 : Int
  areaw : Int
  areah : Int
  xrect_width : Int
  xrect_height : Int
  cadhalfdotsize : Rat
  has_x : Bool
  hilight_nets : Int
  cadlayers : Nat
  line : List (List xLine)
  poly : List (List xPoly)
  arc : List (List xArc)
  rect : List (List xRect)
  wire : List xWire
  text : List xText
  inst : List xInstance
  sym : List xSymbol
  modified : Int
deriving DecidableEq

/-- What the viewport functions take from outside actions.c: the constants and
macros of xschem.h, the Tcl variables `unzoom_nodrift`, `change_lw`,
`cadsnap`, `hide_empty_graphs`, the result of sch_waves_loaded, and the
functions arc_bbox, bus_hilight_hash_lookup (whether an entry is found),
prepare_netlist_structs and change_linewidth. `text_bbox v i` is the box
text_bbox gives for text `i` of `v` (measured by the rendering backend from
the string get_text_floater gives), `none` when it returns 0. -/
structure ViewHelpers where
  CADMINZOOM : Rat
  CADMAXZOOM : Rat
  CADZOOMSTEP : Rat
  CADHALFDOTSIZE : Rat
  GRIDLAYER : Nat
  INT_WIDTH : Rat → Int
  INT_BUS_WIDTH : Rat → Int
  IS_LABEL_OR_PIN : String → Bool
  unzoom_nodrift : Bool
  change_lw : Bool
  cadsnap : Rat
  hide_empty_graphs : Option String
  sch_waves_loaded : Int
  arc_bbox : Rat → Rat → Rat → Rat → Rat → Box
  text_bbox : ViewCtx → Nat → Option Box
  bus_hilight_hash_lookup : ViewCtx → Option String → Bool
  prepare_netlist_structs : ViewCtx → ViewCtx
  change_linewidth : Rat → ViewCtx → ViewCtx

/-- Modelled from the spec: the macro RECTORDER is not in actions.c. It
exchanges `x1` with `x2` when `x2 < x1`, and `y1` with `y2` when `y2 < y1`. -/
def RECTORDER (b : Box) : Box :=
  let b1 := if b.x2 < b.x1 then { b with x1 := b.x2, x2 := b.x1 } else b
  if b1.y2 < b1.y1 then { b1 with y1 := b1.y2, y2 := b1.y1 } else b1

/-- Modelled from the spec: updatebbox is not in actions.c. The rectangle is
put in order; the first one (`count = 1`) becomes the bounding box, a later
one extends it. -/
def updatebbox (count : Int) (boundbox tmp : Box) : Box :=
  let t := RECTORDER tmp
  if count = 1 then t
  else
    { x1 := if t.x1 < boundbox.x1 then t.x1 else boundbox.x1,
      x2 := if t.x2 > boundbox.x2 then t.x2 else boundbox.x2,
      y1 := if t.y1 < boundbox.y1 then t.y1 else boundbox.y1,
      y2 := if t.y2 > boundbox.y2 then t.y2 else boundbox.y2 }

/-- The statements `++count; updatebbox(count, boundbox, &rect);` on the pair
of `count` and `*boundbox`. -/
def bbox_add (s : Int × Box) (rect : Box) : Int × Box :=
  (s.1 + 1, updatebbox (s.1 + 1) s.2 rect)

/-- Lines 1957-1966: the lines of one layer. -/
def bbox_lines (selected : Int) (ls : List xLine) (s : Int × Box) : Int × Box :=
  ls.foldl (fun s l =>
    if selected = 1 ∧ l.sel = 0 then s
    else bbox_add s { x1 := l.x1, x2 := l.x2, y1 := l.y1, y2 := l.y2 }) s

/-- Lines 1970-1981: the extent of the first `points` points of a polygon; a
point off the arrays reads as 0. -/
def poly_extent (p : xPoly) : Box :=
  (List.range p.points).foldl (fun b k =>
    let x := p.x.getD k 0
    let y := p.y.getD k 0
    { x1 := if k = 0 ∨ x < b.x1 then x else b.x1,
      y1 := if k = 0 ∨ y < b.y1 then y else b.y1,
      x2 := if k = 0 ∨ x > b.x2 then x else b.x2,
      y2 := if k = 0 ∨ y > b.y2 then y else b.y2 })
    { x1 := 0, y1 := 0, x2 := 0, y2 := 0 }

/-- Lines 1968-1983: the polygons of one layer. -/
def bbox_polygons (selected : Int) (ps : List xPoly) (s : Int × Box) : Int × Box :=
  ps.foldl (fun s p => if selected = 1 ∧ p.sel = 0 then s else bbox_add s (poly_extent p)) s

/-- Lines 1985-1992: the arcs of one layer. -/
def bbox_arcs (H : ViewHelpers) (selected : Int) (as : List xArc) (s : Int × Box) :
    Int × Box :=
  as.foldl (fun s a =>
    if selected = 1 ∧ a.sel = 0 then s else bbox_add s (H.arc_bbox a.x a.y a.r a.a a.b)) s

/-- Lines 1994-2007: the rectangles of layer `c`; graph rectangles are passed
over when empty graphs are hidden and no waves are loaded. -/
def bbox_rects (H : ViewHelpers) (selected : Int) (c : Nat) (rs : List xRect)
    (s : Int × Box) : Int × Box :=
  let hide_graphs : Bool :=
    match H.hide_empty_graphs with
    | none => false
    | some tmp => decide (tmp.toList.head? = some '1')
  let waves : Bool := decide (H.sch_waves_loaded ≥ 0)
  rs.foldl (fun s r =>
    if selected = 1 ∧ r.sel = 0 then s
    else if c = H.GRIDLAYER ∧ r.flags ≠ 0 ∧ hide_graphs = true ∧ waves = false then s
    else bbox_add s { x1 := r.x1, x2 := r.x2, y1 := r.y1, y2 := r.y2 }) s

/-- Lines 1951-2008: the loop over the layers, from layer `c` on, `n` layers
left; a layer without a list has no object. -/
def bbox_layers (H : ViewHelpers) (v : ViewCtx) (selected : Int) :
    Nat → Nat → Int × Box → Int × Box
  | 0, _, s => s
  | n + 1, c, s =>
    let s1 := bbox_lines selected (v.line.getD c []) s
    let s2 := bbox_polygons selected (v.poly.getD c []) s1
    let s3 := bbox_arcs H selected (v.arc.getD c []) s2
    let s4 := bbox_rects H selected c (v.rect.getD c []) s3
    bbox_layers H v selected n (c + 1) s4

/-- Lines 2022-2034: the rectangle of a wire, widened by the dot size. -/
def wire_rect (H : ViewHelpers) (v : ViewCtx) (w : xWire) : Box :=
  let ov : Rat :=
    if w.bus ≠ 0 then
      (if (H.INT_BUS_WIDTH v.lw : Rat) > v.cadhalfdotsize then (H.INT_BUS_WIDTH v.lw : Rat)
       else H.CADHALFDOTSIZE)
    else v.cadhalfdotsize
  let y1 := if w.y1 < w.y2 then w.y1 - ov else w.y1 + ov
  let y2 := if w.y1 < w.y2 then w.y2 + ov else w.y2 - ov
  { x1 := w.x1 - ov, x2 := w.x2 + ov, y1 := y1, y2 := y2 }

/-- Lines 2010-2037: the wires. -/
def bbox_wires (H : ViewHelpers) (v : ViewCtx) (selected : Int) (s : Int × Box) :
    Int × Box :=
  v.wire.foldl (fun s w =>
    if selected = 1 ∧ w.sel = 0 then s
    else if selected = 2 ∧ (v.hilight_nets = 0 ∨ w.node = none ∨ w.node = some "" ∨
        H.bus_hilight_hash_lookup v w.node = false) then s
    else bbox_add s (wire_rect H v w)) s

/-- Lines 2038-2061: the texts, text `i` first, when a display is open. -/
def bbox_texts (H : ViewHelpers) (v : ViewCtx) (selected : Int) :
    List xText → Nat → Int × Box → Int × Box
  | [], _, s => s
  | t :: rest, i, s =>
    let s1 :=
      if selected = 1 ∧ t.sel = 0 then s
      else
        match H.text_bbox v i with
        | some rect => bbox_add s rect
        | none => s
    bbox_texts H v selected rest (i + 1) s1

/-- Lines 2069-2081: whether an instance counts among the hilighted objects.
The symbol of an instance without a slot in the cache has no type here. -/
def inst_hilighted (H : ViewHelpers) (v : ViewCtx) (i : xInstance) : Bool :=
  let type : Option String :=
    if 0 ≤ i.ptr then (v.sym[i.ptr.toNat]?).bind (fun s => s.type) else none
  let found : Bool :=
    match type with
    | some ty => H.IS_LABEL_OR_PIN ty && H.bus_hilight_hash_lookup v i.lab
    | none => false
  if found = false ∧ i.color ≠ -10000 then true else found

/-- Lines 2062-2091: the instances, by their cached boxes. -/
def bbox_instances (H : ViewHelpers) (v : ViewCtx) (selected : Int) (s : Int × Box) :
    Int × Box :=
  v.inst.foldl (fun s i =>
    if selected = 1 ∧ i.sel = 0 then s
    else if selected = 2 ∧ inst_hilighted H v i = false then s
    else bbox_add s { x1 := i.x1, y1 := i.y1, x2 := i.x2, y2 := i.y2 }) s

/-- `calc_drawing_bbox(boundbox, selected)`: the bounding box, and the state,
which prepare_netlist_structs has worked on when the hilighted objects are
asked for. -/
def calc_drawing_bbox (H : ViewHelpers) (v : ViewCtx) (selected : Int) : Box × ViewCtx :=
  let s0 : Int × Box := (0, { x1 := -100, x2 := 100, y1 := -100, y2 := 100 })
  let s1 := if selected ≠ 2 then bbox_layers H v selected v.cadlayers 0 s0 else s0
  let v1 := if selected = 2 ∧ v.hilight_nets ≠ 0 then H.prepare_netlist_structs v else v
  let s2 := bbox_wires H v1 selected s1
  let s3 := if v1.has_x = true ∧ selected ≠ 2 then bbox_texts H v1 selected v1.text 0 s2 else s2
  let s4 := bbox_instances H v1 selected s3
  (s4.2, v1)

/-- Lines 2101-2111: the drawing area is set from the window size. -/
def zoom_full_area (H : ViewHelpers) (v : ViewCtx) : ViewCtx :=
  let v1 := if H.change_lw = true then { v with lw := 1 } else v
  let ax1 := -2 * H.INT_WIDTH v1.lw
  let ay1 := -2 * H.INT_WIDTH v1.lw
  let ax2 := v1.xrect_width + 2 * H.INT_WIDTH v1.lw
  let ay2 := v1.xrect_height + 2 * H.INT_WIDTH v1.lw
  { v1 with areax1 := ax1, areay1 := ay1, areax2 := ax2, areay2 := ay2,
            areaw := ax2 - ax1, areah := ay2 - ay1 }

/-- Lines 2115-2133: zoom, mooz and origin are set from the bounding box. -/
def zoom_full_fit (H : ViewHelpers) (flags : Nat) (shrink : Rat) (boundbox : Box)
    (v : ViewCtx) : ViewCtx :=
  let schw : Rat := ((v.areaw - 4 * H.INT_WIDTH v.lw : Int) : Rat)
  let schh : Rat := ((v.areah - 4 * H.INT_WIDTH v.lw : Int) : Rat)
  let bboxw := boundbox.x2 - boundbox.x1
  let bboxh := boundbox.y2 - boundbox.y1
  let zoom0 := bboxw / schw
  let yzoom := bboxh / schh
  let zoom1 := if yzoom > zoom0 then yzoom else zoom0
  let zoom := zoom1 / shrink
  let xorigin :=
    if flags &&& 2 ≠ 0 then -boundbox.x1 + (zoom * schw - bboxw) / 2
    else -boundbox.x1 + (1 - shrink) / 2 * zoom * schw
  let yorigin :=
    if flags &&& 2 ≠ 0 then -boundbox.y1 + (zoom * schh - bboxh) / 2
    else -boundbox.y1 + zoom * schh - bboxh - (1 - shrink) / 2 * zoom * schh
  { v with zoom := zoom, mooz := 1 / zoom, xorigin := xorigin, yorigin := yorigin,
           cadhalfdotsize := H.CADHALFDOTSIZE + 4 / 100 * (H.cadsnap - 10) }

/-- `zoom_full(dr, sel, flags, shrink)`. -/
def zoom_full (H : ViewHelpers) (_dr : Int) (sel : Int) (flags : Nat) (shrink : Rat)
    (v : ViewCtx) : ViewCtx :=
  let v1 := if flags &&& 1 ≠ 0 then zoom_full_area H v else v
  let b := calc_drawing_bbox H v1 sel
  let v2 := zoom_full_fit H flags shrink b.1 b.2
  if flags &&& 1 ≠ 0 then H.change_linewidth (-1) v2 else v2

/-- The local `factor` of view_zoom and view_unzoom. -/
def zoom_factor (H : ViewHelpers) (z : Rat) : Rat := if z ≠ 0 then z else H.CADZOOMSTEP

/-- `view_zoom(z)`. -/
def view_zoom (H : ViewHelpers) (z : Rat) (v : ViewCtx) : ViewCtx :=
  let factor := zoom_factor H z
  if v.zoom < H.CADMINZOOM then v
  else
    let zoom := v.zoom / factor
    H.change_linewidth (-1)
      { v with zoom := zoom, mooz := 1 / zoom,
               xorigin := -v.mousex_snap + (v.mousex_snap + v.xorigin) / factor,
               yorigin := -v.mousey_snap + (v.mousey_snap + v.yorigin) / factor }

/-- `view_unzoom(z)`. -/
def view_unzoom (H : ViewHelpers) (z : Rat) (v : ViewCtx) : ViewCtx :=
  let factor := zoom_factor H z
  if v.zoom > H.CADMAXZOOM then v
  else
    let zoom := v.zoom * factor
    let xorigin :=
      if H.unzoom_nodrift = true then -v.mousex_snap + (v.mousex_snap + v.xorigin) * factor
      else v.xorigin + v.areaw * zoom * (1 - 1 / factor) / 2
    let yorigin :=
      if H.unzoom_nodrift = true then -v.mousey_snap + (v.mousey_snap + v.yorigin) * factor
      else v.yorigin + v.areah * zoom * (1 - 1 / factor) / 2
    H.change_linewidth (-1)
      { v with zoom := zoom, mooz := 1 / zoom, xorigin := xorigin, yorigin := yorigin }

/-- The function `f` on the state leaves origin, zoom, mooz and the snapped
mouse position as they are. -/
def keeps_viewport (f : ViewCtx → ViewCtx) : Prop :=
  ∀ v, (f v).xorigin = v.xorigin ∧ (f v).yorigin = v.yorigin ∧ (f v).zoom = v.zoom ∧
    (f v).mooz = v.mooz ∧ (f v).mousex_snap = v.mousex_snap ∧
    (f v).mousey_snap = v.mousey_snap

/-- The function `f` on the state leaves the line width and the size of the
drawing area as they are. -/
def keeps_area (f : ViewCtx → ViewCtx) : Prop :=
  ∀ v, (f v).lw = v.lw ∧ (f v).areaw = v.areaw ∧ (f v).areah = v.areah

/-- Modelled from the spec: the constants of xschem.h (zoom limits 1/1000000
and 1000000, zoom step 6/5), a line width of one pixel for INT_WIDTH and
INT_BUS_WIDTH, the Tcl variables `unzoom_nodrift` on and `change_lw` off,
no arcs, texts or hilights measured, and change_linewidth and
prepare_netlist_structs without effect on the state (`change_lw` off). -/
def view_helpers : ViewHelpers :=
  { CADMINZOOM := 1 / 1000000, CADMAXZOOM := 1000000, CADZOOMSTEP := 6 / 5,
    CADHALFDOTSIZE := 5 / 2, GRIDLAYER := 1, INT_WIDTH := fun _ => 1,
    INT_BUS_WIDTH := fun _ => 1, IS_LABEL_OR_PIN := fun _ => false,
    unzoom_nodrift := true, change_lw := false, cadsnap := 10,
    hide_empty_graphs := none, sch_waves_loaded := -1,
    arc_bbox := fun x y r _ _ => { x1 := x - r, y1 := y - r, x2 := x + r, y2 := y + r },
    text_bbox := fun _ _ => none, bus_hilight_hash_lookup := fun _ _ => false,
    prepare_netlist_structs := fun v => v, change_linewidth := fun _ v => v }

/-- A window of `w` x `h` pixels on an empty sheet of `cadlayers` layers, at
zoom `zoom`, the origin and the mouse at (0,0). -/
def empty_view (w h : Int) (cadlayers : Nat) (zoom : Rat) : ViewCtx :=
  { xorigin := 0, yorigin := 0, zoom := zoom, mooz := 1 / zoom, mousex_snap := 0,
    mousey_snap := 0, lw := 1, areax1 := 0, areay1 := 0, areax2 := w, areay2 := h,
    areaw := w, areah := h, xrect_width := w, xrect_height := h, cadhalfdotsize := 5 / 2,
    has_x := true, hilight_nets := 0, cadlayers := cadlayers,
    line := List.replicate cadlayers [], poly := List.replicate cadlayers [],
    arc := List.replicate cadlayers [], rect := List.replicate cadlayers [],
    wire := [], text := [], inst := [], sym := [], modified := 0 }

/-- The sheet of one rectangle (0,0)-(100,50) on layer 4, in a window of
1000 x 500 pixels. -/
def one_rect_view : ViewCtx :=
  { empty_view 1000 500 5 1 with
    rect := [[], [], [], [],
      [{ x1 := 0, y1 := 0, x2 := 100, y2 := 50, sel := 0, prop_ptr := none, flags := 0,
         extraptr := none }]] }

/-! ## The hierarchy: `save` (lines 451-476), `remove_symbols` (lines 643-656), `descend_schematic` (lines 1649-1808), `go_back` (lines 1810-1875)

The per-level arrays (`sch`, `sch_path`, `portmap`, `hier_attr`, `zoom_array`,
...) are lists; a level that is not a slot of its array does not occur in a
consistent state: a write there is dropped and a read gives the empty value.
The state of descend_schematic is taken after the opening call of
rebuild_selected_array, which refreshes `lastsel` and `sel_array`. The calls
of dbg and draw are left out. -/

/-- An entry of `xctx->zoom_array`. -/
structure Zoom where
  x : Rat
  y : Rat
  zoom : Rat
deriving DecidableEq

/-- An entry of `xctx->hier_attr`: the attributes of the instance descended
into and the template of its symbol. -/
structure HierAttr where
  prop_ptr : Option String
  templ : Option String
deriving DecidableEq

/-- The fields of `xctx` used by save, descend_schematic and go_back; `view`
holds the loaded sheet with its viewport and its `modified` flag. A port-map
is `none` when its table pointer is NULL. -/
structure HierCtx where
  view : ViewCtx
  lastsel : Int
  sel_array : List Selected
  currsch : Nat
  sch : List String
  time_last_modify : Int
  netlist_type : Int
  sch_path : List (Option String)
  sch_path_hash : List Nat
  portmap : List (Option (List (String × String)))
  hier_attr : List HierAttr
  sch_inst_number : List Int
  previous_instance : List Int
  zoom_array : List Zoom
deriving DecidableEq

/-- What the hierarchy functions take from outside actions.c. `V` are the
helpers of the viewport. `save_file_dialog`, `ask_save` and `input_line` are
the Tcl results of the dialogs; `stat` is the modification time of a file, if
it exists; `my_strtok_r s delim quote` is the list of the tokens successive
calls give; `get_sch_from_sym c n` is the file name get_sch_from_sym (lines
1582-1647) works out for instance `n` from the file system and the Tcl
interpreter; `save_schematic` gives the state and the value returned; the
functions on the state act on the sheet and the hilights. -/
structure HierHelpers where
  V : ViewHelpers
  PINLAYER : Nat
  CAD_SYMBOL_ATTRS : Int
  save_file_dialog : String → String
  ask_save : String
  input_line : String
  atoi : String → Int
  stat : String → Option Int
  get_tok_value : Option String → String → Int → String
  expandlabel : String → String × Int
  my_strtok_r : String → String → String → List String
  find_nth : String → String → Int → String
  my_itoa : Int → String
  get_sch_from_sym : HierCtx → Nat → String
  delete_inst_node : xInstance → xInstance
  save_schematic : String → HierCtx → HierCtx × Int
  clear_all_hilights : HierCtx → HierCtx
  hilight_child_pins : HierCtx → HierCtx
  hilight_parent_pins : HierCtx → HierCtx
  propagate_hilights : Int → Int → HierCtx → HierCtx
  unselect_all : Int → HierCtx → HierCtx
  load_schematic : String → HierCtx → HierCtx
  load_sym_def : String → HierCtx → HierCtx

/-- `save(confirm)`: the state and the value returned. -/
def save (H : HierHelpers) (confirm : Int) (c : HierCtx) : HierCtx × Int :=
  let name := c.sch.getD c.currsch ""
  let force : Bool :=
    match H.stat name with
    | some st_mtime => decide (c.time_last_modify ≠ 0 ∧ c.time_last_modify ≠ st_mtime)
    | none => false
  let confirm1 : Int := if force = true then 0 else confirm
  if force = true ∨ c.view.modified ≠ 0 then
    if confirm1 ≠ 0 then
      if H.ask_save = "" then (c, -1)
      else if H.ask_save = "yes" then H.save_schematic name c
      else (c, 0)
    else H.save_schematic name c
  else (c, 1)

/-- The loop of lines 651-654, `for(j = symbols-1; j >= 0; j--) remove_symbol(j);`,
with `j + 1` rounds left. -/
def remove_symbols_loop : Nat → SymCache → Option SymCache
  | 0, s => some s
  | j + 1, s => (remove_symbol s j).bind (remove_symbols_loop j)

/-- `remove_symbols()` on the instances and symbols of the sheet;
delete_inst_node is outside actions.c. -/
def remove_symbols (H : HierHelpers) (v : ViewCtx) : Option ViewCtx :=
  let inst := v.inst.map (fun i => { H.delete_inst_node i with ptr := -1 })
  match remove_symbols_loop v.sym.length
      { sym := v.sym, symbols := v.sym.length, inst := inst, instances := inst.length,
        num_syms := 0 } with
  | some s => some { v with inst := s.inst, sym := s.sym.take s.symbols }
  | none => none

/-- Modelled from the spec: str_hash_lookup is not in actions.c; with XINSERT
the value of the token is replaced, or the token added when it has no entry.
A NULL token is not added. -/
def str_hash_lookup_insert (table : List (String × String)) (token : Option String)
    (value : String) : List (String × String) :=
  match token with
  | none => table
  | some tok =>
    match table.find? (fun e => e.1 == tok) with
    | some _ => table.map (fun x => if x.1 == tok then (x.1, value) else x)
    | none => (tok, value) :: table

/-- Modelled from the spec: my_strcat is not in actions.c; the string is
appended to the destination, a NULL destination receiving a copy of a
string that is not empty. -/
def my_strcat (dest : Option String) (src : String) : Option String :=
  match dest with
  | none => if src = "" then none else some src
  | some d => some (d ++ src)

/-- Lines 1664-1677: a sheet without a name is saved first. The second
component tells that the function returns 0. -/
def descend_unnamed (H : HierHelpers) (c : HierCtx) : HierCtx × Bool :=
  if c.sch.getD c.currsch "" = "" then
    let res := H.save_file_dialog (c.sch.getD c.currsch "")
    if res = "" then (c, true)
    else
      let r := H.save_schematic res c
      if r.2 = 0 then (r.1, true) else (r.1, false)
  else (c, false)

/-- The symbol `xctx->inst[n].ptr + xctx->sym` of instance `n`. -/
def inst_symbol (c : HierCtx) (n : Nat) : Option xSymbol :=
  match c.view.inst[n]? with
  | none => none
  | some i => if 0 ≤ i.ptr then c.view.sym[i.ptr.toNat]? else none

/-- The condition of lines 1681-1685: the symbol has a type and the type is
neither "subcircuit" nor "primitive". -/
def descend_refused (c : HierCtx) (n : Nat) : Bool :=
  match (inst_symbol c n).bind (fun s => s.type) with
  | some type => decide (type ≠ "subcircuit" ∧ type ≠ "primitive")
  | none => false

/-- Lines 1686-1699: a modified sheet is saved. The second component tells
that the function returns 0. -/
def descend_modified (H : HierHelpers) (c : HierCtx) : HierCtx × Bool :=
  if c.view.modified ≠ 0 then
    let r := save H 1 c
    let c1 := if r.2 = 0 then H.clear_all_hilights r.1 else r.1
    if r.2 = -1 then (c1, true) else (c1, false)
  else (c, false)

/-- Lines 1703-1708: the expanded instance name and the multiplicity. -/
def descend_expand (H : HierHelpers) (c : HierCtx) (n : Nat) : String × Int :=
  match (c.view.inst[n]?).bind (fun i => i.instname) with
  | some instname => if instname ≠ "" then H.expandlabel instname else ("", 1)
  | none => ("", 1)

/-- Lines 1711-1732: the sub-instance descended into; `none` when the user
gives no number (the function returns 0). -/
def descend_inst_number (H : HierHelpers) (instnumber inst_mult : Int) : Option Int :=
  if inst_mult > 1 then
    let asked : Option Int :=
      if instnumber = 0 then
        (if H.input_line = "" then none else some (H.atoi H.input_line))
      else some instnumber
    asked.map (fun i =>
      let i1 := if i < 0 then i + (inst_mult + 1) else i
      if i1 < 1 ∨ i1 > inst_mult then 1 else i1)
  else some 1

/-- Lines 1757-1765: the net stored for bit `k` of a pin of `mult` bits. -/
def port_net (H : HierHelpers) (net_node : String) (net_mult mult inst_mult inst_number k : Int) :
    String :=
  let single_n :=
    H.find_nth net_node "," (Int.tmod ((inst_number - 1) * mult + k - 1) net_mult + 1)
  if single_n.toList.head? = some '#' then
    let single_n1 :=
      if mult > 1 then
        single_n ++ "[" ++ H.my_itoa ((inst_mult - inst_number + 1) * mult - k) ++ "]"
      else single_n
    String.mk (single_n1.toList.drop 1)
  else single_n

/-- Lines 1750-1768: the entries of one pin, for `k = 1 .. mult`. -/
def portmap_pin (H : HierHelpers) (inst_mult inst_number : Int) (pin_name node : String)
    (table : List (String × String)) : List (String × String) :=
  let pin_node := H.expandlabel pin_name
  let net_node := H.expandlabel node
  let tokens := H.my_strtok_r pin_node.1 "," ""
  (List.range pin_node.2.toNat).foldl (fun t (j : Nat) =>
    str_hash_lookup_insert t tokens[j]?
      (port_net H net_node.1 net_node.2 pin_node.2 inst_mult inst_number ((j : Int) + 1))) table

/-- The pin rectangles `rect[PINLAYER][0 .. rects[PINLAYER]-1]` of a symbol. -/
def symbol_pins (H : HierHelpers) (symbol : Option xSymbol) : List xRect :=
  match symbol with
  | none => []
  | some s =>
    match s.rects, s.rect with
    | some rects, some rect =>
      match rects[H.PINLAYER]?, rect[H.PINLAYER]? with
      | some npin, some rct => rct.take npin.toNat
      | _, _ => []
    | _, _ => []

/-- Lines 1739-1772: the loop over the pins, pin `i` first; a pin without a
name or without a net is passed over. -/
def portmap_pins (H : HierHelpers) (inst_mult inst_number : Int) (node : List (Option String)) :
    List xRect → Nat → List (String × String) → List (String × String)
  | [], _, table => table
  | r :: rest, i, table =>
    let pin_name := H.get_tok_value r.prop_ptr "name" 0
    let table1 :=
      if pin_name = "" then table
      else
        match node.getD i none with
        | none => table
        | some nd => portmap_pin H inst_mult inst_number pin_name nd table
    portmap_pins H inst_mult inst_number node rest (i + 1) table1

/-- Lines 1734-1772: the path and the port-map of the level below. -/
def descend_portmap (H : HierHelpers) (c : HierCtx) (n : Nat) (inst_mult inst_number : Int) :
    HierCtx :=
  let node := ((c.view.inst[n]?).map (fun i => i.node)).getD []
  { c with
    sch_path := c.sch_path.set (c.currsch + 1) (my_strdup (c.sch_path.getD c.currsch none)),
    sch_path_hash := c.sch_path_hash.set (c.currsch + 1) 0,
    portmap := c.portmap.set (c.currsch + 1)
      (some (portmap_pins H inst_mult inst_number node (symbol_pins H (inst_symbol c n)) 0 [])) }

/-- Lines 1774-1792: the frame of the parent level is filled and the level
incremented. -/
def descend_push (H : HierHelpers) (c : HierCtx) (n : Nat) (str : String) (inst_number : Int) :
    HierCtx :=
  let attr : HierAttr :=
    { prop_ptr := my_strdup ((c.view.inst[n]?).bind (fun i => i.prop_ptr)),
      templ := my_strdup
        (some (H.get_tok_value ((inst_symbol c n).bind (fun s => s.prop_ptr)) "template" 0)) }
  let path1 := my_strcat (c.sch_path.getD (c.currsch + 1) none) (H.find_nth str "," inst_number)
  let path2 := my_strcat path1 "."
  { c with
    hier_attr := c.hier_attr.set c.currsch attr,
    sch_path := c.sch_path.set (c.currsch + 1) path2,
    sch_inst_number := c.sch_inst_number.set c.currsch inst_number,
    previous_instance := c.previous_instance.set c.currsch n,
    zoom_array := c.zoom_array.set c.currsch
      { x := c.view.xorigin, y := c.view.yorigin, zoom := c.view.zoom },
    currsch := c.currsch + 1 }

/-- Lines 1800-1803: the hilights are carried into the sheet loaded. -/
def descend_hilight (H : HierHelpers) (c : HierCtx) : HierCtx :=
  if c.view.hilight_nets ≠ 0 then
    H.propagate_hilights 1 0 { c with view := H.V.prepare_netlist_structs c.view }
  else c

/-- Lines 1793-1805: the sheet of the symbol is loaded and shown in full;
`none` when remove_symbols leaves the symbol array. -/
def descend_load (H : HierHelpers) (c : HierCtx) (n : Nat) : Option HierCtx :=
  let c1 := H.hilight_child_pins c
  let c2 := H.unselect_all 1 c1
  let filename := H.get_sch_from_sym c2 n
  match remove_symbols H c2.view with
  | none => none
  | some v3 =>
    let c4 := H.load_schematic filename { c2 with view := v3 }
    let c5 := descend_hilight H c4
    some { c5 with view := zoom_full H.V 1 0 1 (97 / 100) c5.view }

/-- Lines 1700-1807: the descent proper, once the checks have passed. -/
def descend_proper (H : HierHelpers) (instnumber : Int) (c : HierCtx) (n : Nat) :
    Option (HierCtx × Int) :=
  let e := descend_expand H c n
  let c1 := { c with view := H.V.prepare_netlist_structs c.view }
  match descend_inst_number H instnumber e.2 with
  | none => some (c1, 0)
  | some inst_number =>
    let c2 := descend_portmap H c1 n e.2 inst_number
    let c3 := descend_push H c2 n e.1 inst_number
    (descend_load H c3 n).map (fun c4 => (c4, 1))

/-- The index `xctx->sel_array[0].n`. -/
def sel_n (c : HierCtx) : Nat :=
  match c.sel_array with
  | [] => 0
  | s0 :: _ => s0.n

/-- The condition of line 1658: the selection is not a single instance. -/
def wrong_selection (c : HierCtx) : Bool :=
  match c.sel_array with
  | [] => true
  | s0 :: _ => decide (c.lastsel ≠ 1 ∨ s0.type ≠ ObjType.ELEMENT)

/-- `descend_schematic(instnumber)`: the state and the value returned. -/
def descend_schematic (H : HierHelpers) (instnumber : Int) (c : HierCtx) :
    Option (HierCtx × Int) :=
  if wrong_selection c = true then some (c, 0)
  else
    let u := descend_unnamed H c
    if u.2 = true then some (u.1, 0)
    else if descend_refused u.1 (sel_n u.1) = true then some (u.1, 0)
    else
      let m := descend_modified H u.1
      if m.2 = true then some (m.1, 0)
      else descend_proper H instnumber m.1 (sel_n u.1)

/-- Lines 1824-1834: a modified sheet is saved before going up. The second
component tells that the function returns. -/
def go_back_save (H : HierHelpers) (confirm : Int) (c : HierCtx) : HierCtx × Bool :=
  if c.view.modified ≠ 0 then
    if confirm ≠ 0 then
      if H.ask_save = "yes" then
        let r := H.save_schematic (c.sch.getD c.currsch "") c
        (r.1, decide (r.2 = 0))
      else if H.ask_save = "" then (c, true)
      else (c, false)
    else
      let r := H.save_schematic (c.sch.getD c.currsch "") c
      (r.1, decide (r.2 = 0))
  else (c, false)

/-- Lines 1865-1870: the viewport saved for the level is restored. -/
def go_back_view (H : HierHelpers) (c : HierCtx) : HierCtx :=
  let z := c.zoom_array.getD c.currsch { x := 0, y := 0, zoom := 0 }
  let v1 := { c.view with xorigin := z.x, yorigin := z.y, zoom := z.zoom, mooz := 1 / z.zoom }
  { c with view := H.V.change_linewidth (-1) v1 }

/-- Lines 1845-1849: the name and the port-map of the level are dropped and
the level decremented. -/
def go_back_leave (c : HierCtx) : HierCtx :=
  { c with
    sch := c.sch.set c.currsch "",
    portmap := c.portmap.set c.currsch none,
    sch_path_hash := c.sch_path_hash.set c.currsch 0,
    currsch := c.currsch - 1 }

/-- Lines 1850-1859: the sheet of the parent is loaded; the modified flag is
carried over when coming back from an embedded symbol. -/
def go_back_reload (H : HierHelpers) (from_embedded_sym : Bool) (c : HierCtx) : HierCtx :=
  let save_modified := c.view.modified
  let c1 := H.load_schematic (c.sch.getD c.currsch "") c
  if from_embedded_sym = true ∧ c1.sch_inst_number.getD c1.currsch 0 ≠ -1 then
    { c1 with view := { c1.view with modified := save_modified } }
  else c1

/-- Lines 1861-1864: the hilights are carried back into the parent. -/
def go_back_hilight (H : HierHelpers) (prev_sch_type : Int) (c : HierCtx) : HierCtx :=
  if c.view.hilight_nets ≠ 0 then
    H.propagate_hilights 1 1
      (if prev_sch_type ≠ H.CAD_SYMBOL_ATTRS then H.hilight_parent_pins c else c)
  else c

/-- Lines 1835-1864: the level is left and the sheet of the parent loaded;
`none` when remove_symbols leaves the symbol array. -/
def go_back_load (H : HierHelpers) (prev_sch_type : Int) (c : HierCtx) : Option HierCtx :=
  let c1 := H.unselect_all 1 c
  match remove_symbols H c1.view with
  | none => none
  | some v2 =>
    let c2 := { c1 with view := v2 }
    let from_embedded_sym : Bool :=
      strstr (c2.sch.getD c2.currsch "").toList ".xschem_embedded_".toList
    let c3 := if from_embedded_sym = true then H.load_sym_def (c2.sch.getD c2.currsch "") c2 else c2
    some (go_back_hilight H prev_sch_type (go_back_reload H from_embedded_sym (go_back_leave c3)))

/-- `go_back(confirm)`. -/
def go_back (H : HierHelpers) (confirm : Int) (c : HierCtx) : Option HierCtx :=
  if c.currsch > 0 then
    let s := go_back_save H confirm c
    if s.2 = true then some s.1
    else (go_back_load H c.netlist_type s.1).map (go_back_view H)
  else some c

/-- The fields of a list of characters between the separators `sep`. -/
def split_on (sep : Char) : List Char → List (List Char)
  | [] => [[]]
  | c :: cs =>
    if c = sep then [] :: split_on sep cs
    else
      match split_on sep cs with
      | [] => [[c]]
      | f :: fs => (c :: f) :: fs

/-- The number written by a list of decimal digits, the digits read so far
being `acc`; `none` when a character is not a digit. -/
def nat_of_digits (acc : Nat) : List Char → Option Nat
  | [] => some acc
  | c :: cs =>
    if '0' ≤ c ∧ c ≤ '9' then nat_of_digits (10 * acc + (c.toNat - '0'.toNat)) cs else none

/-- Modelled from the spec: expandlabel is the label parser, outside
actions.c; "expand the instance multiplier (e.g. `U0[3:0]` → 4 copies)". Of
its grammar the bus `base[hi:lo]` is modelled, which expands to the comma
separated bits from `hi` to `lo` with their number; any other label stands
for itself, with multiplicity 1. -/
def expandlabel (s : String) : String × Int :=
  match split_on '[' s.toList with
  | [base, r] =>
    match split_on ':' r with
    | [hi, r2] =>
      match split_on ']' r2 with
      | [lo, []] =>
        match nat_of_digits 0 hi, nat_of_digits 0 lo with
        | some h, some l =>
          let bits : List Nat :=
            if l ≤ h then (List.range (h - l + 1)).map (fun i => h - i)
            else (List.range (l - h + 1)).map (fun i => h + i)
          (String.intercalate ","
            (bits.map (fun b => String.mk base ++ "[" ++ toString b ++ "]")), bits.length)
        | _, _ => (s, 1)
      | _ => (s, 1)
    | _ => (s, 1)
  | _ => (s, 1)

/-- Modelled from the spec: find_nth is outside actions.c; it gives field `n`
(the first is 1) of the fields of `str` between commas, the empty string when
there is no such field. -/
def find_nth (str : String) (_sep : String) (n : Int) : String :=
  if 1 ≤ n then
    String.mk ((((split_on ',' str.toList).filter (fun f => f ≠ []))[(n - 1).toNat]?).getD [])
  else ""

/-- Modelled from the spec: my_strtok_r is outside actions.c; without quoting
characters the successive tokens are the fields between commas that are not
empty. -/
def my_strtok_r (str : String) (_delim _quote : String) : List String :=
  ((split_on ',' str.toList).filter (fun f => f ≠ [])).map String.mk

/-- Modelled from the spec: get_tok_value is outside actions.c; of an
attribute string of `token=value` items between blanks, without quoting, it
gives the value of the token, the empty string when the token is absent. -/
def get_tok_value (prop_ptr : Option String) (token : String) (_with_quotes : Int) : String :=
  match prop_ptr with
  | none => ""
  | some p =>
    match (split_on ' ' p.toList).find? (fun item =>
        (split_on '=' item).head? = some token.toList ∧ 2 ≤ (split_on '=' item).length) with
    | some item => String.mk (item.drop (token.length + 1))
    | none => ""

/-- Modelled from the spec: atoi of the C library on a decimal number with an
optional minus sign; 0 when the string is no number. -/
def atoi (s : String) : Int :=
  match s.toList with
  | '-' :: ds => - (((nat_of_digits 0 ds).getD 0 : Nat) : Int)
  | ds => (((nat_of_digits 0 ds).getD 0 : Nat) : Int)

/-- A symbol of the given type with one pin of attributes `pin` on layer 5 and
nothing else. -/
def pin_symbol (name : String) (type : Option String) (pin : String) : xSymbol :=
  { name := some name, base_name := none, minx := 0, maxx := 0, miny := 0, maxy := 0,
    line := some [[], [], [], [], [], []],
    rect := some [[], [], [], [], [],
      [{ x1 := -1, y1 := -1, x2 := 1, y2 := 1, sel := 0, prop_ptr := some pin, flags := 0,
         extraptr := none }]],
    poly := some [[], [], [], [], [], []], arc := some [[], [], [], [], [], []],
    text := none, lines := some [0, 0, 0, 0, 0, 0], rects := some [0, 0, 0, 0, 0, 1],
    polygons := some [0, 0, 0, 0, 0, 0], arcs := some [0, 0, 0, 0, 0, 0], texts := 0,
    prop_ptr := none, type := type, templ := none, flags := 0 }

/-- The sheet "top.sch": the selected instance `instname` of the symbol
"sub.sym" (type `type`, one pin of attributes `pin`), its pin on the net
`net`; the window has 1000 x 500 pixels, the origin is (3,4) and the zoom 2. -/
def parent_sheet (instname : String) (type : Option String) (pin net : String) : ViewCtx :=
  { empty_view 1000 500 6 2 with
    xorigin := 3, yorigin := 4,
    inst := [{ name := some "sub.sym", ptr := 0, x0 := 0, y0 := 0, rot := 0, flip := 0,
               sel := 2, flags := 0, prop_ptr := some ("name=" ++ instname),
               instname := some instname, x1 := -10, y1 := -10, x2 := 10, y2 := 10,
               node := [some net] }],
    sym := [pin_symbol "sub.sym" type pin] }

/-- The sheet of the symbol: one rectangle (0,0)-(100,50) on layer 4. -/
def child_sheet : ViewCtx :=
  { empty_view 1000 500 6 1 with
    rect := [[], [], [], [],
      [{ x1 := 0, y1 := 0, x2 := 100, y2 := 50, sel := 0, prop_ptr := none, flags := 0,
         extraptr := none }], []] }

/-- Modelled from the spec: load_schematic is the external parser. The files
are "top.sch", which holds `top`, and the sheet of the symbol; the sheet
loaded is not modified, its name is stored for the level and the viewport is
kept. -/
def load_schematic (top : ViewCtx) (filename : String) (c : HierCtx) : HierCtx :=
  let sheet := if filename = "top.sch" then top else child_sheet
  { c with
    sch := c.sch.set c.currsch filename,
    view := { sheet with xorigin := c.view.xorigin, yorigin := c.view.yorigin,
                         zoom := c.view.zoom, mooz := c.view.mooz } }

/-- The helpers with the models above: pin layer 5, the viewport helpers
`view_helpers`, dialogs answered "sub.sch", "yes" and "2", no file older than
its sheet, the sheet of every symbol in "sub.sch", save_schematic storing the
name and clearing the modified flag, no hilights, and the parent sheet
`top` in "top.sch". -/
def hier_helpers (top : ViewCtx) : HierHelpers :=
  { V := view_helpers, PINLAYER := 5, CAD_SYMBOL_ATTRS := 5,
    save_file_dialog := fun _ => "sub.sch", ask_save := "yes", input_line := "2",
    atoi := atoi, stat := fun _ => none, get_tok_value := get_tok_value,
    expandlabel := expandlabel, my_strtok_r := my_strtok_r, find_nth := find_nth,
    my_itoa := fun i => toString i, get_sch_from_sym := fun _ _ => "sub.sch",
    delete_inst_node := fun i => { i with node := [] },
    save_schematic := fun name c =>
      ({ c with sch := c.sch.set c.currsch name, view := { c.view with modified := 0 } }, 1),
    clear_all_hilights := fun c => c, hilight_child_pins := fun c => c,
    hilight_parent_pins := fun c => c, propagate_hilights := fun _ _ c => c,
    unselect_all := fun _ c => { c with lastsel := 0, sel_array := [] },
    load_schematic := load_schematic top, load_sym_def := fun _ c => c }

/-- The editor at the top level, on the sheet `top` with its first instance
selected; the per-level arrays have three slots. -/
def top_level (top : ViewCtx) : HierCtx :=
  { view := top, lastsel := 1, sel_array := [{ type := ObjType.ELEMENT, n := 0, col := 0 }],
    currsch := 0, sch := ["top.sch", "", ""], time_last_modify := 0, netlist_type := 1,
    sch_path := [some ".", none, none], sch_path_hash := [0, 0, 0],
    portmap := [none, none, none],
    hier_attr := List.replicate 3 { prop_ptr := none, templ := none },
    sch_inst_number := [0, 0, 0], previous_instance := [0, 0, 0],
    zoom_array := List.replicate 3 { x := 0, y := 0, zoom := 0 } }

/-- The parent sheet of the instance `X0[1:0]` whose pin `a[1:0]` is on the
net `n[3:0]`. -/
def bus_parent : ViewCtx := parent_sheet "X0[1:0]" (some "subcircuit") "name=a[1:0] dir=in" "n[3:0]"

/-- The sheet of the instance `X0` of a symbol without a type. -/
def untyped_parent : ViewCtx := parent_sheet "X0" none "name=a dir=in" "net1"

/-- The sheet of the instance `R1` of a symbol of type "resistor". -/
def resistor_parent : ViewCtx := parent_sheet "R1" (some "resistor") "name=p dir=inout" "net1"

/-- The sheet of the instance `X0[1:0]` whose single-bit pin `a` is on the
auto-named net `#net1`. -/
def auto_net_parent : ViewCtx := parent_sheet "X0[1:0]" (some "subcircuit") "name=a dir=in" "#net1"

/-- The function `f` on the state leaves the level and the saved viewports as
they are. -/
def keeps_stack (f : HierCtx → HierCtx) : Prop :=
  ∀ c, (f c).currsch = c.currsch ∧ (f c).zoom_array = c.zoom_array

/-- The function `f` on the state leaves origin and zoom as they are. -/
def keeps_origin (f : HierCtx → HierCtx) : Prop :=
  ∀ c, (f c).view.xorigin = c.view.xorigin ∧ (f c).view.yorigin = c.view.yorigin ∧
    (f c).view.zoom = c.view.zoom

/-- The state `b` is at the level of `a` and has its saved viewports. -/
def same_stack (a b : HierCtx) : Prop := b.currsch = a.currsch ∧ b.zoom_array = a.zoom_array

/-- What is taken of the functions outside actions.c: saving, hilighting,
unselecting and loading leave the level and the saved viewports alone; saving,
clear_all_hilights and prepare_netlist_structs leave origin and zoom alone, and
so does change_linewidth. -/
structure hier_helpers_ok (H : HierHelpers) : Prop where
  save_stack : ∀ s, keeps_stack (fun c => (H.save_schematic s c).1)
  save_origin : ∀ s, keeps_origin (fun c => (H.save_schematic s c).1)
  clear_stack : keeps_stack H.clear_all_hilights
  clear_origin : keeps_origin H.clear_all_hilights
  netlist_view : keeps_viewport H.V.prepare_netlist_structs
  child_pins : keeps_stack H.hilight_child_pins
  parent_pins : keeps_stack H.hilight_parent_pins
  propagate : ∀ a b, keeps_stack (H.propagate_hilights a b)
  unselect : ∀ a, keeps_stack (H.unselect_all a)
  load : ∀ s, keeps_stack (H.load_schematic s)
  load_sym : ∀ s, keeps_stack (H.load_sym_def s)
  linewidth : keeps_viewport (H.V.change_linewidth (-1))

/-- The sheet "sub.sch" as descend_schematic leaves it, come from the first
sub-instance of `X0[1:0]` on `bus_parent`. -/
def bus_child : HierCtx :=
  match descend_schematic (hier_helpers bus_parent) 1 (top_level bus_parent) with
  | some r => r.1
  | none => top_level bus_parent

/-! ## `escape_chars` (lines 171-221) and `change_to_unix_fn` (lines 1925-1934)

A C string is the list of its characters before the terminating NUL; a buffer
is the list of its allocated elements. -/

/-- The character NUL. -/
def NUL : Char := Char.ofNat 0

/-- The backslash. -/
def BACKSLASH : Char := Char.ofNat 92

/-- The characters of the third case of the switch of escape_chars (lines
199-210): backslash, apostrophe, blank, `;`, `$`, `!`, `#`, the braces, the
square brackets and the double quote. -/
def escaped_as_itself (c : Char) : Bool :=
  c = Char.ofNat 92 || c = Char.ofNat 39 || c = ' ' || c = ';' || c = '$' || c = '!' ||
  c = '#' || c = Char.ofNat 123 || c = Char.ofNat 125 || c = '[' || c = ']' ||
  c = Char.ofNat 34

/-- The switch of lines 190-216: the characters written to `dest` for the
source character `c`. -/
def escape_char (c : Char) : List Char :=
  if c = Char.ofNat 10 then [BACKSLASH, 'n']
  else if c = Char.ofNat 9 then [BACKSLASH, 't']
  else if escaped_as_itself c = true then [BACKSLASH, c]
  else [c]

/-- Modelled from the spec: my_realloc is not in actions.c. The buffer is
resized to `n` elements and keeps its leading elements; a size of 0 frees it.
The new elements have no determined value in C and are NUL here. -/
def my_realloc_chars (p : Option (List Char)) (n : Nat) : Option (List Char) :=
  if n = 0 then none else some ((p.getD [] ++ List.replicate n NUL).take n)

/-- The assignments `dest[d++] = c` for the characters `cs`, in order; `none`
when one of them is off the buffer. -/
def write_chars : List Char → Option (List Char) → Nat → Option (List Char × Nat)
  | [], none, _ => none
  | [], some dest, d => some (dest, d)
  | _ :: _, none, _ => none
  | c :: cs, some dest, d =>
    if d < dest.length then write_chars cs (some (dest.set d c)) (d + 1) else none

/-- The loop of lines 185-218 over the source characters left. In the loop
`size` is at least 2, so that `size - 2` does not wrap. The result is the
buffer, its size and the index `d`; `none` when a write is off the buffer. -/
def escape_loop : List Char → Option (List Char) → Nat → Nat → Option (List Char × Nat × Nat)
  | [], none, _, _ => none
  | [], some dest, size, d => some (dest, size, d)
  | c :: rest, dest, size, d =>
    let size1 := if d ≥ size - 2 then size + 2 else size
    let dest1 := if d ≥ size - 2 then my_realloc_chars dest size1 else dest
    match write_chars (escape_char c) dest1 d with
    | none => none
    | some (dest2, d2) => escape_loop rest (some dest2) size1 d2

/-- `escape_chars(source)` with the static buffer `dest`: the buffer after the
call and the string returned (the buffer up to the NUL written at `d`), or
`none` when a write is off the buffer. A NULL source frees the buffer and
gives NULL. -/
def escape_chars (dest : Option (List Char)) (source : Option String) :
    Option (Option (List Char) × Option String) :=
  match source with
  | none => some (none, none)
  | some src =>
    let slen := src.toList.length
    let size := slen + 1
    match escape_loop src.toList (my_realloc_chars dest size) size 0 with
    | none => none
    | some (dest1, _, d) =>
      if d < dest1.length then
        some (some (dest1.set d NUL), some (String.mk ((dest1.set d NUL).take d)))
      else none

/-- The inverse of the encoding: a backslash stands with the character after
it for a line feed (`n`), a tab (`t`) or that character. -/
def unescape : List Char → List Char
  | [] => []
  | [c] => [c]
  | a :: b :: r =>
    if a = BACKSLASH then
      (if b = 'n' then Char.ofNat 10 else if b = 't' then Char.ofNat 9 else b) :: unescape r
    else a :: unescape (b :: r)

/-- The loop of lines 1930-1933 of change_to_unix_fn on the buffer `fn` of
`len` characters (the NUL after them reads as NUL), at index `i` with write
index `ii` and at most `fuel` rounds left. -/
def change_to_unix_loop (len : Nat) : Nat → Nat → Nat → List Char → List Char
  | 0, _, _, fn => fn
  | fuel + 1, i, ii, fn =>
    if i < len then
      if fn.getD i NUL ≠ BACKSLASH then
        change_to_unix_loop len fuel (i + 1) (ii + 1) (fn.set ii (fn.getD i NUL))
      else
        let fn1 := fn.set ii '/'
        if fn1.getD (i + 1) NUL = BACKSLASH then
          change_to_unix_loop len fuel (i + 2) (ii + 1) fn1
        else change_to_unix_loop len fuel (i + 1) (ii + 1) fn1
    else fn

/-- `change_to_unix_fn(fn)`: the string in the buffer after the call. The
loop ends within `len` rounds, `i` growing in each; no NUL is written. -/
def change_to_unix_fn (fn : List Char) : List Char :=
  change_to_unix_loop fn.length fn.length 0 0 fn

/-- The local `force` of save (lines 457-462): the file of the sheet exists
and its modification time is not the one recorded at load. -/
def file_changed_on_disk (H : HierHelpers) (c : HierCtx) : Bool :=
  match H.stat (c.sch.getD c.currsch "") with
  | some st_mtime => decide (c.time_last_modify ≠ 0 ∧ c.time_last_modify ≠ st_mtime)
  | none => false

/-- The helpers `H` with the answer `answer` of the ask_save dialog. -/
def with_ask_save (H : HierHelpers) (answer : String) : HierHelpers :=
  { H with ask_save := answer }

/-- The helpers `H` with `ss` for save_schematic. -/
def with_save_schematic (H : HierHelpers) (ss : String → HierCtx → HierCtx × Int) :
    HierHelpers :=
  { H with save_schematic := ss }

/-- The state `c` with the sheet marked modified. -/
def modified_sheet (c : HierCtx) : HierCtx := { c with view := { c.view with modified := 1 } }

/-- A RUBBER phase of new_polygon with the mouse at `(x, 0)` and then an ADD
phase, the phase bits being those of `gesture_helpers`. -/
def polygon_move_add (x : Rat) (c : GestureCtx) : Option GestureCtx :=
  (new_polygon gesture_helpers 2 { c with mousex_snap := x, mousey_snap := 0 }).bind
    (new_polygon gesture_helpers 16)

/-- The placement of a polygon from the empty buffer: a PLACE phase at (0,0),
then `k` times a RUBBER phase at a new position followed by an ADD phase. -/
def polygon_run : Nat → Option GestureCtx
  | 0 => new_polygon gesture_helpers 1 (gesture_start 0)
  | k + 1 => (polygon_run k).bind (polygon_move_add ((k : Rat) + 1))

/-- The buffer after the PLACE phase and `k` ADD phases of `polygon_run`:
`k+1` vertices, vertex 0 at (0,0) and the last at abscissa `k`, the rubber
point on the last vertex, a capacity of 512. -/
def polygon_run_state (k : Nat) (c : GestureCtx) : Prop :=
  c.nl_points = k + 1 ∧ c.nl_maxpoints = 512 ∧
  ∃ xs ys, c.nl_polyx = some xs ∧ c.nl_polyy = some ys ∧ xs.length = 512 ∧ ys.length = 512 ∧
    xs[0]? = some 0 ∧ xs[k]? = some (k : Rat) ∧ xs[k + 1]? = some (k : Rat) ∧ ys[0]? = some 0

/-! ## The other gestures: `zoom_rectangle` (lines 2240-2283), `new_arc` (lines 2611-2662), `new_line` (lines 2664-2783), `new_rect` (lines 2785-2822), `select_rect` (lines 3182-3246)

The state is the `GestureCtx` of new_wire. Drawing calls are left out, as is
the save and restore of `draw_window` around filledrect. Divisions are those
of `Rat`, where a division by 0 gives 0 and C gives an infinity or a NaN. -/

/-- Modelled from the spec: storeobject is not in actions.c; called with
position -1, type LINE, selection 0 and no attribute string it appends the
line `(x1,y1)-(x2,y2)` after the lines of layer `rectcolor`. -/
def store_line (c : GestureCtx) (x1 y1 x2 y2 : Rat) : GestureCtx :=
  { c with doc := { c.doc with line := c.doc.line ++
      [(c.rectcolor, { x1 := x1, y1 := y1, x2 := x2, y2 := y2, sel := 0, prop_ptr := none })] } }

/-- Modelled from the spec: storeobject is not in actions.c; called with
position -1, type xRECT, selection 0 and no attribute string it appends the
rectangle after the rectangles of layer `rectcolor`. -/
def store_rect (c : GestureCtx) (x1 y1 x2 y2 : Rat) : GestureCtx :=
  { c with doc := { c.doc with rect := c.doc.rect ++
      [(c.rectcolor, { x1 := x1, y1 := y1, x2 := x2, y2 := y2, sel := 0, prop_ptr := none,
                       flags := 0, extraptr := none })] } }

/-- Modelled from the spec: store_arc is not in actions.c; called with position
-1, selection 0 and no attribute string it appends the arc after the arcs of
layer `rectcolor`. -/
def store_arc (c : GestureCtx) (x y r a b : Rat) : GestureCtx :=
  { c with doc := { c.doc with arc := c.doc.arc ++
      [(c.rectcolor, { x := x, y := y, r := r, a := a, b := b, sel := 0, prop_ptr := none })] } }

/-- `RECTORDER(nl_x1, nl_y1, nl_x2, nl_y2)`. -/
def rectorder_x (c : GestureCtx) : GestureCtx :=
  let b := RECTORDER { x1 := c.nl_x1, y1 := c.nl_y1, x2 := c.nl_x2, y2 := c.nl_y2 }
  { c with nl_x1 := b.x1, nl_y1 := b.y1, nl_x2 := b.x2, nl_y2 := b.y2 }

/-- `RECTORDER(nl_xx1, nl_yy1, nl_xx2, nl_yy2)`. -/
def rectorder_xx (c : GestureCtx) : GestureCtx :=
  let b := RECTORDER { x1 := c.nl_xx1, y1 := c.nl_yy1, x2 := c.nl_xx2, y2 := c.nl_yy2 }
  { c with nl_xx1 := b.x1, nl_yy1 := b.y1, nl_xx2 := b.x2, nl_yy2 := b.y2 }

/-- The statements `nl_x1 = nl_x2 = mousex_snap; nl_y1 = nl_y2 = mousey_snap;`. -/
def anchor_at_mouse (c : GestureCtx) : GestureCtx :=
  { c with nl_x1 := c.mousex_snap, nl_x2 := c.mousex_snap,
           nl_y1 := c.mousey_snap, nl_y2 := c.mousey_snap }

/-- Lines 2247-2262: the END phase of zoom_rectangle. -/
def zoom_rectangle_end (H : GestureHelpers) (c : GestureCtx) : GestureCtx :=
  let c1 := rectorder_x { c with ui_state := clear_bits c.ui_state H.STARTZOOM }
  let c2 := { c1 with xorigin := -c1.nl_x1, yorigin := -c1.nl_y1,
                      zoom := (c1.nl_x2 - c1.nl_x1) / ((c1.areaw - 4 * H.INT_WIDTH c1.lw : Int) : Rat),
                      nl_yy1 := (c1.nl_y2 - c1.nl_y1) /
                        ((c1.areah - 4 * H.INT_WIDTH c1.lw : Int) : Rat) }
  let c3 := if c2.nl_yy1 > c2.zoom then { c2 with zoom := c2.nl_yy1 } else c2
  H.change_linewidth (-1) { c3 with mooz := 1 / c3.zoom }

/-- Lines 2263-2282: the RUBBER phase of zoom_rectangle. -/
def zoom_rectangle_rubber (H : GestureHelpers) (c : GestureCtx) : GestureCtx :=
  let c1 := rectorder_xx (load_xx c)
  let c2 := { c1 with nl_x2 := c1.mousex_snap, nl_y2 := c1.mousey_snap }
  let c3 := { c2 with ui_state := H.rebuild_selected_array c2.doc c2.ui_state }
  rectorder_xx (load_xx c3)

/-- `zoom_rectangle(what)`. -/
def zoom_rectangle (H : GestureHelpers) (what : Nat) (c : GestureCtx) : GestureCtx :=
  let c1 := if what &&& H.START ≠ 0 then
      { anchor_at_mouse c with ui_state := c.ui_state ||| H.STARTZOOM }
    else c
  let c2 := if what &&& H.END ≠ 0 then zoom_rectangle_end H c1 else c1
  if what &&& H.RUBBER ≠ 0 then zoom_rectangle_rubber H c2 else c2

/-- The call of arc_3_points of lines 2630-2632 and 2656-2658, and the
statement `if(nl_sweep_angle==360.) nl_b=360.;` after it. -/
def arc_through (H : GestureHelpers) (c : GestureCtx) : GestureCtx :=
  let o := H.arc_3_points c.nl_x1 c.nl_y1 c.nl_x2 c.nl_y2 c.nl_x3 c.nl_y3
    (c.nl_x, c.nl_y, c.nl_r, c.nl_a, c.nl_b)
  let c1 := { c with nl_x := o.1, nl_y := o.2.1, nl_r := o.2.2.1, nl_a := o.2.2.2.1,
                     nl_b := o.2.2.2.2 }
  if c1.nl_sweep_angle = 360 then { c1 with nl_b := 360 } else c1

/-- Lines 2613-2620: the PLACE phase of new_arc. -/
def new_arc_place (H : GestureHelpers) (sweep : Rat) (c : GestureCtx) : GestureCtx :=
  { c with nl_state := 0, nl_r := -1, nl_sweep_angle := sweep,
           nl_xx1 := c.mousex_snap, nl_xx2 := c.mousex_snap, nl_x1 := c.mousex_snap,
           nl_x2 := c.mousex_snap, nl_x3 := c.mousex_snap,
           nl_yy1 := c.mousey_snap, nl_yy2 := c.mousey_snap, nl_y1 := c.mousey_snap,
           nl_y2 := c.mousey_snap, nl_y3 := c.mousey_snap,
           ui_state := c.ui_state ||| H.STARTARC }

/-- Lines 2621-2642: the SET phase of new_arc. -/
def new_arc_set (H : GestureHelpers) (c : GestureCtx) : GestureCtx :=
  if c.nl_state = 0 then
    { c with nl_x2 := c.mousex_snap, nl_y2 := c.mousey_snap, nl_state := 1 }
  else if c.nl_state = 1 then
    let c1 := arc_through H { c with nl_x3 := c.mousex_snap, nl_y3 := c.mousey_snap }
    let c2 := if c1.nl_r > 0 then
        let c3 := store_arc (gesture_push_undo c1) c1.nl_x c1.nl_y c1.nl_r c1.nl_a c1.nl_b
        { c3 with mod := set_modify H.TEXT_FLOATER 1 c3.mod }
      else c1
    { c2 with ui_state := clear_bits c2.ui_state H.STARTARC, nl_state := 0 }
  else c

/-- Lines 2643-2661: the RUBBER phase of new_arc. -/
def new_arc_rubber (H : GestureHelpers) (c : GestureCtx) : GestureCtx :=
  if c.nl_state = 0 then
    order_x1y1_x2y2 H { c with nl_xx2 := c.mousex_snap, nl_yy2 := c.mousey_snap,
                               nl_xx1 := c.nl_x1, nl_yy1 := c.nl_y1 }
  else if c.nl_state = 1 then
    arc_through H { c with nl_x3 := c.mousex_snap, nl_y3 := c.mousey_snap }
  else c

/-- `new_arc(what, sweep)`. -/
def new_arc (H : GestureHelpers) (what : Nat) (sweep : Rat) (c : GestureCtx) : GestureCtx :=
  let c1 := if what &&& H.PLACE ≠ 0 then new_arc_place H sweep c else c
  let c2 := if what &&& H.SET ≠ 0 then new_arc_set H c1 else c1
  if what &&& H.RUBBER ≠ 0 then new_arc_rubber H c2 else c2

/-- Lines 2672-2713: the lines stored by a commit, by Manhattan mode. The
result carries the local `modified`. -/
def new_line_store (H : GestureHelpers) (c : GestureCtx) : GestureCtx × Int :=
  if c.manhattan_lines = 1 then
    let s1 : GestureCtx × Int :=
      if c.nl_xx2 ≠ c.nl_xx1 then
        let c1 := order_x1y1_x2y1 H (load_xx c)
        (store_line c1 c1.nl_xx1 c1.nl_yy1 c1.nl_xx2 c1.nl_yy1, 1)
      else (c, 0)
    if s1.1.nl_yy2 ≠ s1.1.nl_yy1 then
      let c2 := order_x2y1_x2y2 H (load_xx s1.1)
      (store_line c2 c2.nl_xx2 c2.nl_yy1 c2.nl_xx2 c2.nl_yy2, 1)
    else s1
  else if c.manhattan_lines = 2 then
    let s1 : GestureCtx × Int :=
      if c.nl_yy2 ≠ c.nl_yy1 then
        let c1 := order_x1y1_x1y2 H (load_xx c)
        (store_line c1 c1.nl_xx1 c1.nl_yy1 c1.nl_xx1 c1.nl_yy2, 1)
      else (c, 0)
    if s1.1.nl_xx2 ≠ s1.1.nl_xx1 then
      let c2 := order_x1y2_x2y2 H (load_xx s1.1)
      (store_line c2 c2.nl_xx1 c2.nl_yy2 c2.nl_xx2 c2.nl_yy2, 1)
    else s1
  else
    let c1 := order_x1y1_x2y2 H (load_xx c)
    (store_line c1 c1.nl_xx1 c1.nl_yy1 c1.nl_xx2 c1.nl_yy2, 1)

/-- Lines 2669-2715: the commit of a PLACE phase of new_line. -/
def new_line_commit (H : GestureHelpers) (c : GestureCtx) : GestureCtx :=
  if (c.nl_x1 ≠ c.nl_x2 ∨ c.nl_y1 ≠ c.nl_y2) ∧ c.ui_state &&& H.STARTLINE ≠ 0 then
    let s := new_line_store H (gesture_push_undo c)
    if s.2 ≠ 0 then { s.1 with mod := set_modify H.TEXT_FLOATER 1 s.1.mod } else s.1
  else c

/-- Lines 2667-2718: the PLACE phase of new_line. -/
def new_line_place (H : GestureHelpers) (c : GestureCtx) : GestureCtx :=
  let c1 := anchor_at_mouse (new_line_commit H c)
  { c1 with ui_state := c1.ui_state ||| H.STARTLINE }

/-- Lines 2724-2782: the RUBBER phase of new_line; `clear` is `what & CLEAR`. -/
def new_line_rubber (H : GestureHelpers) (clear : Bool) (c : GestureCtx) : GestureCtx :=
  if c.manhattan_lines = 1 then
    let c1 := restore_selection H (order_x2y1_x2y2 H (load_xx (order_x1y1_x2y1 H (load_xx c))))
    let c2 := set_rubber_end c1.mousex_snap c1.mousey_snap c1
    if clear = false then order_x2y1_x2y2 H (load_xx (order_x1y1_x2y1 H (load_xx c2)))
    else c2
  else if c.manhattan_lines = 2 then
    let c1 := restore_selection H (order_x1y2_x2y2 H (load_xx (order_x1y1_x1y2 H (load_xx c))))
    let c2 := set_rubber_end c1.mousex_snap c1.mousey_snap c1
    if clear = false then order_x1y2_x2y2 H (load_xx (order_x1y1_x1y2 H (load_xx c2)))
    else c2
  else
    let c1 := restore_selection H (order_x1y1_x2y2 H (load_xx c))
    let c2 := set_rubber_end c1.mousex_snap c1.mousey_snap c1
    if clear = false then order_x1y1_x2y2 H (load_xx c2)
    else c2

/-- `new_line(what)`. -/
def new_line (H : GestureHelpers) (what : Nat) (c : GestureCtx) : GestureCtx :=
  let c1 := if what &&& H.PLACE ≠ 0 then new_line_place H c else c
  let c2 := if what &&& H.END ≠ 0 then
      { c1 with ui_state := clear_bits c1.ui_state H.STARTLINE }
    else c1
  if what &&& H.RUBBER ≠ 0 then new_line_rubber H (decide (what &&& H.CLEAR ≠ 0)) c2 else c2

/-- Lines 2790-2803: the commit of a PLACE phase of new_rect. The result
carries the local `modified`. -/
def new_rect_commit (H : GestureHelpers) (c : GestureCtx) : GestureCtx × Int :=
  if (c.nl_x1 ≠ c.nl_x2 ∨ c.nl_y1 ≠ c.nl_y2) ∧ c.ui_state &&& H.STARTRECT ≠ 0 then
    let c1 := gesture_push_undo (rectorder_x c)
    (store_rect c1 c1.nl_x1 c1.nl_y1 c1.nl_x2 c1.nl_y2, 1)
  else (c, 0)

/-- Lines 2788-2807: the PLACE phase of new_rect. -/
def new_rect_place (H : GestureHelpers) (c : GestureCtx) : GestureCtx :=
  let s := new_rect_commit H c
  let c1 := anchor_at_mouse s.1
  let c2 := { c1 with ui_state := c1.ui_state ||| H.STARTRECT }
  if s.2 ≠ 0 then { c2 with mod := set_modify H.TEXT_FLOATER 1 c2.mod } else c2

/-- Lines 2812-2821: the RUBBER phase of new_rect. -/
def new_rect_rubber (c : GestureCtx) : GestureCtx :=
  let c1 := rectorder_xx (load_xx c)
  rectorder_xx (load_xx { c1 with nl_x2 := c1.mousex_snap, nl_y2 := c1.mousey_snap })

/-- `new_rect(what)`. -/
def new_rect (H : GestureHelpers) (what : Nat) (c : GestureCtx) : GestureCtx :=
  let c1 := if what &&& H.PLACE ≠ 0 then new_rect_place H c else c
  let c2 := if what &&& H.END ≠ 0 then
      { c1 with ui_state := clear_bits c1.ui_state H.STARTRECT }
    else c1
  if what &&& H.RUBBER ≠ 0 then new_rect_rubber c2 else c2

/-- The statements `nl_xx1=nl_xr; nl_xx2=nl_xr2; nl_yy1=nl_yr; nl_yy2=nl_yr2;
RECTORDER(nl_xx1,nl_yy1,nl_xx2,nl_yy2);` of lines 3190-3191 and 3203-3204. -/
def select_rect_xx (c : GestureCtx) : GestureCtx :=
  rectorder_xx { c with nl_xx1 := c.nl_xr, nl_xx2 := c.nl_xr2, nl_yy1 := c.nl_yr,
                        nl_yy2 := c.nl_yr2 }

/-- Lines 3184-3206: the RUBBER phase of select_rect. The test of `nl_sem`
only reports an error. -/
def select_rect_rubber (H : GestureHelpers) (c : GestureCtx) : GestureCtx :=
  let c1 := select_rect_xx c
  let c2 := { c1 with nl_xr2 := c1.mousex_snap, nl_yr2 := c1.mousey_snap }
  let c3 := { c2 with ui_state := H.rebuild_selected_array c2.doc c2.ui_state }
  let c4 := if c3.nl_sel = 0 then
      H.select_inside c3.nl_xx1 c3.nl_yy1 c3.nl_xx2 c3.nl_yy2 c3.nl_sel c3
    else c3
  select_rect_xx c4

/-- Lines 3207-3227: the START phase of select_rect. -/
def select_rect_start (H : GestureHelpers) (select : Int) (c : GestureCtx) : GestureCtx :=
  { c with nl_sel := select, ui_state := c.ui_state ||| H.STARTSELECT,
           nl_xr := c.mx_double_save, nl_xr2 := c.mx_double_save,
           nl_yr := c.my_double_save, nl_yr2 := c.my_double_save, nl_sem := 1 }

/-- Lines 3228-3245: the END phase of select_rect. -/
def select_rect_end (H : GestureHelpers) (c : GestureCtx) : GestureCtx :=
  let b := RECTORDER { x1 := c.nl_xr, y1 := c.nl_yr, x2 := c.nl_xr2, y2 := c.nl_yr2 }
  let c1 := { c with nl_xr := b.x1, nl_yr := b.y1, nl_xr2 := b.x2, nl_yr2 := b.y2 }
  let c2 := H.select_inside c1.nl_xr c1.nl_yr c1.nl_xr2 c1.nl_yr2 c1.nl_sel c1
  { c2 with ui_state := clear_bits c2.ui_state H.STARTSELECT, nl_sem := 0 }

/-- `select_rect(what, select)`. -/
def select_rect (H : GestureHelpers) (what : Nat) (select : Int) (c : GestureCtx) : GestureCtx :=
  if what &&& H.RUBBER ≠ 0 then select_rect_rubber H c
  else if what &&& H.START ≠ 0 then select_rect_start H select c
  else if what &&& H.END ≠ 0 then select_rect_end H c
  else c

/-- The document, the undo stack and the modification state of a state. -/
def doc_frame (c : GestureCtx) : GDoc × List GDoc × ModCtx := (c.doc, c.undo, c.mod)

/-- The functions of `H` defined outside actions.c that may write `ui_state`
keep the bits of the mask `m`. -/
def keeps_mode_bits (H : GestureHelpers) (m : Nat) : Prop :=
  (∀ doc u, H.rebuild_selected_array doc u &&& m = u &&& m) ∧
  (∀ x1 y1 x2 y2 sel c, (H.select_inside x1 y1 x2 y2 sel c).ui_state &&& m = c.ui_state &&& m) ∧
  (∀ w c, (H.change_linewidth w c).ui_state &&& m = c.ui_state &&& m)

/-- A wire placement armed at (10,10) in mode H-then-V, the mouse at (3,4). -/
def wire_armed : GestureCtx :=
  { new_wire gesture_helpers 1 10 10 (gesture_start 1) with mousex_snap := 3, mousey_snap := 4 }

/-- A rubber-band selection in progress: started in select mode at (10,20)
and dragged to (30,40), the pointer now at (50,60). -/
def selecting : GestureCtx :=
  { gesture_start 0 with ui_state := 64, nl_sem := 1, nl_sel := 1, nl_xr := 10, nl_yr := 20,
                         nl_xr2 := 30, nl_yr2 := 40, mx_double_save := 50, my_double_save := 60 }

/-! ## `change_layer` (lines 2551-2609)

The per-layer arrays are lists of lists, the outer index the layer; the texts
are those of the `ModCtx` that set_modify works on. A read or a write outside
an array makes the call fail (`none`), as does the NULL attribute string the
loop of lines 2598-2601 would read. -/

/-- What push_undo saves of the sheet for change_layer. -/
structure LayerDoc where
  line : List (List xLine)
  rect : List (List xRect)
  arc : List (List xArc)
  poly : List (List xPoly)
  text : List xText
deriving DecidableEq

/-- The fields of `xctx` used by change_layer. -/
structure LayerCtx where
  line : List (List xLine)
  rect : List (List xRect)
  arc : List (List xArc)
  poly : List (List xPoly)
  sel_array : List Selected
  lastsel : Nat
  rectcolor : Nat
  undo : List LayerDoc
  mod : ModCtx
deriving DecidableEq

/-- What change_layer takes from outside actions.c: the constants `SELECTED`
and `TEXT_FLOATER`, and the functions subst_token, dtoa,
delete_only_rect_line_arc_poly and unselect_all. -/
structure LayerHelpers where
  SELECTED : Nat
  TEXT_FLOATER : Nat
  subst_token : Option String → String → Option String → String
  dtoa : Nat → String
  delete_only_rect_line_arc_poly : LayerCtx → LayerCtx
  unselect_all : Int → LayerCtx → LayerCtx

/-- Modelled from the spec: push_undo is reached through `xctx->push_undo`; the
sheet is snapshot and the snapshot pushed on the undo stack. -/
def layer_push_undo (c : LayerCtx) : LayerCtx :=
  { c with undo := { line := c.line, rect := c.rect, arc := c.arc, poly := c.poly,
                     text := c.mod.text } :: c.undo }

/-- Modelled from the spec: storeobject is not in actions.c; called with
position -1 and type LINE it appends the line, with a copy of the attribute
string, after the lines of layer `rectcolor`. -/
def storeobject_line (c : LayerCtx) (x1 y1 x2 y2 : Rat) (rectcolor sel : Nat)
    (prop_ptr : Option String) : Option LayerCtx :=
  match c.line[rectcolor]? with
  | none => none
  | some l => some { c with line := c.line.set rectcolor (l ++
      [{ x1 := x1, y1 := y1, x2 := x2, y2 := y2, sel := sel, prop_ptr := my_strdup prop_ptr }]) }

/-- Modelled from the spec: storeobject is not in actions.c; called with
position -1 and type xRECT it appends the rectangle, with a copy of the
attribute string, after the rectangles of layer `rectcolor`; the flags
storeobject derives from the attribute string are left at 0. -/
def storeobject_rect (c : LayerCtx) (x1 y1 x2 y2 : Rat) (rectcolor sel : Nat)
    (prop_ptr : Option String) : Option LayerCtx :=
  match c.rect[rectcolor]? with
  | none => none
  | some l => some { c with rect := c.rect.set rectcolor (l ++
      [{ x1 := x1, y1 := y1, x2 := x2, y2 := y2, sel := sel, prop_ptr := my_strdup prop_ptr,
         flags := 0, extraptr := none }]) }

/-- Modelled from the spec: store_arc is not in actions.c; called with position
-1 it appends the arc, with a copy of the attribute string, after the arcs of
layer `rectcolor`. -/
def layer_store_arc (c : LayerCtx) (x y r a b : Rat) (rectcolor sel : Nat)
    (prop_ptr : Option String) : Option LayerCtx :=
  match c.arc[rectcolor]? with
  | none => none
  | some l => some { c with arc := c.arc.set rectcolor (l ++
      [{ x := x, y := y, r := r, a := a, b := b, sel := sel, prop_ptr := my_strdup prop_ptr }]) }

/-- Modelled from the spec: store_poly is not in actions.c; called with
position -1 it appends, after the polygons of layer `rectcolor`, a polygon
holding a copy of the first `points` elements of the two arrays and of the
attribute string, no point of it selected. -/
def layer_store_poly (c : LayerCtx) (x y : List Rat) (points rectcolor sel : Nat)
    (prop_ptr : Option String) : Option LayerCtx :=
  match c.poly[rectcolor]? with
  | none => none
  | some l =>
    if points ≤ x.length ∧ points ≤ y.length then
      some { c with poly := c.poly.set rectcolor (l ++
        [{ x := x.take points, y := y.take points, selected_point := List.replicate points 0,
           points := points, sel := sel, prop_ptr := my_strdup prop_ptr }]) }
    else none

/-- The element `a[c][n]` of a per-layer array. -/
def layer_item {α : Type} (a : List (List α)) (c n : Nat) : Option α :=
  (a[c]?).bind fun l => l[n]?

/-- Lines 2563-2570: a selected line is stored again on the current layer. The
second component is the local `modified`. -/
def change_layer_line (H : LayerHelpers) (s : Selected) (st : LayerCtx × Int) :
    Option (LayerCtx × Int) :=
  if s.type = ObjType.LINE then
    (layer_item st.1.line s.col s.n).bind fun l =>
      if l.sel = H.SELECTED then
        (storeobject_line st.1 l.x1 l.y1 l.x2 l.y2 st.1.rectcolor 0 l.prop_ptr).map
          fun c => (c, 1)
      else some st
  else some st

/-- Lines 2571-2578: a selected arc is stored again on the current layer. -/
def change_layer_arc (H : LayerHelpers) (s : Selected) (st : LayerCtx × Int) :
    Option (LayerCtx × Int) :=
  if s.type = ObjType.ARC then
    (layer_item st.1.arc s.col s.n).bind fun a =>
      if a.sel = H.SELECTED then
        (layer_store_arc st.1 a.x a.y a.r a.a a.b st.1.rectcolor 0 a.prop_ptr).map
          fun c => (c, st.2)
      else some st
  else some st

/-- Lines 2591-2604: the layer of a selected text is set to the current
layer, in the attribute string too, where line feeds become blanks. -/
def change_layer_text (H : LayerHelpers) (s : Selected) (st : LayerCtx × Int) :
    Option (LayerCtx × Int) :=
  if s.type = ObjType.xTEXT then
    (st.1.mod.text[s.n]?).bind fun t =>
      if t.sel = H.SELECTED then
        if (st.1.rectcolor : Int) ≠ t.layer then
          match my_strdup (some (H.subst_token t.prop_ptr "layer"
              (some (H.dtoa st.1.rectcolor)))) with
          | none => none
          | some p =>
            let p1 := String.mk (p.toList.map fun ch => if ch = Char.ofNat 10 then ' ' else ch)
            let t1 := { t with prop_ptr := some p1, layer := (st.1.rectcolor : Int) }
            some ({ st.1 with mod := { st.1.mod with text := st.1.mod.text.set s.n t1 } }, 1)
        else some st
      else some st
  else some st

/-- Lines 2583-2590: a selected rectangle is stored again on the current
layer; otherwise the text branch is tried. -/
def change_layer_rect (H : LayerHelpers) (s : Selected) (st : LayerCtx × Int) :
    Option (LayerCtx × Int) :=
  if s.type = ObjType.xRECT then
    (layer_item st.1.rect s.col s.n).bind fun r =>
      if r.sel = H.SELECTED then
        (storeobject_rect st.1 r.x1 r.y1 r.x2 r.y2 st.1.rectcolor 0 r.prop_ptr).map
          fun c => (c, 1)
      else change_layer_text H s st
  else change_layer_text H s st

/-- Lines 2579-2604: a selected polygon is stored again on the current layer;
otherwise the rectangle and text branches are tried. -/
def change_layer_poly (H : LayerHelpers) (s : Selected) (st : LayerCtx × Int) :
    Option (LayerCtx × Int) :=
  if s.type = ObjType.POLYGON then
    (layer_item st.1.poly s.col s.n).bind fun q =>
      if q.sel = H.SELECTED then
        (layer_store_poly st.1 q.x q.y q.points st.1.rectcolor 0 q.prop_ptr).map
          fun c => (c, st.2)
      else change_layer_rect H s st
  else change_layer_rect H s st

/-- Lines 2560-2604: the body of the loop for the entry `k` of the selection
array. -/
def change_layer_entry (H : LayerHelpers) (st : LayerCtx × Int) (k : Nat) :
    Option (LayerCtx × Int) :=
  (st.1.sel_array[k]?).bind fun s =>
    (change_layer_line H s st).bind fun st1 =>
      (change_layer_arc H s st1).bind fun st2 => change_layer_poly H s st2

/-- The loop of lines 2558-2605, from `k` on, with `fuel` rounds allowed. -/
def change_layer_loop (H : LayerHelpers) : Nat → Nat → LayerCtx × Int → Option (LayerCtx × Int)
  | 0, _, st => some st
  | fuel + 1, k, st =>
    if k < st.1.lastsel then
      (change_layer_entry H st k).bind fun st1 => change_layer_loop H fuel (k + 1) st1
    else some st

/-- `change_layer()`. The loop runs at most `lastsel` rounds unless a callee
changes `lastsel`; the stores modelled here do not. -/
def change_layer (H : LayerHelpers) (c : LayerCtx) : Option LayerCtx :=
  let c1 := if c.lastsel ≠ 0 then layer_push_undo c else c
  (change_layer_loop H c1.lastsel 0 (c1, 0)).map fun st =>
    let c2 := if st.1.lastsel ≠ 0 then H.delete_only_rect_line_arc_poly st.1 else st.1
    let c3 := H.unselect_all 1 c2
    if st.2 ≠ 0 then { c3 with mod := set_modify H.TEXT_FLOATER 1 c3.mod } else c3

/-- Modelled from the spec: delete_only_rect_line_arc_poly is not in actions.c.
It removes from every layer the rectangles, lines, arcs and polygons whose
`sel` is `SELECTED`. -/
def delete_selected_shapes (SELECTED : Nat) (c : LayerCtx) : LayerCtx :=
  { c with line := c.line.map (fun l => l.filter fun x => decide (x.sel ≠ SELECTED)),
           rect := c.rect.map (fun l => l.filter fun x => decide (x.sel ≠ SELECTED)),
           arc := c.arc.map (fun l => l.filter fun x => decide (x.sel ≠ SELECTED)),
           poly := c.poly.map (fun l => l.filter fun x => decide (x.sel ≠ SELECTED)) }

/-- Modelled from the spec: unselect_all is not in actions.c. It clears the
`sel` of every object and empties the selection array. -/
def unselect_shapes (c : LayerCtx) : LayerCtx :=
  { c with line := c.line.map (fun l => l.map fun x => { x with sel := 0 }),
           rect := c.rect.map (fun l => l.map fun x => { x with sel := 0 }),
           arc := c.arc.map (fun l => l.map fun x => { x with sel := 0 }),
           poly := c.poly.map (fun l => l.map fun x => { x with sel := 0 }),
           mod := { c.mod with text := c.mod.text.map fun x => { x with sel := 0 } },
           sel_array := [], lastsel := 0 }

/-- Modelled from the spec: the constants and functions change_layer takes from
outside actions.c. `SELECTED` is 1; subst_token is taken to append
`token=value` to the string, dtoa to print the layer number. -/
def layer_helpers : LayerHelpers :=
  { SELECTED := 1, TEXT_FLOATER := 2,
    subst_token := fun p tok v => p.getD "" ++ " " ++ tok ++ "=" ++ v.getD "",
    dtoa := fun n => toString n,
    delete_only_rect_line_arc_poly := delete_selected_shapes 1,
    unselect_all := fun _ c => unselect_shapes c }

/-- A sheet of 6 layers, unmodified, whose only object is a selected arc on
layer 4; the current layer is 5. -/
def arc_selected : LayerCtx :=
  { line := List.replicate 6 [], rect := List.replicate 6 [], poly := List.replicate 6 [],
    arc := [[], [], [], [], [{ x := 0, y := 0, r := 5, a := 0, b := 90, sel := 1,
                               prop_ptr := none }], []],
    sel_array := [{ type := ObjType.ARC, n := 0, col := 4 }], lastsel := 1, rectcolor := 5,
    undo := [], mod := sheet_with_texts [] }

/-- The same sheet with a selected line in place of the arc. -/
def line_selected : LayerCtx :=
  { line := [[], [], [], [], [{ x1 := 0, y1 := 0, x2 := 5, y2 := 5, sel := 1,
                                prop_ptr := none }], []],
    rect := List.replicate 6 [], poly := List.replicate 6 [], arc := List.replicate 6 [],
    sel_array := [{ type := ObjType.LINE, n := 0, col := 4 }], lastsel := 1, rectcolor := 5,
    undo := [], mod := sheet_with_texts [] }

/-! ## `set_inst_flags` (lines 716-756), `place_symbol` (lines 1192-1306)

`inst` is the whole allocated instance array (its length is the capacity) and
`instances` the number of live entries; a read or a write outside an array
makes the call fail (`none`). Drawing calls (bbox, draw, drawtemp...) are
left out. -/

/-- The function save_schematic, outside actions.c, pushes no hierarchy frame
and leaves the instances, the symbols and the selection as they are. -/
def save_keeps_hierarchy (H : HierHelpers) : Prop :=
  ∀ s c, (H.save_schematic s c).1.currsch = c.currsch ∧
    (H.save_schematic s c).1.portmap = c.portmap ∧
    (H.save_schematic s c).1.zoom_array = c.zoom_array ∧
    (H.save_schematic s c).1.view.inst = c.view.inst ∧
    (H.save_schematic s c).1.view.sym = c.view.sym ∧
    (H.save_schematic s c).1.sel_array = c.sel_array

/-- The editor at the top level on the sheet `resistor_parent`, the sheet
having no name yet. -/
def unnamed_resistor_top : HierCtx := { top_level resistor_parent with sch := ["", "", ""] }

end Xschem

/-! # Theorems -/

namespace Xschem

/-! ## Lemmas on `hash_file` -/

theorem hash_add_eq (h c : Nat) : hash_add h c = (h * 33 + c) % 4294967296 := by
  unfold hash_add u32
  omega

theorem join_my_fgets_lines (c : List Nat) : (my_fgets_lines c).flatten = c := by
  induction c with
  | nil => rfl
  | cons b rest ih =>
    unfold my_fgets_lines
    by_cases hb : b = 10
    · simp [hb, ih]
    · simp only [hb, if_false]
      cases hl : my_fgets_lines rest with
      | nil => rw [hl] at ih; simp at ih; simp [← ih]
      | cons l ls => rw [hl] at ih; simp at ih; simp [← ih]

theorem foldl_hash_line_zero (lines : List (List Nat)) (st : Nat × Bool) :
    lines.foldl (hash_line 0) st = lines.flatten.foldl hash_byte st := by
  induction lines generalizing st with
  | nil => rfl
  | cons l ls ih => simp [hash_line, ih]

/-- Without skipping, the line structure is irrelevant: the bytes of the
content are folded in order. -/
theorem hash_file_noskip (c : List Nat) :
    hash_file (some c) 0 = hash_finish (c.foldl hash_byte (5381, false)) := by
  simp [hash_file, foldl_hash_line_zero, join_my_fgets_lines]

theorem foldl_hash_byte_to_crlf (a : List Nat) (hcr : 13 ∉ a) (h : Nat) :
    (to_crlf a).foldl hash_byte (h, false) = a.foldl hash_byte (h, false) := by
  induction a generalizing h with
  | nil => rfl
  | cons b rest ih =>
    have hb : b ≠ 13 := fun e => hcr (by simp [e])
    have hr : 13 ∉ rest := fun e => hcr (by simp [e])
    by_cases h10 : b = 10
    · subst h10
      simp [to_crlf, hash_byte, ih hr]
    · simp [to_crlf, h10, hash_byte, hb, ih hr]

/-- The LF and the CRLF variant of a CR free text have the same hash when no
line is skipped. -/
theorem hash_file_crlf_noskip (a : List Nat) (hcr : 13 ∉ a) :
    hash_file (some (to_crlf a)) 0 = hash_file (some a) 0 := by
  rw [hash_file_noskip, hash_file_noskip, foldl_hash_byte_to_crlf a hcr]

theorem no_double_cr_tail (b : Nat) (rest : List Nat) (h : no_double_cr (b :: rest)) :
    no_double_cr rest := by
  cases rest with
  | nil => trivial
  | cons c r => exact h.2

theorem drop_cr_cons_of_ne (b : Nat) (rest : List Nat) (hb : b ≠ 13) :
    drop_cr_before_lf (b :: rest) = b :: drop_cr_before_lf rest := by
  cases rest with
  | nil => rfl
  | cons c r => simp [drop_cr_before_lf, hb]

theorem hash_finish_foldl_spec (c : List Nat) :
    ∀ h : Nat, no_double_cr c →
      (hash_finish (c.foldl hash_byte (h, false)) =
        (drop_cr_before_lf c).foldl (fun h b => (h * 33 + b) % 4294967296) h) ∧
      (c.head? ≠ some 13 → hash_finish (c.foldl hash_byte (h, true)) =
        (drop_cr_before_lf (13 :: c)).foldl (fun h b => (h * 33 + b) % 4294967296) h) := by
  induction c with
  | nil =>
    intro h _
    refine ⟨rfl, fun _ => ?_⟩
    simp [hash_finish, drop_cr_before_lf, hash_add_eq]
  | cons b rest ih =>
    intro h hnd
    have hrest := no_double_cr_tail b rest hnd
    refine ⟨?_, fun hhead => ?_⟩
    · by_cases hb : b = 13
      · subst hb
        have hh : rest.head? ≠ some 13 := by
          cases rest with
          | nil => simp
          | cons c r =>
            have := hnd.1
            simp at this
            simpa using this
        have := (ih h hrest).2 hh
        simpa [hash_byte] using this
      · have := (ih (hash_add h b) hrest).1
        rw [drop_cr_cons_of_ne b rest hb]
        simp only [List.foldl_cons]
        rw [← hash_add_eq]
        simpa [hash_byte, hb] using this
    · have hb : b ≠ 13 := by simpa using hhead
      have := (ih (hash_add h b) hrest).1
      by_cases h10 : b = 10
      · subst h10
        have e : drop_cr_before_lf (13 :: 10 :: rest) = 10 :: drop_cr_before_lf rest := by
          simp [drop_cr_before_lf, drop_cr_cons_of_ne 10 rest (by decide)]
        rw [e]
        simp only [List.foldl_cons]
        rw [← hash_add_eq]
        simpa [hash_byte] using this
      · have e : drop_cr_before_lf (13 :: b :: rest) = 13 :: b :: drop_cr_before_lf rest := by
          simp [drop_cr_before_lf, h10, drop_cr_cons_of_ne b rest hb]
        have := (ih (hash_add (hash_add h 13) b) hrest).1
        rw [e]
        simp only [List.foldl_cons]
        rw [← hash_add_eq, ← hash_add_eq]
        simpa [hash_byte, hb, h10] using this

/-- On a content in which no CR is immediately followed by another CR,
`hash_file` without skipping is DJB2 over the content with the CR LF pairs
reduced to LF. -/
theorem hash_file_eq_spec_of_no_double_cr (c : List Nat) (h : no_double_cr c) :
    hash_file (some c) 0 = hash_spec c := by
  rw [hash_file_noskip]
  exact (hash_finish_foldl_spec c 5381 h).1

theorem my_fgets_lines_terminated (body rest : List Nat) (hb : 10 ∉ body) :
    my_fgets_lines (body ++ 10 :: rest) = (body ++ [10]) :: my_fgets_lines rest := by
  induction body with
  | nil => simp [my_fgets_lines]
  | cons b body ih =>
    have hb0 : b ≠ 10 := fun e => hb (by simp [e])
    have hb1 : 10 ∉ body := fun e => hb (by simp [e])
    simp [my_fgets_lines, hb0, ih hb1]

theorem my_fgets_lines_unterminated (l : List Nat) (hne : l ≠ []) (hl : 10 ∉ l) :
    my_fgets_lines l = [l] := by
  induction l with
  | nil => exact absurd rfl hne
  | cons b rest ih =>
    have hb0 : b ≠ 10 := fun e => hl (by simp [e])
    have hb1 : 10 ∉ rest := fun e => hl (by simp [e])
    cases rest with
    | nil => simp [my_fgets_lines, hb0]
    | cons c r =>
      have e := ih (by simp) hb1
      rw [my_fgets_lines, if_neg hb0, e]

theorem lines_ok_cons (l : List Nat) (ls : List (List Nat)) (hl : terminated l)
    (hls : lines_ok ls) : lines_ok (l :: ls) := by
  cases ls with
  | nil => exact Or.inl hl
  | cons l2 r => exact ⟨hl, hls⟩

theorem lines_ok_tail (l : List Nat) (ls : List (List Nat)) (h : lines_ok (l :: ls)) :
    lines_ok ls := by
  cases ls with
  | nil => trivial
  | cons l2 r => exact h.2

theorem lines_ok_my_fgets_lines (c : List Nat) : lines_ok (my_fgets_lines c) := by
  induction c with
  | nil => trivial
  | cons b rest ih =>
    unfold my_fgets_lines
    by_cases hb : b = 10
    · simp only [hb, if_true]
      exact lines_ok_cons _ _ ⟨[], by simp, rfl⟩ ih
    · simp only [hb, if_false]
      cases hl : my_fgets_lines rest with
      | nil => exact Or.inr ⟨by simp, by simpa using fun e => hb e.symm⟩
      | cons l ls =>
        rw [hl] at ih
        have hterm : terminated l → terminated (b :: l) := by
          rintro ⟨body, h1, h2⟩
          exact ⟨b :: body, by simpa using ⟨fun e => hb e.symm, h1⟩, by simp [h2]⟩
        cases ls with
        | nil =>
          rcases ih with h | ⟨_, h2⟩
          · exact Or.inl (hterm h)
          · exact Or.inr ⟨by simp, by simpa using ⟨fun e => hb e.symm, h2⟩⟩
        | cons l2 r => exact ⟨hterm ih.1, ih.2⟩

theorem lines_ok_filter (p : List Nat → Bool) (ls : List (List Nat)) (h : lines_ok ls) :
    lines_ok (ls.filter p) := by
  induction ls with
  | nil => trivial
  | cons l r ih =>
    have hr := ih (lines_ok_tail l r h)
    by_cases hp : p l = true
    · rw [List.filter_cons_of_pos hp]
      cases r with
      | nil => simpa using h
      | cons l2 r2 => exact lines_ok_cons _ _ h.1 hr
    · rw [List.filter_cons_of_neg hp]
      exact hr

theorem my_fgets_lines_flatten (ls : List (List Nat)) (h : lines_ok ls) :
    my_fgets_lines ls.flatten = ls := by
  induction ls with
  | nil => rfl
  | cons l r ih =>
    cases r with
    | nil =>
      rcases h with ⟨body, h1, h2⟩ | ⟨h1, h2⟩
      · subst h2
        simpa [my_fgets_lines] using my_fgets_lines_terminated body [] h1
      · simpa using my_fgets_lines_unterminated l h1 h2
    | cons l2 r2 =>
      obtain ⟨⟨body, h1, h2⟩, hr⟩ := h
      subst h2
      have := my_fgets_lines_terminated body (l2 :: r2).flatten h1
      rw [ih hr] at this
      simpa using this

theorem foldl_hash_line_skip (s : Int) (hs : s ≠ 0) (ls : List (List Nat)) (st : Nat × Bool) :
    ls.foldl (hash_line s) st
      = (ls.filter (fun l => !is_path_line l)).foldl (hash_line 0) st := by
  induction ls generalizing st with
  | nil => rfl
  | cons l r ih =>
    by_cases hp : is_path_line l = true
    · simp [hash_line, hs, hp, ih]
    · simp [hash_line, hp, ih]

/-! ## Claims on `hash_file` -/

/-- C1 (defect): the text `** sch_path: ` + LF contains no CR, yet with
`skip_path_lines = 1` its CRLF variant hashes to the initial value 5381 (the
15 byte line passes the test `n > 14` and is skipped) while the text itself
(14 bytes, not skipped) hashes to 4174787463. -/
theorem hash_file_crlf_skip_mismatch :
    13 ∉ empty_path_line ∧
    hash_file (some (to_crlf empty_path_line)) 1 = 5381 ∧
    hash_file (some empty_path_line) 1 = 4174787463 := by
  decide

/-- C2 (defect): on the two byte content CR CR the code performs a single step
with byte 13 (result 177586), where the stated rule gives two such steps
(result 5860351): the first CR is dropped although no LF follows it. -/
theorem hash_file_double_cr :
    hash_file (some [13, 13]) 0 = 177586 ∧ hash_spec [13, 13] = 5860351 := by
  decide

/-- C3 (as stated, refuted): the line `// sch_path: abc` begins with none of
the three listed annotations, so the stated rule removes nothing, but
`hash_file` with `skip_path_lines = 1` skips it. -/
theorem hash_file_skip_not_annotation :
    hash_file (some verilog_sch_path_line) 1
      ≠ hash_file (some (remove_lines is_annotation_line verilog_sch_path_line)) 0 := by
  decide

/-- C3 (amended): with `skip_path_lines` non-zero, `hash_file` returns what it
returns with `skip_path_lines = 0` on the content from which exactly the lines
longer than 14 bytes whose bytes 2..12 are ` sch_path: ` or ` sym_path: ` have
been removed. -/
theorem hash_file_skip_eq_remove_lines (c : List Nat) (s : Int) (hs : s ≠ 0) :
    hash_file (some c) s = hash_file (some (remove_lines is_path_line c)) 0 := by
  have hok : lines_ok ((my_fgets_lines c).filter (fun l => !is_path_line l)) :=
    lines_ok_filter _ _ (lines_ok_my_fgets_lines c)
  simp only [hash_file, remove_lines]
  rw [my_fgets_lines_flatten _ hok, foldl_hash_line_skip s hs]

/-- Witness for C3 (amended) on `** sch_path: /a` LF `ab` LF with
`skip_path_lines = 1`. -/
theorem hash_file_skip_eq_remove_lines_witness :
    (1 : Int) ≠ 0 ∧
    hash_file (some [42, 42, 32, 115, 99, 104, 95, 112, 97, 116, 104, 58, 32, 47, 97, 10, 97, 98, 10]) 1
      = hash_file (some (remove_lines is_path_line
          [42, 42, 32, 115, 99, 104, 95, 112, 97, 116, 104, 58, 32, 47, 97, 10, 97, 98, 10])) 0 :=
  ⟨by decide, hash_file_skip_eq_remove_lines _ 1 (by decide)⟩

/-! ## `remove_symbol` -/

theorem shift_symbols_spec (n : Nat) :
    ∀ (sym : List xSymbol) (i : Nat), 1 ≤ i → i + n ≤ sym.length →
      ∃ sym2, shift_symbols sym i n = some sym2 ∧ sym2.length = sym.length ∧
        ∀ m, sym2[m]? = if i - 1 ≤ m ∧ m < i - 1 + n then sym[m + 1]? else sym[m]? := by
  induction n with
  | zero =>
    intro sym i _ _
    refine ⟨sym, rfl, rfl, fun m => ?_⟩
    have : ¬ (i - 1 ≤ m ∧ m < i - 1 + 0) := by omega
    rw [if_neg this]
  | succ n ih =>
    intro sym i hi hlen
    have hlt : i < sym.length := by omega
    obtain ⟨sym2, h1, h2, h3⟩ := ih (sym.set (i - 1) sym[i]) (i + 1) (by omega)
      (by simpa using by omega)
    refine ⟨sym2, ?_, by simpa using h2, fun m => ?_⟩
    · simp only [shift_symbols, List.getElem?_eq_getElem hlt]
      exact h1
    · rw [h3 m]
      simp only [Nat.add_sub_cancel, List.getElem?_set]
      by_cases hm : m = i - 1
      · subst hm
        have c1 : ¬ (i ≤ i - 1 ∧ i - 1 < i + n) := by omega
        have c2 : i - 1 ≤ i - 1 ∧ i - 1 < i - 1 + (n + 1) := by omega
        have c3 : i - 1 < sym.length := by omega
        have c4 : i - 1 + 1 = i := by omega
        rw [if_neg c1, if_pos c2, if_pos rfl, if_pos c3, c4, List.getElem?_eq_getElem hlt]
      · have c5 : ¬ (i - 1 = m) := fun e => hm e.symm
        by_cases hc : i ≤ m ∧ m < i + n
        · have c6 : ¬ (i - 1 = m + 1) := by omega
          have c7 : i - 1 ≤ m ∧ m < i - 1 + (n + 1) := by omega
          rw [if_pos hc, if_pos c7, if_neg c6]
        · have c7 : ¬ (i - 1 ≤ m ∧ m < i - 1 + (n + 1)) := by omega
          rw [if_neg hc, if_neg c7, if_neg c5]

/-- C4: for a cache of `N = symbols` live entries (within the allocated array)
and `j < N`, `remove_symbol(j)` succeeds, the count becomes `N - 1`, entry `i`
is the old entry `i` for `i < j` and the old entry `i + 1` for `j ≤ i < N - 1`,
and slot `N - 1` holds the cleared slot: no name, type, template or attribute
string, zero texts, no text array and no per-layer geometry. The capacity, the
slots from `N` on and the instances are untouched. -/
theorem remove_symbol_shift_compaction (ctx : SymCache) (j : Nat)
    (hj : j < ctx.symbols) (hcap : ctx.symbols ≤ ctx.sym.length) :
    ∃ ctx2 sj, remove_symbol ctx j = some ctx2 ∧ ctx.sym[j]? = some sj ∧
      ctx2.symbols = ctx.symbols - 1 ∧
      (∀ i, i < j → ctx2.sym[i]? = ctx.sym[i]?) ∧
      (∀ i, j ≤ i → i < ctx.symbols - 1 → ctx2.sym[i]? = ctx.sym[i + 1]?) ∧
      ctx2.sym[ctx.symbols - 1]? = some (clear_symbol sj) ∧
      (clear_symbol sj).name = none ∧ (clear_symbol sj).type = none ∧
      (clear_symbol sj).templ = none ∧ (clear_symbol sj).prop_ptr = none ∧
      (clear_symbol sj).texts = 0 ∧ (clear_symbol sj).text = none ∧
      (clear_symbol sj).line = none ∧ (clear_symbol sj).rect = none ∧
      (clear_symbol sj).arc = none ∧ (clear_symbol sj).poly = none ∧
      (clear_symbol sj).lines = none ∧ (clear_symbol sj).rects = none ∧
      (clear_symbol sj).arcs = none ∧ (clear_symbol sj).polygons = none ∧
      ctx2.sym.length = ctx.sym.length ∧
      (∀ i, ctx.symbols ≤ i → ctx2.sym[i]? = ctx.sym[i]?) ∧
      ctx2.inst = ctx.inst ∧ ctx2.instances = ctx.instances ∧
      ctx2.num_syms = ctx.num_syms := by
  have hjl : j < ctx.sym.length := by omega
  obtain ⟨sym2, h1, h2, h3⟩ := shift_symbols_spec (ctx.symbols - (j + 1))
    (ctx.sym.set j (clear_symbol ctx.sym[j])) (j + 1) (by omega) (by simpa using by omega)
  have hlen2 : sym2.length = ctx.sym.length := by simpa using h2
  have hcond : 0 < ctx.symbols ∧ ctx.symbols - 1 < sym2.length := by omega
  refine ⟨{ ctx with sym := sym2.set (ctx.symbols - 1) (clear_symbol ctx.sym[j]),
                     symbols := ctx.symbols - 1 }, ctx.sym[j], ?_,
    List.getElem?_eq_getElem hjl, rfl, ?_, ?_, ?_, rfl, rfl, rfl, rfl, rfl, rfl, rfl, rfl, rfl,
    rfl, rfl, rfl, rfl, rfl, ?_, ?_, rfl, rfl, rfl⟩
  · simp only [remove_symbol, List.getElem?_eq_getElem hjl, h1, if_pos hcond]
  · intro i hi
    have c1 : ¬ (ctx.symbols - 1 = i) := by omega
    have c2 : ¬ (j + 1 - 1 ≤ i ∧ i < j + 1 - 1 + (ctx.symbols - (j + 1))) := by omega
    have c3 : ¬ (j = i) := by omega
    simp only [List.getElem?_set, if_neg c1, h3 i, if_neg c2, if_neg c3]
  · intro i hji hi
    have c1 : ¬ (ctx.symbols - 1 = i) := by omega
    have c2 : j + 1 - 1 ≤ i ∧ i < j + 1 - 1 + (ctx.symbols - (j + 1)) := by omega
    have c3 : ¬ (j = i + 1) := by omega
    simp only [List.getElem?_set, if_neg c1, h3 i, if_pos c2, if_neg c3]
  · simp [List.getElem?_set, hcond.2]
  · simpa using hlen2
  · intro i hi
    have c1 : ¬ (ctx.symbols - 1 = i) := by omega
    have c2 : ¬ (j + 1 - 1 ≤ i ∧ i < j + 1 - 1 + (ctx.symbols - (j + 1))) := by omega
    have c3 : ¬ (j = i) := by omega
    simp only [List.getElem?_set, if_neg c1, h3 i, if_neg c2, if_neg c3]

/-- Witness for C4: removing symbol 1 of the three symbols of `demo_cache`
leaves two symbols, symbol 2 moving to slot 1. -/
theorem remove_symbol_shift_compaction_witness :
    1 < demo_cache.symbols ∧ demo_cache.symbols ≤ demo_cache.sym.length ∧
    ∃ ctx2, remove_symbol demo_cache 1 = some ctx2 ∧ ctx2.symbols = 2 ∧
      ctx2.sym[0]? = demo_cache.sym[0]? ∧ ctx2.sym[1]? = demo_cache.sym[2]? := by
  obtain ⟨ctx2, sj, h1, _, h2, h3, h4, _⟩ :=
    remove_symbol_shift_compaction demo_cache 1 (by decide) (by decide)
  exact ⟨by decide, by decide, ctx2, h1, h2, h3 0 (by decide),
    h4 1 (le_refl 1) (by decide)⟩

/-! ## `get_additional_symbols` -/

theorem remove_symbol_last (ctx : SymCache) (h0 : 0 < ctx.symbols)
    (hcap : ctx.symbols ≤ ctx.sym.length) :
    ∃ sj, ctx.sym[ctx.symbols - 1]? = some sj ∧
      remove_symbol ctx (ctx.symbols - 1) =
        some { ctx with sym := ctx.sym.set (ctx.symbols - 1) (clear_symbol sj),
                        symbols := ctx.symbols - 1 } := by
  have hlt : ctx.symbols - 1 < ctx.sym.length := by omega
  refine ⟨ctx.sym[ctx.symbols - 1], List.getElem?_eq_getElem hlt, ?_⟩
  have e : ctx.symbols - (ctx.symbols - 1 + 1) = 0 := by omega
  have hc : 0 < ctx.symbols ∧
      ctx.symbols - 1 < (ctx.sym.set (ctx.symbols - 1)
        (clear_symbol ctx.sym[ctx.symbols - 1])).length := by
    simpa using ⟨h0, hlt⟩
  simp only [remove_symbol, List.getElem?_eq_getElem hlt, e, shift_symbols, if_pos hc,
    List.set_set]

theorem remove_clones_spec (k : Nat) :
    ∀ ctx : SymCache, k ≤ ctx.symbols → ctx.symbols ≤ ctx.sym.length →
      ∃ c2, remove_clones ctx (ctx.symbols - 1) k = some c2 ∧
        c2.symbols = ctx.symbols - k ∧ c2.sym.length = ctx.sym.length ∧
        (∀ i, i < ctx.symbols - k → c2.sym[i]? = ctx.sym[i]?) ∧
        (∀ i, ctx.symbols - k ≤ i → i < ctx.symbols →
          c2.sym[i]? = (ctx.sym[i]?).map clear_symbol) ∧
        (∀ i, ctx.symbols ≤ i → c2.sym[i]? = ctx.sym[i]?) ∧
        c2.inst = ctx.inst ∧ c2.instances = ctx.instances ∧ c2.num_syms = ctx.num_syms := by
  induction k with
  | zero =>
    intro ctx _ _
    exact ⟨ctx, rfl, rfl, rfl, fun _ _ => rfl, fun i h1 h2 => by omega, fun _ _ => rfl,
      rfl, rfl, rfl⟩
  | succ k ih =>
    intro ctx hk hcap
    obtain ⟨sj, hsj, hrem⟩ := remove_symbol_last ctx (by omega) hcap
    obtain ⟨c2, h1, h2, h3, h4, h5, h9, h6, h7, h8⟩ :=
      ih { ctx with sym := ctx.sym.set (ctx.symbols - 1) (clear_symbol sj),
                    symbols := ctx.symbols - 1 } (by simpa using by omega)
        (by simpa using by omega)
    simp only at h1 h2 h3 h4 h5 h6 h7 h8 h9
    refine ⟨c2, ?_, by omega, by simpa using h3, ?_, ?_, ?_, h6, h7, h8⟩
    · simp only [remove_clones, hrem]
      exact h1
    · intro i hi
      rw [h4 i (by omega), List.getElem?_set_ne (by omega)]
    · intro i hi1 hi2
      by_cases hl : i = ctx.symbols - 1
      · subst hl
        rw [h9 _ (le_refl _), List.getElem?_set_self (by omega), hsj]
        rfl
      · rw [h5 i (by omega) (by omega), List.getElem?_set_ne (fun e => hl e.symm)]
    · intro i hi
      rw [h9 i (by omega), List.getElem?_set_ne (by omega)]

theorem int_hash_lookup_none_iff (t : List (String × Int)) (k : String) (v : Int) :
    (int_hash_lookup t (some k) v HashWhat.XLOOKUP).1 = none ↔ k ∉ t.map Prod.fst := by
  cases h : t.find? (fun e => e.1 == k) with
  | none =>
    simp only [int_hash_lookup, h, true_iff]
    intro hk
    obtain ⟨e, he, hek⟩ := List.mem_map.1 hk
    have := List.find?_eq_none.1 h e he
    simp [hek] at this
  | some e =>
    have h1 := List.find?_some h
    have h2 := List.mem_of_find?_eq_some h
    simp only [beq_iff_eq] at h1
    simp only [int_hash_lookup, h]
    constructor
    · intro h3
      cases h3
    · intro h3
      exact absurd (List.mem_map.2 ⟨e, h2, h1⟩) h3

theorem int_hash_insert_keys (t : List (String × Int)) (tok : Option String) (v : Int)
    (k : String) :
    k ∈ ((int_hash_lookup t tok v HashWhat.XINSERT).2).map Prod.fst
      ↔ tok = some k ∨ k ∈ t.map Prod.fst := by
  cases tok with
  | none => simp [int_hash_lookup]
  | some tk =>
    cases h : t.find? (fun e => e.1 == tk) with
    | none =>
      simp only [int_hash_lookup, h, List.map_cons, List.mem_cons, Option.some.injEq]
      constructor
      · rintro (h1 | h1)
        · exact Or.inl h1.symm
        · exact Or.inr h1
      · rintro (h1 | h1)
        · exact Or.inl h1.symm
        · exact Or.inr h1
    | some e =>
      have h1 := List.find?_some h
      have h2 := List.mem_of_find?_eq_some h
      simp only [beq_iff_eq] at h1
      have hmap : (t.map (fun x => if (x.1 == tk) = true then (x.1, v) else x)).map Prod.fst
          = t.map Prod.fst := by
        rw [List.map_map]
        apply List.map_congr_left
        intro x _
        by_cases hx : (x.1 == tk) = true
        · simp only [Function.comp_apply, if_pos hx]
        · simp only [Function.comp_apply, if_neg hx]
      simp only [int_hash_lookup, h, hmap, Option.some.injEq]
      constructor
      · exact fun hk => Or.inr hk
      · rintro (h3 | h3)
        · subst h3
          exact List.mem_map.2 ⟨e, h2, h1⟩
        · exact h3

theorem hash_symbol_names_spec (sym : List xSymbol) (n : Nat) :
    ∀ (t : List (String × Int)) (i : Nat), i + n ≤ sym.length →
      ∃ t2, hash_symbol_names sym t i n = some t2 ∧
        ∀ k, k ∈ t2.map Prod.fst ↔
          (k ∈ t.map Prod.fst ∨ k ∈ ((sym.drop i).take n).filterMap (fun s => s.name)) := by
  induction n with
  | zero =>
    intro t i _
    exact ⟨t, rfl, fun k => by simp⟩
  | succ n ih =>
    intro t i hlen
    have hlt : i < sym.length := by omega
    obtain ⟨t2, h1, h2⟩ :=
      ih (int_hash_lookup t sym[i].name i HashWhat.XINSERT).2 (i + 1) (by omega)
    refine ⟨t2, ?_, fun k => ?_⟩
    · simp only [hash_symbol_names, List.getElem?_eq_getElem hlt]
      exact h1
    · rw [h2 k, int_hash_insert_keys, List.drop_eq_getElem_cons hlt, List.take_succ_cons,
        List.filterMap_cons]
      cases hn : sym[i].name with
      | none => simp
      | some nm =>
        simp only [Option.some.injEq, List.mem_cons]
        constructor
        · rintro ((h3 | h3) | h3)
          · exact Or.inr (Or.inl h3.symm)
          · exact Or.inl h3
          · exact Or.inr (Or.inr h3)
        · rintro (h3 | h3 | h3)
          · exact Or.inl (Or.inr h3)
          · exact Or.inl (Or.inl h3.symm)
          · exact Or.inr h3

theorem polymorphic_clone_name (H : SymHelpers) (inst : xInstance) (base : xSymbol)
    (sym : String) : (polymorphic_clone H inst base sym).name = my_strdup (some sym) := by
  unfold polymorphic_clone
  simp only
  split_ifs <;> rfl

theorem additional_symbol_step_result (H : SymHelpers) (st : SymCache × List (String × Int))
    (i : Nat) (inst : xInstance) (base : xSymbol)
    (hinst : st.1.inst[i]? = some inst) (hptr : 0 ≤ inst.ptr)
    (hbase : (check_symbol_storage H st.1).sym[inst.ptr.toNat]? = some base)
    (hroom : st.1.symbols < (check_symbol_storage H st.1).sym.length) :
    additional_symbol_step H st i = some st ∨
    ((int_hash_lookup st.2 (some (schematic_sym_name H inst)) 0 HashWhat.XLOOKUP).1 = none ∧
      additional_symbol_step H st i =
        some ({ check_symbol_storage H st.1 with
                  sym := (check_symbol_storage H st.1).sym.set st.1.symbols
                    (polymorphic_clone H inst base (schematic_sym_name H inst)),
                  symbols := (check_symbol_storage H st.1).symbols + 1 },
              (int_hash_lookup st.2 (some (schematic_sym_name H inst)) st.1.symbols
                HashWhat.XINSERT).2)) := by
  by_cases htok : (H.get_tok_value inst.prop_ptr "schematic" 2).2 ≠ 0
  · cases hl : (int_hash_lookup st.2 (some (schematic_sym_name H inst)) 0
        HashWhat.XLOOKUP).1 with
    | some e =>
      left
      simp only [additional_symbol_step, hinst, if_pos htok, hl]
    | none =>
      right
      refine ⟨rfl, ?_⟩
      simp only [additional_symbol_step, hinst, if_pos htok, hl, if_pos hptr, hbase,
        if_pos hroom]
  · left
    simp only [additional_symbol_step, hinst, if_neg htok]

theorem take_set_same {α : Type} (l : List α) (j : Nat) (x : α) :
    (l.set j x).take j = l.take j := by
  apply List.ext_getElem?
  intro m
  simp only [List.getElem?_take, List.getElem?_set]
  by_cases hm : m < j
  · have : ¬ (j = m) := by omega
    rw [if_pos hm, if_pos hm, if_neg this]
  · rw [if_neg hm, if_neg hm]

theorem take_succ_set {α : Type} (l : List α) (j : Nat) (x : α) (hj : j < l.length) :
    (l.set j x).take (j + 1) = l.take j ++ [x] := by
  rw [List.take_succ, take_set_same, List.getElem?_set_self hj]
  rfl

theorem check_symbol_storage_spec (H : SymHelpers) (c : SymCache) :
    ∃ extra, check_symbol_storage H c = { c with sym := c.sym ++ extra } ∧
      (c.symbols ≤ c.sym.length → c.symbols < (c.sym ++ extra).length) := by
  unfold check_symbol_storage
  by_cases h : c.symbols ≥ c.sym.length
  · refine ⟨List.replicate (max 1 H.ELEMDEF) H.fresh_slot, by rw [if_pos h], fun h2 => ?_⟩
    simp only [List.length_append, List.length_replicate]
    omega
  · refine ⟨[], by simp [h], fun _ => ?_⟩
    simp only [List.append_nil]
    omega

theorem my_strdup_some (a : Option String) (k : String) (h : my_strdup a = some k) :
    a = some k := by
  cases a with
  | none => simp [my_strdup] at h
  | some s =>
    simp only [my_strdup] at h
    by_cases hs : s = ""
    · simp [hs] at h
    · simpa [hs] using h

theorem additional_symbol_step_inv (H : SymHelpers) (c0 : SymCache) (hok : cache_ok c0)
    (st : SymCache × List (String × Int)) (hinv : start_inv c0 st) (i : Nat)
    (hi : i < c0.instances) :
    ∃ st2, additional_symbol_step H st i = some st2 ∧ start_inv c0 st2 := by
  obtain ⟨h1, h2, h3, h4, h5, h6, h7, h8⟩ := hinv
  obtain ⟨k1, k2, k3⟩ := hok
  have hil : i < c0.inst.length := by omega
  have hinst : st.1.inst[i]? = some c0.inst[i] := by
    rw [h3]
    exact List.getElem?_eq_getElem hil
  have hmem : c0.inst[i] ∈ c0.inst.take c0.instances := by
    rw [List.mem_take_iff_getElem]
    exact ⟨i, by simpa using ⟨hi, hil⟩, rfl⟩
  obtain ⟨p1, p2⟩ := k3 _ hmem
  obtain ⟨extra, e1, e2⟩ := check_symbol_storage_spec H st.1
  have hroom : st.1.symbols < (check_symbol_storage H st.1).sym.length := by
    rw [e1]
    exact e2 h2
  have hpl : (c0.inst[i]).ptr.toNat < st.1.sym.length := by omega
  have hbase : (check_symbol_storage H st.1).sym[(c0.inst[i]).ptr.toNat]?
      = some (st.1.sym[(c0.inst[i]).ptr.toNat]) := by
    rw [e1]
    simp only
    rw [List.getElem?_append_left hpl]
    exact List.getElem?_eq_getElem hpl
  rcases additional_symbol_step_result H st i c0.inst[i] _ hinst p1 hbase hroom with hs | ⟨hl, hs⟩
  · exact ⟨st, hs, h1, h2, h3, h4, h5, h6, h7, h8⟩
  · refine ⟨_, hs, ?_⟩
    rw [e1] at hroom
    simp only at hroom
    have hnames : live_names
        { check_symbol_storage H st.1 with
          sym := (check_symbol_storage H st.1).sym.set st.1.symbols
            (polymorphic_clone H c0.inst[i] st.1.sym[(c0.inst[i]).ptr.toNat]
              (schematic_sym_name H c0.inst[i])),
          symbols := (check_symbol_storage H st.1).symbols + 1 }
        = live_names st.1 ++ (my_strdup (some (schematic_sym_name H c0.inst[i]))).toList := by
      rw [e1]
      simp only [live_names]
      rw [take_succ_set _ _ _ hroom, List.take_append_of_le_length h2, List.filterMap_append]
      simp only [List.filterMap_cons, List.filterMap_nil, polymorphic_clone_name]
      cases my_strdup (some (schematic_sym_name H c0.inst[i])) <;> rfl
    have hnot : schematic_sym_name H c0.inst[i] ∉ live_names st.1 := fun hin =>
      (int_hash_lookup_none_iff _ _ _).1 hl (h7 _ hin)
    refine ⟨?_, ?_, ?_, ?_, ?_, ?_, ?_, ?_⟩
    · rw [e1]
      simp only
      omega
    · rw [e1]
      simp only [List.length_set]
      omega
    · rw [e1]
      exact h3
    · rw [e1]
      exact h4
    · rw [e1]
      exact h5
    · intro m hm
      rw [e1]
      simp only
      rw [List.getElem?_set_ne (by omega), List.getElem?_append_left (by omega)]
      exact h6 m hm
    · intro k hk
      rw [hnames] at hk
      rw [int_hash_insert_keys]
      rcases List.mem_append.1 hk with hk1 | hk1
      · exact Or.inr (h7 k hk1)
      · left
        cases hd : my_strdup (some (schematic_sym_name H c0.inst[i])) with
        | none => rw [hd] at hk1; simp at hk1
        | some nm =>
          rw [hd] at hk1
          simp only [Option.toList, List.mem_singleton] at hk1
          subst hk1
          exact my_strdup_some _ _ hd
    · intro hnd
      rw [hnames, List.nodup_append]
      refine ⟨h8 hnd, ?_, ?_⟩
      · cases my_strdup (some (schematic_sym_name H c0.inst[i])) <;> simp [Option.toList]
      · intro k hk1 hk2
        cases hd : my_strdup (some (schematic_sym_name H c0.inst[i])) with
        | none => rw [hd] at hk2; simp at hk2
        | some nm =>
          rw [hd] at hk2
          simp only [Option.toList, List.mem_singleton] at hk2
          subst hk2
          have := my_strdup_some _ _ hd
          simp only [Option.some.injEq] at this
          exact hnot (this ▸ hk1)

theorem additional_symbols_loop_inv (H : SymHelpers) (c0 : SymCache) (hok : cache_ok c0)
    (idx : List Nat) :
    (∀ i ∈ idx, i < c0.instances) → ∀ st, start_inv c0 st →
      ∃ st2, additional_symbols_loop H idx st = some st2 ∧ start_inv c0 st2 := by
  induction idx with
  | nil =>
    intro _ st hinv
    exact ⟨st, rfl, hinv⟩
  | cons i rest ih =>
    intro hall st hinv
    obtain ⟨st1, hs, hinv1⟩ :=
      additional_symbol_step_inv H c0 hok st hinv i (hall i (by simp))
    obtain ⟨st2, hl, hinv2⟩ := ih (fun m hm => hall m (by simp [hm])) st1 hinv1
    refine ⟨st2, ?_, hinv2⟩
    simp only [additional_symbols_loop, hs]
    exact hl

theorem get_additional_symbols_start_inv (H : SymHelpers) (c0 : SymCache) (hok : cache_ok c0) :
    ∃ c1 t, get_additional_symbols H 1 c0 = some c1 ∧ start_inv c0 (c1, t) := by
  obtain ⟨t0, ht0, hkeys⟩ := hash_symbol_names_spec c0.sym c0.symbols [] 0
    (by simpa using hok.1)
  have hinv0 : start_inv c0 ({ c0 with num_syms := c0.symbols }, t0) := by
    refine ⟨le_refl _, hok.1, rfl, rfl, rfl, fun _ _ => rfl, ?_, fun h => h⟩
    intro k hk
    rw [hkeys k]
    right
    simpa [live_names] using hk
  obtain ⟨st2, hl, hinv2⟩ := additional_symbols_loop_inv H c0 hok (List.range c0.instances)
    (fun i hi => List.mem_range.1 hi) _ hinv0
  refine ⟨st2.1, st2.2, ?_, hinv2⟩
  simp only [get_additional_symbols, if_pos, ht0, hl]

/-- C5: in a cache whose live entries and instances lie within their arrays
and whose instances refer to live symbols, get_additional_symbols(1) followed
by get_additional_symbols(0) both succeed and leave the symbol count at its
value before the start call and the live symbols the same symbols in the same
order; every slot that held a clone is cleared. -/
theorem get_additional_symbols_start_end (H : SymHelpers) (ctx : SymCache)
    (hok : cache_ok ctx) :
    ∃ c1 c2, get_additional_symbols H 1 ctx = some c1 ∧
      get_additional_symbols H 0 c1 = some c2 ∧
      c2.symbols = ctx.symbols ∧
      c2.sym.take c2.symbols = ctx.sym.take ctx.symbols ∧
      ctx.symbols ≤ c1.symbols ∧
      (∀ i, ctx.symbols ≤ i → i < c1.symbols →
        c2.sym[i]? = (c1.sym[i]?).map clear_symbol) ∧
      c2.inst = ctx.inst ∧ c2.instances = ctx.instances := by
  obtain ⟨c1, t, hstart, h1, h2, h3, h4, h5, h6, _, _⟩ :=
    get_additional_symbols_start_inv H ctx hok
  simp only at h1 h2 h3 h4 h5 h6
  obtain ⟨c2, r1, r2, r3, r4, r5, r6, r7, r8, r9⟩ :=
    remove_clones_spec (c1.symbols - c1.num_syms) c1 (by omega) h2
  have hsub : c1.symbols - (c1.symbols - c1.num_syms) = ctx.symbols := by omega
  rw [hsub] at r2 r4 r5
  refine ⟨c1, { c2 with symbols := c1.num_syms }, hstart, ?_, h5, ?_, h1, ?_, ?_, ?_⟩
  · have hne : ¬ ((0 : Int) = 1) := by decide
    simp only [get_additional_symbols, if_neg hne, r1]
  · simp only
    apply List.ext_getElem?
    intro m
    simp only [List.getElem?_take, h5]
    by_cases hm : m < ctx.symbols
    · rw [if_pos hm, if_pos hm, r4 m hm, h6 m hm]
    · rw [if_neg hm, if_neg hm]
  · intro i hi1 hi2
    exact r5 i hi1 hi2
  · exact r7.trans h3
  · exact r8.trans h4

/-- C6: in a cache whose live entries and instances lie within their arrays
and whose instances refer to live symbols, if the names of the live symbols
are pairwise distinct then get_additional_symbols(1) succeeds and the names of
the live symbols, clones included, are still pairwise distinct. -/
theorem get_additional_symbols_names_distinct (H : SymHelpers) (ctx : SymCache)
    (hok : cache_ok ctx) (hnd : (live_names ctx).Nodup) :
    ∃ c1, get_additional_symbols H 1 ctx = some c1 ∧ (live_names c1).Nodup := by
  obtain ⟨c1, t, hstart, hinv⟩ := get_additional_symbols_start_inv H ctx hok
  exact ⟨c1, hstart, hinv.2.2.2.2.2.2.2 hnd⟩

theorem demo_cache_ok : cache_ok demo_cache := by
  refine ⟨by decide, by decide, ?_⟩
  intro inst hinst
  simp only [demo_cache, List.take_succ_cons, List.take_zero, List.mem_cons,
    List.mem_nil_iff, or_false] at hinst
  rcases hinst with h | h | h <;> subst h <;> exact ⟨by decide, by decide⟩

/-- Witness for C5 on `demo_cache`: after start and end the count is 3 again
and the three symbols are in place. -/
theorem get_additional_symbols_start_end_witness :
    cache_ok demo_cache ∧
    ∃ c1 c2, get_additional_symbols demo_helpers 1 demo_cache = some c1 ∧
      get_additional_symbols demo_helpers 0 c1 = some c2 ∧
      c2.symbols = 3 ∧ c2.sym.take c2.symbols = demo_cache.sym := by
  obtain ⟨c1, c2, h1, h2, h3, h4, _⟩ :=
    get_additional_symbols_start_end demo_helpers demo_cache demo_cache_ok
  exact ⟨demo_cache_ok, c1, c2, h1, h2, h3, h4⟩

/-- Witness for C6 on `demo_cache`, whose names `a.sym`, `b.sym`, `c.sym` are
distinct and whose first two instances ask for the same variant. -/
theorem get_additional_symbols_names_distinct_witness :
    cache_ok demo_cache ∧ (live_names demo_cache).Nodup ∧
    ∃ c1, get_additional_symbols demo_helpers 1 demo_cache = some c1 ∧
      (live_names c1).Nodup :=
  ⟨demo_cache_ok, by decide,
    get_additional_symbols_names_distinct demo_helpers demo_cache demo_cache_ok (by decide)⟩

/-- On `demo_cache` the start call appends a single clone, named
`a_fast.sch.sym`, for the two instances asking for it. -/
theorem get_additional_symbols_demo :
    (get_additional_symbols demo_helpers 1 demo_cache).map (fun c => (c.symbols, live_names c))
      = some (4, ["a.sym", "b.sym", "c.sym", "a_fast.sch.sym"]) := by
  decide

/-! ## `set_rect_flags` -/

theorem strstr_iff_contains (hay needle : List Char) :
    strstr hay needle = true ↔ needle <:+: hay := by
  induction hay with
  | nil => simp [strstr, List.infix_nil]
  | cons c rest ih =>
    simp only [strstr, Bool.or_eq_true, decide_eq_true_eq, ih, List.infix_cons_iff,
      List.prefix_iff_eq_take]
    constructor
    · rintro (h | h)
      · exact Or.inl h.symm
      · exact Or.inr h
    · rintro (h | h)
      · exact Or.inl h.symm
      · exact Or.inr h

/-- C7: set_rect_flags returns the value it stores in `flags`, changes no
other field, and that value is 0 when the attribute string is NULL or empty
and otherwise follows the first matching rule on the value of its `flags`
token: contains `unscaled` gives 3072 (bits 10 and 11), else `image` 1024
(bit 10), else `unlocked` 3 (bits 0 and 1), else `graph` 1 (bit 0), else 0. -/
theorem set_rect_flags_first_match
    (get_tok_value : Option String → String → Nat → String × Nat) (r : xRect) :
    (set_rect_flags get_tok_value r).2 = (set_rect_flags get_tok_value r).1.flags ∧
    (set_rect_flags get_tok_value r).1 = { r with flags := (set_rect_flags get_tok_value r).2 } ∧
    (set_rect_flags get_tok_value r).2 =
      (if r.prop_ptr = none ∨ r.prop_ptr = some "" then 0
       else rect_flags_rule (get_tok_value r.prop_ptr "flags" 0).1) ∧
    (set_rect_flags get_tok_value r).2 ∈ [3072, 1024, 3, 1, 0] := by
  refine ⟨rfl, rfl, ?_, ?_⟩
  · cases hp : r.prop_ptr with
    | none => simp [set_rect_flags, hp]
    | some p =>
      by_cases he : p = ""
      · simp [set_rect_flags, hp, he]
      · simp only [set_rect_flags, hp, rect_flags_rule, strstr_iff_contains, ne_eq, he,
          not_false_eq_true, if_true, reduceCtorEq, Option.some.injEq, or_self, if_false]
        split_ifs <;> rfl
  · cases hp : r.prop_ptr with
    | none => simp [set_rect_flags, hp]
    | some p =>
      simp only [set_rect_flags, hp]
      split_ifs <;> simp

/-! ## `set_modify` -/

theorem clear_floaters_getElem? (TF : Nat) (l : List xText) :
    ∀ (n i : Nat), (clear_floaters TF l n)[i]? =
      (l[i]?).map (fun t =>
        if i < n ∧ t.flags &&& TF ≠ 0 then { t with floater_ptr := none } else t) := by
  induction l with
  | nil => intro n i; simp [clear_floaters]
  | cons t rest ih =>
    intro n i
    cases n with
    | zero => simp [clear_floaters]
    | succ n =>
      cases i with
      | zero => simp [clear_floaters]
      | succ i => simp [clear_floaters, ih n i]

theorem set_modify_title_frame (mod : Int) (ctx : ModCtx) :
    (set_modify_title mod ctx).modified = ctx.modified ∧
    (set_modify_title mod ctx).floater_inst_table = ctx.floater_inst_table ∧
    (set_modify_title mod ctx).text = ctx.text ∧
    (set_modify_title mod ctx).texts = ctx.texts := by
  unfold set_modify_title
  simp only
  split_ifs <;> exact ⟨rfl, rfl, rfl, rfl⟩

theorem set_modify_one_fields (TF : Nat) (ctx : ModCtx) :
    (set_modify TF 1 ctx).modified = 1 ∧
    (set_modify TF 1 ctx).floater_inst_table = none ∧
    (set_modify TF 1 ctx).text = clear_floaters TF ctx.text ctx.texts ∧
    (set_modify TF 1 ctx).texts = ctx.texts := by
  obtain ⟨h1, h2, h3, h4⟩ := set_modify_title_frame 1 (set_modify_caches TF 1 ctx)
  have hc : set_modify_caches TF 1 ctx =
      { ctx with modified := 1, text := clear_floaters TF ctx.text ctx.texts,
                 floater_inst_table := none } := by
    simp [set_modify_caches]
  unfold set_modify
  rw [h1, h2, h3, h4, hc]
  exact ⟨rfl, rfl, rfl, rfl⟩

/-- C8 (as stated, refuted): a text whose flags lack the floater bit keeps its
cached floater string `foo` through set_modify(1) (floater bit 16). -/
theorem set_modify_keeps_unflagged_cache :
    ¬ (∀ t ∈ (set_modify 16 1 (sheet_with_texts [text_with 0 (some "foo")])).text,
        t.floater_ptr = none) := by
  decide

/-- C8 (amended): after set_modify(1) the modified flag is 1, the instance
name table of the floaters is freed, every text of the sheet whose flags have
the floater bit has a null floater cache, and every text without the bit is
unchanged. -/
theorem set_modify_one_clears_floaters (TF : Nat) (ctx : ModCtx) :
    (set_modify TF 1 ctx).modified = 1 ∧
    (set_modify TF 1 ctx).floater_inst_table = none ∧
    (set_modify TF 1 ctx).text.length = ctx.text.length ∧
    (∀ (i : Nat) (t : xText), i < ctx.texts → (set_modify TF 1 ctx).text[i]? = some t →
      t.flags &&& TF ≠ 0 → t.floater_ptr = none) ∧
    (∀ (i : Nat) (t : xText), ctx.text[i]? = some t → (t.flags &&& TF) = 0 →
      (set_modify TF 1 ctx).text[i]? = some t) := by
  obtain ⟨h1, h2, h3, _⟩ := set_modify_one_fields TF ctx
  refine ⟨h1, h2, ?_, ?_, ?_⟩
  · rw [h3]
    have : ∀ (l : List xText) (n : Nat), (clear_floaters TF l n).length = l.length := by
      intro l
      induction l with
      | nil => intro n; simp [clear_floaters]
      | cons t rest ih =>
        intro n
        cases n with
        | zero => simp [clear_floaters]
        | succ n => simp [clear_floaters, ih n]
    exact this _ _
  · intro i t hi ht hflag
    rw [h3, clear_floaters_getElem?] at ht
    cases ho : ctx.text[i]? with
    | none => rw [ho] at ht; simp at ht
    | some t0 =>
      rw [ho] at ht
      simp only [Option.map_some', Option.some.injEq] at ht
      by_cases hc : i < ctx.texts ∧ t0.flags &&& TF ≠ 0
      · rw [if_pos hc] at ht
        rw [← ht]
      · rw [if_neg hc] at ht
        subst ht
        exact absurd ⟨hi, hflag⟩ hc
  · intro i t ht hflag
    rw [h3, clear_floaters_getElem?, ht]
    have hc : ¬ (i < ctx.texts ∧ t.flags &&& TF ≠ 0) := fun h => h.2 hflag
    simp only [Option.map_some', if_neg hc]

/-- Witness for C8 (amended) with floater bit 16: of a floater text caching
`foo` and a plain text caching `bar`, the first loses its cache. -/
theorem set_modify_one_clears_floaters_witness :
    (set_modify 16 1 (sheet_with_texts [text_with 16 (some "foo"), text_with 0 (some "bar")])).text
      = [text_with 16 none, text_with 0 (some "bar")] ∧
    (set_modify 16 1
      (sheet_with_texts [text_with 16 (some "foo"), text_with 0 (some "bar")])).modified = 1 :=
  ⟨by decide, (set_modify_one_clears_floaters 16 _).1⟩

/-! ## `connect_by_kissing` -/

theorem kiss_ext_refl (a : KissLoop) : kiss_ext a a :=
  ⟨rfl, rfl, rfl, rfl, rfl, rfl, ⟨[], by simp⟩, fun h => h⟩

theorem kiss_ext_trans {a b c : KissLoop} (h1 : kiss_ext a b) (h2 : kiss_ext b c) :
    kiss_ext a c := by
  obtain ⟨a1, a2, a3, a4, a5, a6, ⟨e1, a7⟩, a8⟩ := h1
  obtain ⟨b1, b2, b3, b4, b5, b6, ⟨e2, b7⟩, b8⟩ := h2
  refine ⟨b1.trans a1, b2.trans a2, b3.trans a3, b4.trans a4, b5.trans a5, b6.trans a6,
    ⟨e1 ++ e2, ?_⟩, fun h => b8 (a8 h)⟩
  rw [b7, a7, List.append_assoc]

/-- The effect of one pin round that finds the pin kissing. -/
theorem kiss_pin_of_kissing (H : KissHelpers) (seln : Nat) (inst : xInstance) (st : KissLoop)
    (r : xRect)
    (hk : pin_kissing H st.ctx seln (pin_point H inst r).1 (pin_point H inst r).2 = true) :
    (kiss_pin H seln inst st r).ctx.wire = st.ctx.wire ++ [kiss_wire H (pin_point H inst r)] ∧
    (kiss_pin H seln inst st r).changed = 1 ∧
    (kiss_pin H seln inst st r).done_undo ≠ 0 ∧
    (kiss_pin H seln inst st r).ctx.undo =
      (if st.done_undo = 0 then st.ctx.wire :: st.ctx.undo else st.ctx.undo) := by
  simp only [kiss_pin, hk, if_true]
  by_cases hu : st.done_undo = 0
  · simp [hu, storeobject_wire, push_undo, kiss_wire]
  · simp [hu, storeobject_wire, kiss_wire]

theorem kiss_pin_ext (H : KissHelpers) (seln : Nat) (inst : xInstance) (st : KissLoop)
    (r : xRect) : kiss_ext st (kiss_pin H seln inst st r) := by
  by_cases hk : pin_kissing H st.ctx seln (pin_point H inst r).1 (pin_point H inst r).2 = true
  · obtain ⟨h1, h2, _, _⟩ := kiss_pin_of_kissing H seln inst st r hk
    refine ⟨?_, ?_, ?_, ?_, ?_, ?_, ⟨_, h1⟩, fun _ => h2⟩ <;>
    · simp only [kiss_pin, hk, if_true]
      by_cases hu : st.done_undo = 0 <;> simp [hu, storeobject_wire, push_undo]
  · have : kiss_pin H seln inst st r = st := by simp only [kiss_pin, hk]; rfl
    rw [this]
    exact kiss_ext_refl st

theorem kiss_pins_ext (H : KissHelpers) (seln : Nat) (inst : xInstance) (pins : List xRect) :
    ∀ st, kiss_ext st (pins.foldl (kiss_pin H seln inst) st) := by
  induction pins with
  | nil => intro st; exact kiss_ext_refl st
  | cons r rest ih =>
    intro st
    exact kiss_ext_trans (kiss_pin_ext H seln inst st r) (ih _)

theorem kiss_selected_ext (H : KissHelpers) (st : KissLoop) (s : Selected) :
    kiss_ext st (kiss_selected H st s) := by
  unfold kiss_selected
  by_cases ht : s.type = ObjType.ELEMENT
  · rw [if_pos ht]
    cases hi : st.ctx.inst[s.n]? with
    | none => exact kiss_ext_refl st
    | some inst => exact kiss_pins_ext H s.n inst _ st
  · rw [if_neg ht]
    exact kiss_ext_refl st

theorem kiss_selection_ext (H : KissHelpers) (sels : List Selected) :
    ∀ st, kiss_ext st (sels.foldl (kiss_selected H) st) := by
  induction sels with
  | nil => intro st; exact kiss_ext_refl st
  | cons s rest ih =>
    intro st
    exact kiss_ext_trans (kiss_selected_ext H st s) (ih _)

theorem kissing_instpins_of_mem (ctx : KissCtx) (seln : Nat) (px py : Rat)
    (chain : List Instpinentry) (e : Instpinentry) (he : e ∈ chain) (hen : e.n ≠ seln)
    (hex : e.x0 = px) (hey : e.y0 = py) (hes : inst_unselected ctx e.n = true) :
    kissing_instpins ctx seln px py chain = true := by
  induction chain with
  | nil => cases he
  | cons iptr next ih =>
    unfold kissing_instpins
    by_cases h1 : iptr.n = seln
    · rw [if_pos h1]
      rcases List.mem_cons.1 he with h | h
      · exact absurd (h ▸ h1) hen
      · exact ih h
    · rw [if_neg h1]
      by_cases h2 : iptr.x0 = px ∧ iptr.y0 = py ∧ inst_unselected ctx iptr.n = true
      · rw [if_pos h2]
      · rw [if_neg h2]
        rcases List.mem_cons.1 he with h | h
        · exact absurd (h ▸ ⟨hex, hey, hes⟩) h2
        · exact ih h

theorem kissing_wires_of_no_touch (H : KissHelpers) (ctx : KissCtx) (px py : Rat) (k : Bool)
    (chain : List Nat)
    (hw : ∀ n ∈ chain, ∃ w, ctx.wire[n]? = some w ∧ H.touch w.x1 w.y1 w.x2 w.y2 px py = false) :
    kissing_wires H ctx px py k chain = k := by
  induction chain with
  | nil => rfl
  | cons n next ih =>
    obtain ⟨w, h1, h2⟩ := hw n (by simp)
    have hf : ¬ (H.touch w.x1 w.y1 w.x2 w.y2 px py = true) := by simp [h2]
    simp only [kissing_wires, h1, if_neg hf]
    exact ih (fun m hm => hw m (by simp [hm]))

theorem instance_pins_congr (H : KissHelpers) (a b : KissCtx) (inst : xInstance)
    (h : a.sym = b.sym) : instance_pins H a inst = instance_pins H b inst := by
  simp only [instance_pins, h]

theorem inst_unselected_congr (a b : KissCtx) (n : Nat) (h : a.inst = b.inst) :
    inst_unselected a n = inst_unselected b n := by
  simp only [inst_unselected, h]

theorem foldl_split_at {α β : Type} (f : β → α → β) (l : List α) (i : Nat) (x : α)
    (h : l[i]? = some x) (b : β) :
    l.foldl f b = (l.drop (i + 1)).foldl f (f ((l.take i).foldl f b) x) := by
  have hi : i < l.length := by
    by_contra hc
    rw [List.getElem?_eq_none (by omega)] at h
    cases h
  have hx : l[i] = x := by
    rw [List.getElem?_eq_getElem hi] at h
    exact Option.some.inj h
  have hl : l = l.take i ++ x :: l.drop (i + 1) := by
    rw [← hx, ← List.drop_eq_getElem_cons hi, List.take_append_drop]
  conv_lhs => rw [hl]
  rw [List.foldl_append, List.foldl_cons]

/-- C10: let a pin `r` (index `i`) of a selected instance (entry `j < lastsel`
of the selection array, of type ELEMENT) have world point `p`, let the pin
chain of the bucket of `p` hold an entry `e` of a different instance, not
selected, at exactly `p`, and let no wire of the wire chain of that bucket
touch `p`. Then the round of that pin appends exactly one wire to the wires
present before it, both end points of that wire are `p` (the pin rectangle
centre, rotated and flipped, then translated by the instance position), its
selection state is `SELECTED1` (non-zero), the function returns 1, and the
wire remains in the final wire array. -/
theorem connect_by_kissing_pin_on_pin (H : KissHelpers) (ctx : KissCtx) (j i : Nat)
    (s : Selected) (inst : xInstance) (r : xRect) (e : Instpinentry)
    (hsel1 : H.SELECTED1 ≠ 0)
    (hj : j < ctx.lastsel) (hs : ctx.sel_array[j]? = some s)
    (htype : s.type = ObjType.ELEMENT)
    (hinst : ctx.inst[s.n]? = some inst)
    (hr : (instance_pins H ctx inst)[i]? = some r)
    (he : e ∈ ctx.instpin_spatial_table
      (H.get_square (pin_point H inst r).1 (pin_point H inst r).2).1
      (H.get_square (pin_point H inst r).1 (pin_point H inst r).2).2)
    (hen : e.n ≠ s.n)
    (hex : e.x0 = (pin_point H inst r).1) (hey : e.y0 = (pin_point H inst r).2)
    (hes : inst_unselected ctx e.n = true)
    (hw : ∀ n ∈ ctx.wire_spatial_table
        (H.get_square (pin_point H inst r).1 (pin_point H inst r).2).1
        (H.get_square (pin_point H inst r).1 (pin_point H inst r).2).2,
      ∃ w, ctx.wire[n]? = some w ∧
        H.touch w.x1 w.y1 w.x2 w.y2 (pin_point H inst r).1 (pin_point H inst r).2 = false) :
    ∃ before : KissLoop,
      before = ((instance_pins H ctx inst).take i).foldl (kiss_pin H s.n inst)
        ((ctx.sel_array.take j).foldl (kiss_selected H)
          { ctx := ctx, changed := 0, done_undo := 0 }) ∧
      (kiss_pin H s.n inst before r).ctx.wire
        = before.ctx.wire ++ [kiss_wire H (pin_point H inst r)] ∧
      (kiss_wire H (pin_point H inst r)).x1 = (pin_point H inst r).1 ∧
      (kiss_wire H (pin_point H inst r)).y1 = (pin_point H inst r).2 ∧
      (kiss_wire H (pin_point H inst r)).x2 = (pin_point H inst r).1 ∧
      (kiss_wire H (pin_point H inst r)).y2 = (pin_point H inst r).2 ∧
      (kiss_wire H (pin_point H inst r)).sel ≠ 0 ∧
      pin_point H inst r =
        ((H.ROTATION inst.rot inst.flip 0 0 ((r.x1 + r.x2) / 2) ((r.y1 + r.y2) / 2)).1 + inst.x0,
         (H.ROTATION inst.rot inst.flip 0 0 ((r.x1 + r.x2) / 2) ((r.y1 + r.y2) / 2)).2 + inst.y0) ∧
      (connect_by_kissing H ctx).2 = 1 ∧
      ∃ later, (connect_by_kissing H ctx).1.wire
        = before.ctx.wire ++ [kiss_wire H (pin_point H inst r)] ++ later := by
  -- the state before the selected entry `j` and before pin `i`
  have hext0 := kiss_selection_ext H (ctx.sel_array.take j)
    { ctx := ctx, changed := 0, done_undo := 0 }
  have hext1 := kiss_pins_ext H s.n inst ((instance_pins H ctx inst).take i)
    ((ctx.sel_array.take j).foldl (kiss_selected H) { ctx := ctx, changed := 0, done_undo := 0 })
  have hext := kiss_ext_trans hext0 hext1
  generalize hst0 : (ctx.sel_array.take j).foldl (kiss_selected H)
    { ctx := ctx, changed := 0, done_undo := 0 } = st0 at hext0 hext1 hext
  generalize hbef : ((instance_pins H ctx inst).take i).foldl (kiss_pin H s.n inst) st0
    = before at hext1 hext
  obtain ⟨b1, b2, b3, b4, b5, b6, ⟨extra, b7⟩, _⟩ := hext
  simp only at b1 b2 b3 b4 b5 b6 b7
  -- the pin is found kissing in that state
  have hk : pin_kissing H before.ctx s.n (pin_point H inst r).1 (pin_point H inst r).2 = true := by
    unfold pin_kissing
    simp only
    rw [b3, b4]
    have hw2 : ∀ n ∈ ctx.wire_spatial_table
        (H.get_square (pin_point H inst r).1 (pin_point H inst r).2).1
        (H.get_square (pin_point H inst r).1 (pin_point H inst r).2).2,
        ∃ w, before.ctx.wire[n]? = some w ∧
          H.touch w.x1 w.y1 w.x2 w.y2 (pin_point H inst r).1 (pin_point H inst r).2 = false := by
      intro n hn
      obtain ⟨w, w1, w2⟩ := hw n hn
      refine ⟨w, ?_, w2⟩
      have hlt : n < ctx.wire.length := by
        by_contra hc
        rw [List.getElem?_eq_none (by omega)] at w1
        cases w1
      rw [b7, List.getElem?_append_left hlt]
      exact w1
    rw [kissing_wires_of_no_touch H before.ctx _ _ _ _ hw2]
    exact kissing_instpins_of_mem before.ctx s.n _ _ _ e he hen hex hey
      (by rw [inst_unselected_congr before.ctx ctx e.n b1]; exact hes)
  obtain ⟨k1, k2, _, _⟩ := kiss_pin_of_kissing H s.n inst before r hk
  -- the rest of the run
  have hsj : (ctx.sel_array.take ctx.lastsel)[j]? = some s := by
    rw [List.getElem?_take_of_lt hj]
    exact hs
  have htake : (ctx.sel_array.take ctx.lastsel).take j = ctx.sel_array.take j := by
    rw [List.take_take, Nat.min_eq_left (by omega)]
  have hrun : (ctx.sel_array.take ctx.lastsel).foldl (kiss_selected H)
      { ctx := ctx, changed := 0, done_undo := 0 }
      = ((ctx.sel_array.take ctx.lastsel).drop (j + 1)).foldl (kiss_selected H)
          (((instance_pins H ctx inst).drop (i + 1)).foldl (kiss_pin H s.n inst)
            (kiss_pin H s.n inst before r)) := by
    rw [foldl_split_at (kiss_selected H) _ j s hsj, htake, hst0]
    congr 1
    obtain ⟨c1, c2, _⟩ := hext0
    simp only at c1 c2
    have hi0 : st0.ctx.inst[s.n]? = some inst := by rw [c1]; exact hinst
    simp only [kiss_selected, if_pos htype, hi0]
    rw [instance_pins_congr H st0.ctx ctx inst c2,
      foldl_split_at (kiss_pin H s.n inst) _ i r hr, hbef]
  have hfin := kiss_ext_trans
    (kiss_pins_ext H s.n inst ((instance_pins H ctx inst).drop (i + 1))
      (kiss_pin H s.n inst before r))
    (kiss_selection_ext H ((ctx.sel_array.take ctx.lastsel).drop (j + 1)) _)
  rw [← hrun] at hfin
  obtain ⟨_, _, _, _, _, _, ⟨later, f7⟩, f8⟩ := hfin
  refine ⟨before, rfl, k1, rfl, rfl, rfl, rfl, hsel1, rfl, ?_, later, ?_⟩
  · exact f8 k2
  · simp only [connect_by_kissing]
    rw [f7, k1]

theorem get_square_origin : get_square 400 50 0 0 = (0, 0) := by
  simp [get_square]

theorem std_pin_point_origin (instname : String) (sel : Nat) (r : xRect)
    (hx : r.x1 + r.x2 = 0) (hy : r.y1 + r.y2 = 0) :
    pin_point std_helpers (instance_at_origin instname sel) r = (0, 0) := by
  simp [pin_point, std_helpers, instance_at_origin, ROTATION, hx, hy]

theorem kiss_two_wires_kissing : pin_kissing std_helpers kiss_two_wires_ctx 0 0 0 = true := by
  simp [pin_kissing, std_helpers, get_square_origin, kiss_two_wires_ctx, kissing_instpins,
    kissing_wires, touch]

theorem kiss_two_wires_pins :
    instance_pins std_helpers kiss_two_wires_ctx (instance_at_origin "R1" 1)
      = [{ x1 := -1, y1 := -1, x2 := 1, y2 := 1, sel := 0, prop_ptr := some "name=p dir=inout",
           flags := 0, extraptr := none }] := by
  rfl

/-- C9 (defect): in `kiss_two_wires_ctx` the selected wire 0 of the bucket
touches the world point (0,0) of the pin of the selected instance, yet a
wire is inserted at (0,0) and 1 is returned: the wire loop leaves at wire 1,
not selected and chained first, before it reaches wire 0. -/
theorem connect_by_kissing_selected_wire_unseen :
    (0 ∈ kiss_two_wires_ctx.wire_spatial_table 0 0 ∧
      ∃ w, kiss_two_wires_ctx.wire[0]? = some w ∧ w.sel ≠ 0 ∧
        touch w.x1 w.y1 w.x2 w.y2 0 0 = true) ∧
    (connect_by_kissing std_helpers kiss_two_wires_ctx).1.wire
      = kiss_two_wires_ctx.wire ++
          [{ x1 := 0, y1 := 0, x2 := 0, y2 := 0, sel := 2, bus := 0, prop_ptr := none }] ∧
    (connect_by_kissing std_helpers kiss_two_wires_ctx).2 = 1 := by
  have hp := std_pin_point_origin "R1" 1
    { x1 := -1, y1 := -1, x2 := 1, y2 := 1, sel := 0, prop_ptr := some "name=p dir=inout",
      flags := 0, extraptr := none } (by norm_num) (by norm_num)
  have hk := kiss_two_wires_kissing
  have hsel : kiss_two_wires_ctx.sel_array.take kiss_two_wires_ctx.lastsel
      = [{ type := ObjType.ELEMENT, n := 0, col := 0 },
         { type := ObjType.WIRE, n := 0, col := 0 }] := rfl
  have hinst : kiss_two_wires_ctx.inst[0]? = some (instance_at_origin "R1" 1) := rfl
  have h0 : kiss_selected std_helpers { ctx := kiss_two_wires_ctx, changed := 0, done_undo := 0 }
      { type := ObjType.ELEMENT, n := 0, col := 0 }
      = kiss_pin std_helpers 0 (instance_at_origin "R1" 1)
          { ctx := kiss_two_wires_ctx, changed := 0, done_undo := 0 }
          { x1 := -1, y1 := -1, x2 := 1, y2 := 1, sel := 0,
            prop_ptr := some "name=p dir=inout", flags := 0, extraptr := none } := by
    simp only [kiss_selected, if_true, hinst, kiss_two_wires_pins, List.foldl]
  obtain ⟨k1, k2, _, _⟩ := kiss_pin_of_kissing std_helpers 0 (instance_at_origin "R1" 1)
    { ctx := kiss_two_wires_ctx, changed := 0, done_undo := 0 }
    { x1 := -1, y1 := -1, x2 := 1, y2 := 1, sel := 0,
      prop_ptr := some "name=p dir=inout", flags := 0, extraptr := none }
    (by rw [hp]; exact hk)
  rw [hp] at k1
  have hrun : connect_by_kissing std_helpers kiss_two_wires_ctx
      = ((kiss_pin std_helpers 0 (instance_at_origin "R1" 1)
          { ctx := kiss_two_wires_ctx, changed := 0, done_undo := 0 }
          { x1 := -1, y1 := -1, x2 := 1, y2 := 1, sel := 0,
            prop_ptr := some "name=p dir=inout", flags := 0, extraptr := none }).ctx,
         (kiss_pin std_helpers 0 (instance_at_origin "R1" 1)
          { ctx := kiss_two_wires_ctx, changed := 0, done_undo := 0 }
          { x1 := -1, y1 := -1, x2 := 1, y2 := 1, sel := 0,
            prop_ptr := some "name=p dir=inout", flags := 0, extraptr := none }).changed) := by
    simp only [connect_by_kissing, hsel, List.foldl, h0]
    simp [kiss_selected]
  refine ⟨⟨by simp [kiss_two_wires_ctx], ?_⟩, ?_, ?_⟩
  · refine ⟨{ x1 := 0, y1 := 0, x2 := 0, y2 := 10, sel := 1, bus := 0, prop_ptr := none },
      rfl, by decide, ?_⟩
    simp [touch]
  · rw [hrun]
    exact k1
  · rw [hrun]
    exact k2

/-- Witness for C10 on `kiss_two_pins_ctx`: the pin of the selected instance 1
lies on the pin of the unselected instance 0 at (0,0) and there is no wire;
the call returns 1 and the first wire of the sheet is the degenerate selected
wire at (0,0). -/
theorem connect_by_kissing_pin_on_pin_witness :
    std_helpers.SELECTED1 ≠ 0 ∧ 0 < kiss_two_pins_ctx.lastsel ∧
    (connect_by_kissing std_helpers kiss_two_pins_ctx).2 = 1 ∧
    ∃ later, (connect_by_kissing std_helpers kiss_two_pins_ctx).1.wire
      = { x1 := 0, y1 := 0, x2 := 0, y2 := 0, sel := 2, bus := 0, prop_ptr := none } :: later := by
  have hp := std_pin_point_origin "R2" 1
    { x1 := -1, y1 := -1, x2 := 1, y2 := 1, sel := 0, prop_ptr := some "name=p dir=inout",
      flags := 0, extraptr := none } (by norm_num) (by norm_num)
  obtain ⟨before, hb, _, _, _, _, _, _, _, hret, later, hfin⟩ :=
    connect_by_kissing_pin_on_pin std_helpers kiss_two_pins_ctx 0 0
      { type := ObjType.ELEMENT, n := 1, col := 0 } (instance_at_origin "R2" 1)
      { x1 := -1, y1 := -1, x2 := 1, y2 := 1, sel := 0, prop_ptr := some "name=p dir=inout",
        flags := 0, extraptr := none }
      { x0 := 0, y0 := 0, n := 0, pin := 0 }
      (by decide) (by decide) rfl rfl rfl rfl
      (by rw [hp]; simp [std_helpers, get_square_origin, kiss_two_pins_ctx])
      (by decide) (by rw [hp]) (by rw [hp]) rfl
      (by intro n hn; simp [kiss_two_pins_ctx] at hn)
  refine ⟨by decide, by decide, hret, later, ?_⟩
  rw [hfin, hb, hp]
  rfl

/-! ## `connect_by_kissing`: the undo transaction -/

theorem kiss_pin_undo_inv (H : KissHelpers) (ctx : KissCtx) (seln : Nat) (inst : xInstance)
    (st : KissLoop) (r : xRect) (h : kiss_undo_inv ctx st) :
    kiss_undo_inv ctx (kiss_pin H seln inst st r) := by
  by_cases hk : pin_kissing H st.ctx seln (pin_point H inst r).1 (pin_point H inst r).2 = true
  · obtain ⟨k1, k2, k3, k4⟩ := kiss_pin_of_kissing H seln inst st r hk
    right
    rcases h with ⟨a1, a2, a3, a4⟩ | ⟨a1, a2, a3, w, extra, a4⟩
    · refine ⟨k3, k2, ?_, kiss_wire H (pin_point H inst r), [], ?_⟩
      · rw [k4, if_pos a1, a3, a4]
      · rw [k1, a3]
    · refine ⟨k3, k2, ?_, w, extra ++ [kiss_wire H (pin_point H inst r)], ?_⟩
      · rw [k4, if_neg a1, a3]
      · rw [k1, a4]; simp
  · have : kiss_pin H seln inst st r = st := by simp only [kiss_pin, hk]; rfl
    rw [this]
    exact h

theorem kiss_pins_undo_inv (H : KissHelpers) (ctx : KissCtx) (seln : Nat) (inst : xInstance)
    (pins : List xRect) :
    ∀ st, kiss_undo_inv ctx st → kiss_undo_inv ctx (pins.foldl (kiss_pin H seln inst) st) := by
  induction pins with
  | nil => intro st h; exact h
  | cons r rest ih => intro st h; exact ih _ (kiss_pin_undo_inv H ctx seln inst st r h)

theorem kiss_selected_undo_inv (H : KissHelpers) (ctx : KissCtx) (st : KissLoop) (s : Selected)
    (h : kiss_undo_inv ctx st) : kiss_undo_inv ctx (kiss_selected H st s) := by
  unfold kiss_selected
  by_cases ht : s.type = ObjType.ELEMENT
  · rw [if_pos ht]
    cases hi : st.ctx.inst[s.n]? with
    | none => exact h
    | some inst => exact kiss_pins_undo_inv H ctx s.n inst _ st h
  · rw [if_neg ht]
    exact h

theorem kiss_selection_undo_inv (H : KissHelpers) (ctx : KissCtx) (sels : List Selected) :
    ∀ st, kiss_undo_inv ctx st → kiss_undo_inv ctx (sels.foldl (kiss_selected H) st) := by
  induction sels with
  | nil => intro st h; exact h
  | cons s rest ih => intro st h; exact ih _ (kiss_selected_undo_inv H ctx st s h)

/-- C11: a call of connect_by_kissing either inserts no wire, pushes no undo
snapshot and returns 0, or inserts at least one wire, returns 1 and pushes
exactly one snapshot: the undo stack grows by one entry, which holds the wires
as they were at the call, so the push came before the first insertion. -/
theorem connect_by_kissing_single_undo (H : KissHelpers) (ctx : KissCtx) :
    ((connect_by_kissing H ctx).1.wire = ctx.wire ∧
      (connect_by_kissing H ctx).1.undo = ctx.undo ∧
      (connect_by_kissing H ctx).2 = 0) ∨
    ((∃ w extra, (connect_by_kissing H ctx).1.wire = ctx.wire ++ w :: extra) ∧
      (connect_by_kissing H ctx).1.undo = ctx.wire :: ctx.undo ∧
      (connect_by_kissing H ctx).2 = 1) := by
  have h := kiss_selection_undo_inv H ctx (ctx.sel_array.take ctx.lastsel)
    { ctx := ctx, changed := 0, done_undo := 0 } (Or.inl ⟨rfl, rfl, rfl, rfl⟩)
  rcases h with ⟨_, a2, a3, a4⟩ | ⟨_, a2, a3, a4⟩
  · exact Or.inl ⟨a3, a4, a2⟩
  · exact Or.inr ⟨a4, a3, a2⟩

/-! ## Mode bits -/

theorem or_and_disjoint (u b m : Nat) (h : m &&& b = 0) : (u ||| b) &&& m = u &&& m := by
  apply Nat.eq_of_testBit_eq
  intro i
  have hi := congrArg (fun x => x.testBit i) h
  simp only [Nat.testBit_and, Nat.zero_testBit] at hi
  simp only [Nat.testBit_and, Nat.testBit_or]
  cases hm : m.testBit i <;> cases hb : b.testBit i <;> simp_all

theorem clear_bits_and_disjoint (u b m : Nat) (h : m &&& b = 0) :
    clear_bits u b &&& m = u &&& m := by
  apply Nat.eq_of_testBit_eq
  intro i
  have hi := congrArg (fun x => x.testBit i) h
  simp only [Nat.testBit_and, Nat.zero_testBit] at hi
  simp only [clear_bits, Nat.testBit_and, Nat.testBit_xor]
  cases hm : m.testBit i <;> cases hb : b.testBit i <;> cases hu : u.testBit i <;> simp_all

/-- The flag SELECTION apart, `selection_flag` keeps the mode bits. -/
theorem selection_flag_keeps (m : Nat) (hm : m &&& 128 = 0) (doc : GDoc) (u : Nat) :
    selection_flag doc u &&& m = u &&& m := by
  unfold selection_flag
  split_ifs
  · exact or_and_disjoint u 128 m hm
  · exact clear_bits_and_disjoint u 128 m hm

/-! ## `new_wire` -/

theorem only_xx_refl (a : GestureCtx) : only_xx a a := by
  simp [only_xx]

theorem only_xx_trans {a b c : GestureCtx} (h1 : only_xx a b) (h2 : only_xx b c) :
    only_xx a c := by
  unfold only_xx at *
  simp_all

theorem only_xx_set_end {a b : GestureCtx} (h : only_xx a b) (mx my : Rat) :
    only_xx (set_rubber_end mx my a) (set_rubber_end mx my b) := by
  unfold only_xx set_rubber_end at *
  simp_all

theorem only_xx_restore (H : GestureHelpers) {a b : GestureCtx} (h : only_xx a b) :
    only_xx (restore_selection H a) (restore_selection H b) := by
  unfold only_xx restore_selection at *
  simp_all

theorem gesture_frame_steps (H : GestureHelpers) (mx my : Rat) (c : GestureCtx) :
    gesture_frame (load_xx c) = gesture_frame c ∧
    gesture_frame (set_rubber_end mx my c) = gesture_frame c ∧
    gesture_frame (order_x1y1_x2y1 H c) = gesture_frame c ∧
    gesture_frame (order_x2y1_x2y2 H c) = gesture_frame c ∧
    gesture_frame (order_x1y1_x1y2 H c) = gesture_frame c ∧
    gesture_frame (order_x1y2_x2y2 H c) = gesture_frame c ∧
    gesture_frame (order_x1y1_x2y2 H c) = gesture_frame c :=
  ⟨rfl, rfl, rfl, rfl, rfl, rfl, rfl⟩

theorem load_xx_only (c : GestureCtx) : only_xx c (load_xx c) := by
  simp [only_xx, load_xx]

theorem load_xx_tracked (c : GestureCtx) : wire_tracked (load_xx c) :=
  ⟨Or.inl ⟨rfl, rfl⟩, Or.inl ⟨rfl, rfl⟩⟩


theorem order_x1y1_x2y1_cases (H : GestureHelpers) (hok : order_ok H) (c : GestureCtx) :
    order_x1y1_x2y1 H c = c ∨
    order_x1y1_x2y1 H c = { c with nl_xx1 := c.nl_xx2, nl_xx2 := c.nl_xx1 } := by
  rcases hok c.nl_xx1 c.nl_yy1 c.nl_xx2 c.nl_yy1 with h | h
  · left; simp only [order_x1y1_x2y1, h]
  · right; simp only [order_x1y1_x2y1, h]

theorem order_x2y1_x2y2_cases (H : GestureHelpers) (hok : order_ok H) (c : GestureCtx) :
    order_x2y1_x2y2 H c = c ∨
    order_x2y1_x2y2 H c = { c with nl_yy1 := c.nl_yy2, nl_yy2 := c.nl_yy1 } := by
  rcases hok c.nl_xx2 c.nl_yy1 c.nl_xx2 c.nl_yy2 with h | h
  · left; simp only [order_x2y1_x2y2, h]
  · right; simp only [order_x2y1_x2y2, h]

theorem order_x1y1_x1y2_cases (H : GestureHelpers) (hok : order_ok H) (c : GestureCtx) :
    order_x1y1_x1y2 H c = c ∨
    order_x1y1_x1y2 H c = { c with nl_yy1 := c.nl_yy2, nl_yy2 := c.nl_yy1 } := by
  rcases hok c.nl_xx1 c.nl_yy1 c.nl_xx1 c.nl_yy2 with h | h
  · left; simp only [order_x1y1_x1y2, h]
  · right; simp only [order_x1y1_x1y2, h]

theorem order_x1y2_x2y2_cases (H : GestureHelpers) (hok : order_ok H) (c : GestureCtx) :
    order_x1y2_x2y2 H c = c ∨
    order_x1y2_x2y2 H c = { c with nl_xx1 := c.nl_xx2, nl_xx2 := c.nl_xx1 } := by
  rcases hok c.nl_xx1 c.nl_yy2 c.nl_xx2 c.nl_yy2 with h | h
  · left; simp only [order_x1y2_x2y2, h]
  · right; simp only [order_x1y2_x2y2, h]

theorem order_x1y1_x2y2_cases (H : GestureHelpers) (hok : order_ok H) (c : GestureCtx) :
    order_x1y1_x2y2 H c = c ∨
    order_x1y1_x2y2 H c = { c with nl_xx1 := c.nl_xx2, nl_yy1 := c.nl_yy2,
                                   nl_xx2 := c.nl_xx1, nl_yy2 := c.nl_yy1 } := by
  rcases hok c.nl_xx1 c.nl_yy1 c.nl_xx2 c.nl_yy2 with h | h
  · left; simp only [order_x1y1_x2y2, h]
  · right; simp only [order_x1y1_x2y2, h]

theorem ORDER_ok (a b c d : Rat) :
    ORDER a b c d = (a, b, c, d) ∨ ORDER a b c d = (c, d, a, b) := by
  unfold ORDER
  by_cases h1 : c < a
  · right; rw [if_pos h1]
  · rw [if_neg h1]
    by_cases h2 : c = a ∧ d < b
    · right; rw [if_pos h2, h2.1]
    · left; rw [if_neg h2]

theorem order_x1y1_x2y1_keeps (H : GestureHelpers) (hok : order_ok H) (c : GestureCtx)
    (h : wire_tracked c) :
    only_xx c (order_x1y1_x2y1 H c) ∧ wire_tracked (order_x1y1_x2y1 H c) := by
  rcases order_x1y1_x2y1_cases H hok c with e | e <;> rw [e]
  · exact ⟨only_xx_refl c, h⟩
  · refine ⟨by simp [only_xx], ?_, h.2⟩
    rcases h.1 with ⟨a, b⟩ | ⟨a, b⟩
    · exact Or.inr ⟨b, a⟩
    · exact Or.inl ⟨b, a⟩

theorem order_x1y2_x2y2_keeps (H : GestureHelpers) (hok : order_ok H) (c : GestureCtx)
    (h : wire_tracked c) :
    only_xx c (order_x1y2_x2y2 H c) ∧ wire_tracked (order_x1y2_x2y2 H c) := by
  rcases order_x1y2_x2y2_cases H hok c with e | e <;> rw [e]
  · exact ⟨only_xx_refl c, h⟩
  · refine ⟨by simp [only_xx], ?_, h.2⟩
    rcases h.1 with ⟨a, b⟩ | ⟨a, b⟩
    · exact Or.inr ⟨b, a⟩
    · exact Or.inl ⟨b, a⟩

theorem order_x2y1_x2y2_keeps (H : GestureHelpers) (hok : order_ok H) (c : GestureCtx)
    (h : wire_tracked c) :
    only_xx c (order_x2y1_x2y2 H c) ∧ wire_tracked (order_x2y1_x2y2 H c) := by
  rcases order_x2y1_x2y2_cases H hok c with e | e <;> rw [e]
  · exact ⟨only_xx_refl c, h⟩
  · refine ⟨by simp [only_xx], h.1, ?_⟩
    rcases h.2 with ⟨a, b⟩ | ⟨a, b⟩
    · exact Or.inr ⟨b, a⟩
    · exact Or.inl ⟨b, a⟩

theorem order_x1y1_x1y2_keeps (H : GestureHelpers) (hok : order_ok H) (c : GestureCtx)
    (h : wire_tracked c) :
    only_xx c (order_x1y1_x1y2 H c) ∧ wire_tracked (order_x1y1_x1y2 H c) := by
  rcases order_x1y1_x1y2_cases H hok c with e | e <;> rw [e]
  · exact ⟨only_xx_refl c, h⟩
  · refine ⟨by simp [only_xx], h.1, ?_⟩
    rcases h.2 with ⟨a, b⟩ | ⟨a, b⟩
    · exact Or.inr ⟨b, a⟩
    · exact Or.inl ⟨b, a⟩

theorem order_x1y1_x2y2_keeps (H : GestureHelpers) (hok : order_ok H) (c : GestureCtx)
    (h : wire_tracked c) :
    only_xx c (order_x1y1_x2y2 H c) ∧ wire_tracked (order_x1y1_x2y2 H c) := by
  rcases order_x1y1_x2y2_cases H hok c with e | e <;> rw [e]
  · exact ⟨only_xx_refl c, h⟩
  · refine ⟨by simp [only_xx], ?_, ?_⟩
    · rcases h.1 with ⟨a, b⟩ | ⟨a, b⟩
      · exact Or.inr ⟨b, a⟩
      · exact Or.inl ⟨b, a⟩
    · rcases h.2 with ⟨a, b⟩ | ⟨a, b⟩
      · exact Or.inr ⟨b, a⟩
      · exact Or.inl ⟨b, a⟩

/-- After a load of the rubber coordinates and the ORDER calls of one Manhattan
mode, the state is tracked and only the rubber coordinates have changed. -/
theorem rubber_segments_keeps (H : GestureHelpers) (hok : order_ok H) (c : GestureCtx) :
    (only_xx c (order_x2y1_x2y2 H (load_xx (order_x1y1_x2y1 H (load_xx c)))) ∧
      wire_tracked (order_x2y1_x2y2 H (load_xx (order_x1y1_x2y1 H (load_xx c))))) ∧
    (only_xx c (order_x1y2_x2y2 H (load_xx (order_x1y1_x1y2 H (load_xx c)))) ∧
      wire_tracked (order_x1y2_x2y2 H (load_xx (order_x1y1_x1y2 H (load_xx c))))) ∧
    (only_xx c (order_x1y1_x2y2 H (load_xx c)) ∧
      wire_tracked (order_x1y1_x2y2 H (load_xx c))) := by
  refine ⟨?_, ?_, ?_⟩
  · have a1 := order_x1y1_x2y1_keeps H hok _ (load_xx_tracked c)
    have a2 := order_x2y1_x2y2_keeps H hok _
      (load_xx_tracked (order_x1y1_x2y1 H (load_xx c)))
    exact ⟨only_xx_trans (only_xx_trans (only_xx_trans (load_xx_only c) a1.1)
      (load_xx_only _)) a2.1, a2.2⟩
  · have a1 := order_x1y1_x1y2_keeps H hok _ (load_xx_tracked c)
    have a2 := order_x1y2_x2y2_keeps H hok _
      (load_xx_tracked (order_x1y1_x1y2 H (load_xx c)))
    exact ⟨only_xx_trans (only_xx_trans (only_xx_trans (load_xx_only c) a1.1)
      (load_xx_only _)) a2.1, a2.2⟩
  · have a1 := order_x1y1_x2y2_keeps H hok _ (load_xx_tracked c)
    exact ⟨only_xx_trans (load_xx_only c) a1.1, a1.2⟩

/-- A RUBBER phase without CLEAR moves the rubber end to `(mx_snap, my_snap)`,
leaves the state tracked, and changes nothing but the rubber coordinates and
what restore_selection writes. -/
theorem new_wire_rubber_tracked (H : GestureHelpers) (hok : order_ok H) (mx my : Rat)
    (c : GestureCtx) :
    only_xx (set_rubber_end mx my (restore_selection H c)) (new_wire_rubber H false mx my c) ∧
    wire_tracked (new_wire_rubber H false mx my c) := by
  unfold new_wire_rubber
  by_cases h1 : c.manhattan_lines = 1
  · simp only [if_pos h1, if_true]
    obtain ⟨⟨a, _⟩, _, _⟩ := rubber_segments_keeps H hok c
    obtain ⟨⟨b, bt⟩, _, _⟩ := rubber_segments_keeps H hok
      (set_rubber_end mx my
        (restore_selection H (order_x2y1_x2y2 H (load_xx (order_x1y1_x2y1 H (load_xx c))))))
    exact ⟨only_xx_trans (only_xx_set_end (only_xx_restore H a) mx my) b, bt⟩
  · by_cases h2 : c.manhattan_lines = 2
    · simp only [if_neg h1, if_pos h2, if_true]
      obtain ⟨_, ⟨a, _⟩, _⟩ := rubber_segments_keeps H hok c
      obtain ⟨_, ⟨b, bt⟩, _⟩ := rubber_segments_keeps H hok
        (set_rubber_end mx my
          (restore_selection H (order_x1y2_x2y2 H (load_xx (order_x1y1_x1y2 H (load_xx c))))))
      exact ⟨only_xx_trans (only_xx_set_end (only_xx_restore H a) mx my) b, bt⟩
    · simp only [if_neg h1, if_neg h2, if_true]
      obtain ⟨_, _, ⟨a, _⟩⟩ := rubber_segments_keeps H hok c
      obtain ⟨_, _, ⟨b, bt⟩⟩ := rubber_segments_keeps H hok
        (set_rubber_end mx my (restore_selection H (order_x1y1_x2y2 H (load_xx c))))
      exact ⟨only_xx_trans (only_xx_set_end (only_xx_restore H a) mx my) b, bt⟩

theorem new_wire_store_h_then_v (H : GestureHelpers) (hok : order_ok H) (c : GestureCtx)
    (hm : c.manhattan_lines = 1) (hx : c.nl_xx2 ≠ c.nl_xx1) (hy : c.nl_y2 ≠ c.nl_y1) :
    ∃ w1 w2, same_segment w1 c.nl_x1 c.nl_y1 c.nl_x2 c.nl_y1 ∧
      same_segment w2 c.nl_x2 c.nl_y1 c.nl_x2 c.nl_y2 ∧
      (new_wire_store H c).1.doc = { c.doc with wire := c.doc.wire ++ [w1, w2] } ∧
      (new_wire_store H c).2 = 1 ∧
      (new_wire_store H c).1.undo = c.undo ∧
      (new_wire_store H c).1.ui_state = c.ui_state ∧
      (new_wire_store H c).1.mod = c.mod := by
  rcases hok c.nl_x1 c.nl_y1 c.nl_x2 c.nl_y1 with h1 | h1 <;>
  rcases hok c.nl_x2 c.nl_y1 c.nl_x2 c.nl_y2 with h2 | h2
  · refine ⟨seg c.nl_x1 c.nl_y1 c.nl_x2 c.nl_y1, seg c.nl_x2 c.nl_y1 c.nl_x2 c.nl_y2,
      Or.inl rfl, Or.inl rfl, ?_⟩
    simp [new_wire_store, hm, hx, hy, load_xx, order_x1y1_x2y1, order_x2y1_x2y2, store_wire,
      h1, h2, seg]
  · refine ⟨seg c.nl_x1 c.nl_y1 c.nl_x2 c.nl_y1, seg c.nl_x2 c.nl_y2 c.nl_x2 c.nl_y1,
      Or.inl rfl, Or.inr rfl, ?_⟩
    simp [new_wire_store, hm, hx, hy, load_xx, order_x1y1_x2y1, order_x2y1_x2y2, store_wire,
      h1, h2, seg]
  · refine ⟨seg c.nl_x2 c.nl_y1 c.nl_x1 c.nl_y1, seg c.nl_x2 c.nl_y1 c.nl_x2 c.nl_y2,
      Or.inr rfl, Or.inl rfl, ?_⟩
    simp [new_wire_store, hm, hx, hy, load_xx, order_x1y1_x2y1, order_x2y1_x2y2, store_wire,
      h1, h2, seg]
  · refine ⟨seg c.nl_x2 c.nl_y1 c.nl_x1 c.nl_y1, seg c.nl_x2 c.nl_y2 c.nl_x2 c.nl_y1,
      Or.inr rfl, Or.inr rfl, ?_⟩
    simp [new_wire_store, hm, hx, hy, load_xx, order_x1y1_x2y1, order_x2y1_x2y2, store_wire,
      h1, h2, seg]

theorem new_wire_store_v_then_h (H : GestureHelpers) (hok : order_ok H) (c : GestureCtx)
    (hm : c.manhattan_lines = 2) (hy : c.nl_yy2 ≠ c.nl_yy1) (hx : c.nl_x2 ≠ c.nl_x1) :
    ∃ w1 w2, same_segment w1 c.nl_x1 c.nl_y1 c.nl_x1 c.nl_y2 ∧
      same_segment w2 c.nl_x1 c.nl_y2 c.nl_x2 c.nl_y2 ∧
      (new_wire_store H c).1.doc = { c.doc with wire := c.doc.wire ++ [w1, w2] } ∧
      (new_wire_store H c).2 = 1 ∧
      (new_wire_store H c).1.undo = c.undo ∧
      (new_wire_store H c).1.ui_state = c.ui_state ∧
      (new_wire_store H c).1.mod = c.mod := by
  have hm1 : ¬ (c.manhattan_lines = 1) := by rw [hm]; decide
  rcases hok c.nl_x1 c.nl_y1 c.nl_x1 c.nl_y2 with h1 | h1 <;>
  rcases hok c.nl_x1 c.nl_y2 c.nl_x2 c.nl_y2 with h2 | h2
  · refine ⟨seg c.nl_x1 c.nl_y1 c.nl_x1 c.nl_y2, seg c.nl_x1 c.nl_y2 c.nl_x2 c.nl_y2,
      Or.inl rfl, Or.inl rfl, ?_⟩
    simp [new_wire_store, hm, hx, hy, load_xx, order_x1y1_x1y2, order_x1y2_x2y2, store_wire,
      h1, h2, seg]
  · refine ⟨seg c.nl_x1 c.nl_y1 c.nl_x1 c.nl_y2, seg c.nl_x2 c.nl_y2 c.nl_x1 c.nl_y2,
      Or.inl rfl, Or.inr rfl, ?_⟩
    simp [new_wire_store, hm, hx, hy, load_xx, order_x1y1_x1y2, order_x1y2_x2y2, store_wire,
      h1, h2, seg]
  · refine ⟨seg c.nl_x1 c.nl_y2 c.nl_x1 c.nl_y1, seg c.nl_x1 c.nl_y2 c.nl_x2 c.nl_y2,
      Or.inr rfl, Or.inl rfl, ?_⟩
    simp [new_wire_store, hm, hx, hy, load_xx, order_x1y1_x1y2, order_x1y2_x2y2, store_wire,
      h1, h2, seg]
  · refine ⟨seg c.nl_x1 c.nl_y2 c.nl_x1 c.nl_y1, seg c.nl_x2 c.nl_y2 c.nl_x1 c.nl_y2,
      Or.inr rfl, Or.inr rfl, ?_⟩
    simp [new_wire_store, hm, hx, hy, load_xx, order_x1y1_x1y2, order_x1y2_x2y2, store_wire,
      h1, h2, seg]

/-- The arming of a new segment touches neither the document, nor the undo
stack, nor the mode bits; the RUBBER phase touches the mode bits only through
restore_selection. -/
theorem new_wire_arm_frame (H : GestureHelpers) (mx my : Rat) (c : GestureCtx) :
    gesture_frame (new_wire_arm H mx my c) = gesture_frame c := by
  unfold new_wire_arm
  simp only
  split_ifs <;> simp only [(gesture_frame_steps H mx my _).1, (gesture_frame_steps H mx my _).2.1,
    (gesture_frame_steps H mx my _).2.2.1, (gesture_frame_steps H mx my _).2.2.2.1,
    (gesture_frame_steps H mx my _).2.2.2.2.1, (gesture_frame_steps H mx my _).2.2.2.2.2.1,
    (gesture_frame_steps H mx my _).2.2.2.2.2.2] <;> rfl

theorem new_wire_rubber_frame (H : GestureHelpers) (clear : Bool) (mx my : Rat)
    (c : GestureCtx) :
    gesture_frame (new_wire_rubber H clear mx my c) = gesture_frame (restore_selection H c) := by
  unfold new_wire_rubber
  simp only
  split_ifs <;> simp only [(gesture_frame_steps H mx my _).1, (gesture_frame_steps H mx my _).2.1,
    (gesture_frame_steps H mx my _).2.2.1, (gesture_frame_steps H mx my _).2.2.2.1,
    (gesture_frame_steps H mx my _).2.2.2.2.1, (gesture_frame_steps H mx my _).2.2.2.2.2.1,
    (gesture_frame_steps H mx my _).2.2.2.2.2.2] <;> rfl

theorem gesture_frame_doc {a b : GestureCtx} (h : gesture_frame a = gesture_frame b) :
    a.doc = b.doc ∧ a.undo = b.undo := by
  simp only [gesture_frame, Prod.mk.injEq] at h
  exact ⟨h.1, h.2.1⟩

theorem new_wire_place_doc (H : GestureHelpers) (what : Nat) (mx my : Rat) (c : GestureCtx) :
    (new_wire_place H what mx my c).doc = (new_wire_commit H c).1.doc ∧
    (new_wire_place H what mx my c).undo = (new_wire_commit H c).1.undo := by
  have ha := gesture_frame_doc (new_wire_arm_frame H mx my (new_wire_commit H c).1)
  unfold new_wire_place
  simp only
  split_ifs <;> first | exact ha | exact ⟨rfl, rfl⟩

/-- The document and the undo stack after new_wire are those left by the
commit of its PLACE phase, if it has one. -/
theorem new_wire_doc (H : GestureHelpers) (what : Nat) (mx my : Rat) (c : GestureCtx) :
    (new_wire H what mx my c).doc
      = (if what &&& H.PLACE ≠ 0 then (new_wire_commit H c).1.doc else c.doc) ∧
    (new_wire H what mx my c).undo
      = (if what &&& H.PLACE ≠ 0 then (new_wire_commit H c).1.undo else c.undo) := by
  have hp := new_wire_place_doc H what mx my c
  unfold new_wire
  simp only
  split_ifs <;>
    first
    | exact hp
    | exact ⟨rfl, rfl⟩
    | (refine ⟨((gesture_frame_doc (new_wire_rubber_frame H _ mx my _)).1).trans ?_,
        ((gesture_frame_doc (new_wire_rubber_frame H _ mx my _)).2).trans ?_⟩
       · first | exact hp.1 | rfl
       · first | exact hp.2 | rfl)

theorem wire_tracked_ne (c : GestureCtx) (h : wire_tracked c) :
    (c.nl_xx2 ≠ c.nl_xx1 ↔ c.nl_x2 ≠ c.nl_x1) ∧ (c.nl_yy2 ≠ c.nl_yy1 ↔ c.nl_y2 ≠ c.nl_y1) := by
  obtain ⟨hx, hy⟩ := h
  constructor
  · rcases hx with ⟨a, b⟩ | ⟨a, b⟩ <;> rw [a, b]
    exact ⟨fun h e => h e.symm, fun h e => h e.symm⟩
  · rcases hy with ⟨a, b⟩ | ⟨a, b⟩ <;> rw [a, b]
    exact ⟨fun h e => h e.symm, fun h e => h e.symm⟩

theorem new_wire_commit_two (H : GestureHelpers) (hok : order_ok H) (c : GestureCtx)
    (hstart : c.ui_state &&& H.STARTWIRE ≠ 0) (ht : wire_tracked c)
    (hx : c.nl_x1 ≠ c.nl_x2) (hy : c.nl_y1 ≠ c.nl_y2) :
    (c.manhattan_lines = 1 →
      ∃ w1 w2, same_segment w1 c.nl_x1 c.nl_y1 c.nl_x2 c.nl_y1 ∧
        same_segment w2 c.nl_x2 c.nl_y1 c.nl_x2 c.nl_y2 ∧
        (new_wire_commit H c).1.doc
          = { c.doc with wire := committed_wires H c.doc.wire [w1, w2] } ∧
        (new_wire_commit H c).1.undo = c.doc :: c.undo) ∧
    (c.manhattan_lines = 2 →
      ∃ w1 w2, same_segment w1 c.nl_x1 c.nl_y1 c.nl_x1 c.nl_y2 ∧
        same_segment w2 c.nl_x1 c.nl_y2 c.nl_x2 c.nl_y2 ∧
        (new_wire_commit H c).1.doc
          = { c.doc with wire := committed_wires H c.doc.wire [w1, w2] } ∧
        (new_wire_commit H c).1.undo = c.doc :: c.undo) := by
  have hcond : c.ui_state &&& H.STARTWIRE ≠ 0 ∧ (c.nl_x1 ≠ c.nl_x2 ∨ c.nl_y1 ≠ c.nl_y2) :=
    ⟨hstart, Or.inl hx⟩
  obtain ⟨tx, ty⟩ := wire_tracked_ne c ht
  constructor
  · intro hm
    obtain ⟨w1, w2, s1, s2, hd, _, hu, _, _⟩ :=
      new_wire_store_h_then_v H hok (gesture_push_undo c) hm (tx.2 (fun e => hx e.symm))
        (fun e => hy e.symm)
    refine ⟨w1, w2, s1, s2, ?_, ?_⟩
    · simp only [new_wire_commit, if_pos hcond, committed_wires]
      split_ifs <;> simp only [hd] <;> simp [gesture_push_undo]
    · simp only [new_wire_commit, if_pos hcond]
      split_ifs <;> simp only [hu] <;> simp [gesture_push_undo]
  · intro hm
    obtain ⟨w1, w2, s1, s2, hd, _, hu, _, _⟩ :=
      new_wire_store_v_then_h H hok (gesture_push_undo c) hm (ty.2 (fun e => hy e.symm))
        (fun e => hx e.symm)
    refine ⟨w1, w2, s1, s2, ?_, ?_⟩
    · simp only [new_wire_commit, if_pos hcond, committed_wires]
      split_ifs <;> simp only [hd] <;> simp [gesture_push_undo]
    · simp only [new_wire_commit, if_pos hcond]
      split_ifs <;> simp only [hu] <;> simp [gesture_push_undo]

theorem new_wire_rubber_only (H : GestureHelpers) (what : Nat) (mx my : Rat) (c : GestureCtx)
    (hr : what &&& H.RUBBER ≠ 0) (hp : what &&& H.PLACE = 0) (he : what &&& H.END = 0)
    (hc : what &&& H.CLEAR = 0) :
    new_wire H what mx my c = new_wire_rubber H false mx my c := by
  simp [new_wire, hr, hp, he, hc]

/-- C12: a wire gesture is armed at `(x1,y1) = (nl_x1, nl_y1)` (STARTWIRE set),
a RUBBER phase tracks its rubber end to `(x2,y2)` with `x1 ≠ x2` and `y1 ≠ y2`,
then a PLACE phase commits. In mode H-then-V (`manhattan_lines = 1`) exactly
two wires are stored after the wires present, first the segment between
`(x1,y1)` and `(x2,y1)`, then the segment between `(x2,y1)` and `(x2,y2)`; in
mode V-then-H (`manhattan_lines = 2`) first the segment between `(x1,y1)` and
`(x1,y2)`, then the segment between `(x1,y2)` and `(x2,y2)`. One undo snapshot
of the document is pushed, the polygons are untouched. The macro ORDER may
put the end points of a segment in either order, trim_wires acts on the
wires afterwards when `autotrim_wires` is set, and rebuild_selected_array,
called in the RUBBER phase, keeps the bit STARTWIRE. -/
theorem new_wire_manhattan_commit (H : GestureHelpers) (hok : order_ok H) (c0 : GestureCtx)
    (wr wp : Nat) (x2 y2 mx my : Rat)
    (hsel : ∀ doc u, H.rebuild_selected_array doc u &&& H.STARTWIRE = u &&& H.STARTWIRE)
    (hstart : c0.ui_state &&& H.STARTWIRE ≠ 0)
    (hr : wr &&& H.RUBBER ≠ 0) (hrp : wr &&& H.PLACE = 0) (hre : wr &&& H.END = 0)
    (hrc : wr &&& H.CLEAR = 0) (hp : wp &&& H.PLACE ≠ 0)
    (hx : c0.nl_x1 ≠ x2) (hy : c0.nl_y1 ≠ y2) :
    (c0.manhattan_lines = 1 →
      ∃ w1 w2, same_segment w1 c0.nl_x1 c0.nl_y1 x2 c0.nl_y1 ∧
        same_segment w2 x2 c0.nl_y1 x2 y2 ∧
        (new_wire H wp mx my (new_wire H wr x2 y2 c0)).doc
          = { c0.doc with wire := committed_wires H c0.doc.wire [w1, w2] } ∧
        (new_wire H wp mx my (new_wire H wr x2 y2 c0)).undo = c0.doc :: c0.undo) ∧
    (c0.manhattan_lines = 2 →
      ∃ w1 w2, same_segment w1 c0.nl_x1 c0.nl_y1 c0.nl_x1 y2 ∧
        same_segment w2 c0.nl_x1 y2 x2 y2 ∧
        (new_wire H wp mx my (new_wire H wr x2 y2 c0)).doc
          = { c0.doc with wire := committed_wires H c0.doc.wire [w1, w2] } ∧
        (new_wire H wp mx my (new_wire H wr x2 y2 c0)).undo = c0.doc :: c0.undo) := by
  rw [new_wire_rubber_only H wr x2 y2 c0 hr hrp hre hrc]
  obtain ⟨ho, ht⟩ := new_wire_rubber_tracked H hok x2 y2 c0
  obtain ⟨o1, o2, o3, o4, o5, o6, _, _, _, _, _, _, _, o14, o15, _, _⟩ := ho
  simp only [set_rubber_end, restore_selection] at o1 o2 o3 o4 o5 o6 o14 o15
  obtain ⟨d1, d2⟩ := new_wire_doc H wp mx my (new_wire_rubber H false x2 y2 c0)
  rw [if_pos hp] at d1 d2
  obtain ⟨k1, k2⟩ := new_wire_commit_two H hok (new_wire_rubber H false x2 y2 c0)
    (by rw [o1, hsel]; exact hstart) ht (by rw [o3, o5]; exact hx) (by rw [o4, o6]; exact hy)
  rw [o2, o3, o4, o5, o6, o14, o15] at k1 k2
  rw [d1, d2]
  exact ⟨k1, k2⟩

theorem gesture_helpers_order_ok : order_ok gesture_helpers := ORDER_ok

/-- C12, at a concrete input: armed at (10,10), tracked to (30,25), H-then-V:
the wires (10,10)-(30,10) and (30,10)-(30,25) are stored, in this order. -/
theorem new_wire_manhattan_commit_witness :
    (new_wire gesture_helpers 1 30 25 (new_wire gesture_helpers 2 30 25
        (new_wire gesture_helpers 1 10 10 (gesture_start 1)))).doc.wire
      = [seg 10 10 30 10, seg 30 10 30 25] ∧
    ∃ w1 w2, same_segment w1 10 10 30 10 ∧ same_segment w2 30 10 30 25 ∧
      (new_wire gesture_helpers 1 30 25 (new_wire gesture_helpers 2 30 25
        (new_wire gesture_helpers 1 10 10 (gesture_start 1)))).doc
        = { wire := committed_wires gesture_helpers [] [w1, w2], poly := [] } ∧
      (new_wire gesture_helpers 1 30 25 (new_wire gesture_helpers 2 30 25
        (new_wire gesture_helpers 1 10 10 (gesture_start 1)))).undo
        = [{ wire := [], poly := [] }] :=
  ⟨by decide,
   (new_wire_manhattan_commit gesture_helpers gesture_helpers_order_ok
      (new_wire gesture_helpers 1 10 10 (gesture_start 1)) 2 1 30 25 30 25
      (selection_flag_keeps 1 (by decide))
      (by decide) (by decide) (by decide) (by decide) (by decide) (by decide)
      (by decide) (by decide)).1 (by decide)⟩

/-- C13: in mode H-then-V the phases PLACE at (0,0), RUBBER to (5,5), RUBBER
with CLEAR to (0,7), PLACE at (0,7) store the wire (0,0)-(0,0), whose end
points coincide, before the wire (0,0)-(0,7): the guard `nl_xx2 != nl_xx1` of
the commit reads the rubber coordinates left by the RUBBER phase at (5,5). -/
theorem new_wire_stale_guard_degenerate :
    stale_guard_run.doc.wire = [seg 0 0 0 0, seg 0 0 0 7] := by
  decide

/-! ## `new_polygon` -/

theorem arr_get_nat (xs : List Rat) (i : Nat) : arr_get (some xs) (i : Int) = xs[i]? := by
  simp [arr_get]

theorem arr_get_pred (xs : List Rat) (n : Nat) :
    arr_get (some xs) (((n + 1 : Nat) : Int) - 1) = xs[n]? := by
  have h : (((n + 1 : Nat) : Int) - 1) = (n : Int) := by push_cast; ring
  rw [h, arr_get_nat]

theorem arr_set_some (xs : List Rat) (i : Nat) (v : Rat) (h : i < xs.length) :
    arr_set (some xs) i v = some (xs.set i v) := by
  simp [arr_set, h]

theorem my_realloc_doubles_spec (xs : List Rat) (m : Nat) (hm : xs.length < m) :
    ∃ L, my_realloc_doubles (some xs) m = some L ∧ L.length = m ∧
      ∀ i, i < xs.length → L[i]? = xs[i]? := by
  refine ⟨(xs ++ List.replicate m 0).take m, ?_, ?_, ?_⟩
  · have : m ≠ 0 := by omega
    simp [my_realloc_doubles, this]
  · simp
  · intro i hi
    rw [List.getElem?_take_of_lt (by omega), List.getElem?_append_left hi]

/-- After the storage check the two arrays hold the elements they held and
have room for the rubber point after the next vertex, when the capacity says
so. -/
theorem new_polygon_storage_room (H : GestureHelpers) (c : GestureCtx) (xs ys : List Rat)
    (hx : c.nl_polyx = some xs) (hy : c.nl_polyy = some ys)
    (hlx : xs.length = c.nl_maxpoints) (hly : ys.length = c.nl_maxpoints)
    (hin : c.nl_points < c.nl_maxpoints)
    (hroom : c.nl_points + 1 < (new_polygon_storage H c).nl_maxpoints) :
    ∃ L M, (new_polygon_storage H c).nl_polyx = some L ∧
      (new_polygon_storage H c).nl_polyy = some M ∧
      c.nl_points + 1 < L.length ∧ c.nl_points + 1 < M.length ∧
      (∀ i, i < xs.length → L[i]? = xs[i]?) ∧ (∀ i, i < ys.length → M[i]? = ys[i]?) ∧
      (new_polygon_storage H c).nl_points = c.nl_points ∧
      (new_polygon_storage H c).mousex_snap = c.mousex_snap ∧
      (new_polygon_storage H c).mousey_snap = c.mousey_snap ∧
      (new_polygon_storage H c).rectcolor = c.rectcolor ∧
      gesture_frame (new_polygon_storage H c) = gesture_frame c := by
  unfold new_polygon_storage at hroom ⊢
  by_cases hc : (c.nl_points : Int) ≥ (c.nl_maxpoints : Int) - 1
  · rw [if_pos hc] at hroom ⊢
    simp only at hroom ⊢
    have hm : xs.length < (1 + c.nl_points / H.CADCHUNKALLOC) * H.CADCHUNKALLOC := by omega
    have hm2 : ys.length < (1 + c.nl_points / H.CADCHUNKALLOC) * H.CADCHUNKALLOC := by omega
    obtain ⟨L, hL, hLl, hLg⟩ := my_realloc_doubles_spec xs _ hm
    obtain ⟨M, hM, hMl, hMg⟩ := my_realloc_doubles_spec ys _ hm2
    refine ⟨L, M, ?_, ?_, ?_, ?_, hLg, hMg, ?_⟩
    · rw [hx]; exact hL
    · rw [hy]; exact hM
    · omega
    · omega
    · simp [gesture_frame]
  · rw [if_neg hc] at hroom ⊢
    exact ⟨xs, ys, hx, hy, by omega, by omega, fun _ _ => rfl, fun _ _ => rfl,
      rfl, rfl, rfl, rfl, rfl⟩

theorem new_polygon_next_some (c : GestureCtx) (A B : List Rat) (n : Nat) (a b : Rat)
    (hA : c.nl_polyx = some A) (hB : c.nl_polyy = some B) (hn : c.nl_points = n)
    (ha : A[n]? = some a) (hb : B[n]? = some b)
    (hlA : n + 1 < A.length) (hlB : n + 1 < B.length) :
    new_polygon_next c = some { c with nl_points := n + 1, nl_polyx := some (A.set (n + 1) a), nl_polyy := some (B.set (n + 1) b) } := by
  unfold new_polygon_next
  rw [hA, hB, hn]
  simp only [arr_get_pred, ha, hb, arr_set_some _ _ _ hlA, arr_set_some _ _ _ hlB,
    Option.bind_eq_bind, Option.some_bind]

theorem take_set_set (L : List Rat) (n : Nat) (v w : Rat) (h : n + 1 < L.length) :
    ((L.set n v).set (n + 1) w).take (n + 1) = L.take n ++ [v] := by
  apply List.ext_getElem?
  intro i
  by_cases h1 : i < n
  · rw [List.getElem?_take_of_lt (by omega), List.getElem?_append_left (by simp; omega),
      List.getElem?_take_of_lt h1, List.getElem?_set_ne (by omega), List.getElem?_set_ne (by omega)]
  · by_cases h2 : i = n
    · subst h2
      rw [List.getElem?_take_of_lt (by omega), List.getElem?_set_ne (by omega),
        List.getElem?_append_right (by simp), List.getElem?_set_self (by omega)]
      have hmin : i - (List.take i L).length = 0 := by rw [List.length_take]; omega
      rw [hmin]
      rfl
    · rw [List.getElem?_eq_none (by rw [List.length_take]; omega),
        List.getElem?_eq_none (by simp; omega)]

theorem take_eq_of_getElem (L xs : List Rat) (n : Nat)
    (h : ∀ i, i < xs.length → L[i]? = xs[i]?) (hn : n ≤ xs.length) :
    L.take n = xs.take n := by
  apply List.ext_getElem?
  intro i
  by_cases h1 : i < n
  · rw [List.getElem?_take_of_lt h1, List.getElem?_take_of_lt h1, h i (by omega)]
  · rw [List.getElem?_eq_none (by rw [List.length_take]; omega),
      List.getElem?_eq_none (by rw [List.length_take]; omega)]

theorem new_polygon_moved_true (c : GestureCtx) (A B : List Rat) (k : Nat)
    (hA : c.nl_polyx = some A) (hB : c.nl_polyy = some B) (hn : c.nl_points = k + 1)
    (hlA : k + 1 < A.length) (hlB : k + 1 < B.length)
    (hmoved : A[k + 1]? ≠ A[k]? ∨ B[k + 1]? ≠ B[k]?) :
    new_polygon_moved c = some true := by
  unfold new_polygon_moved
  rw [hA, hB, hn, arr_get_nat, arr_get_pred, arr_get_nat, arr_get_pred]
  rw [List.getElem?_eq_getElem hlA, List.getElem?_eq_getElem hlB,
    List.getElem?_eq_getElem (show k < A.length by omega),
    List.getElem?_eq_getElem (show k < B.length by omega)] at *
  simp only [Option.bind_eq_bind, Option.some_bind]
  by_cases hx : A[k + 1] = A[k]
  · have hy : B[k + 1] ≠ B[k] := by
      rcases hmoved with h | h
      · exact absurd (congrArg some hx) h
      · exact fun e => h (congrArg some e)
    simp [hx, hy]
  · simp [hx]

theorem new_polygon_add_commit (H : GestureHelpers) (what : Nat) (c : GestureCtx)
    (A B : List Rat) (k : Nat)
    (hend : what &&& H.END = 0)
    (hA : c.nl_polyx = some A) (hB : c.nl_polyy = some B) (hn : c.nl_points = k + 1)
    (hlA : k + 2 < A.length) (hlB : k + 2 < B.length)
    (hmoved : A[k + 1]? ≠ A[k]? ∨ B[k + 1]? ≠ B[k]?) :
    new_polygon_add H what c = some ({ c with nl_points := k + 2, nl_polyx := some (((A.set (k + 1) c.mousex_snap).set (k + 2) c.mousex_snap)), nl_polyy := some (((B.set (k + 1) c.mousey_snap).set (k + 2) c.mousey_snap)) }, false) := by
  unfold new_polygon_add
  have hm := new_polygon_moved_true c A B k hA hB hn (by omega) (by omega) hmoved
  have h1 := new_polygon_next_some
    { c with nl_polyx := some (A.set (k + 1) c.mousex_snap),
             nl_polyy := some (B.set (k + 1) c.mousey_snap) }
    (A.set (k + 1) c.mousex_snap) (B.set (k + 1) c.mousey_snap) (k + 1)
    c.mousex_snap c.mousey_snap rfl rfl hn
    (by rw [List.getElem?_set_self (by omega)])
    (by rw [List.getElem?_set_self (by omega)])
    (by simp; omega) (by simp; omega)
  simp only [hend, ne_eq, not_true_eq_false, if_false, hm, Option.bind_eq_bind, Option.some_bind,
    if_true, hA, hB, hn, arr_set_some A (k + 1) _ (show k + 1 < A.length by omega),
    arr_set_some B (k + 1) _ (show k + 1 < B.length by omega)]
  simp only [hn] at h1
  simp only [h1, Option.some_bind]

theorem new_polygon_ends_closed (H : GestureHelpers) (what : Nat) (c : GestureCtx)
    (A B : List Rat) (k : Nat) (hadd : what &&& H.ADD ≠ 0)
    (hA : c.nl_polyx = some A) (hB : c.nl_polyy = some B) (hn : c.nl_points = k + 2)
    (hlA : k + 1 < A.length) (hlB : k + 1 < B.length)
    (hx : A[k + 1]? = A[0]?) (hy : B[k + 1]? = B[0]?) :
    new_polygon_ends H what c = some true := by
  unfold new_polygon_ends
  split_ifs with h1
  · rfl
  · have e0 : arr_get (some A) 0 = A[0]? := arr_get_nat A 0
    have f0 : arr_get (some B) 0 = B[0]? := arr_get_nat B 0
    have hn2 : c.nl_points = (k + 1) + 1 := hn
    rw [hA, hB, hn2, arr_get_pred, arr_get_pred, e0, f0, ← hx, ← hy,
      List.getElem?_eq_getElem hlA, List.getElem?_eq_getElem hlB]
    simp

theorem new_polygon_finish_some (H : GestureHelpers) (c : GestureCtx) (A B : List Rat)
    (hA : c.nl_polyx = some A) (hB : c.nl_polyy = some B)
    (hlA : c.nl_points ≤ A.length) (hlB : c.nl_points ≤ B.length) :
    ∃ r, new_polygon_finish H c = some r ∧ r.undo = c.doc :: c.undo ∧
      r.doc.poly = c.doc.poly ++
        [(c.rectcolor, polygon_of c.nl_points (A.take c.nl_points) (B.take c.nl_points))] ∧
      r.doc.wire = c.doc.wire ∧
      r.ui_state = clear_bits c.ui_state H.STARTPOLYGON ∧
      r.nl_points = 0 ∧ r.nl_maxpoints = 0 ∧ r.nl_polyx = none ∧ r.nl_polyy = none := by
  unfold new_polygon_finish store_poly gesture_push_undo
  simp only [hA, hB]
  rw [if_pos ⟨hlA, hlB⟩]
  exact ⟨_, rfl, rfl, rfl, rfl, rfl, rfl, rfl, rfl, rfl⟩

theorem new_polygon_closes_core (H : GestureHelpers) (what : Nat) (c : GestureCtx)
    (L M : List Rat) (k : Nat)
    (hadd : what &&& H.ADD ≠ 0) (hend : what &&& H.END = 0) (hrub : what &&& H.RUBBER = 0)
    (hn : c.nl_points = k + 1)
    (hL : c.nl_polyx = some L) (hM : c.nl_polyy = some M)
    (hlL : k + 2 < L.length) (hlM : k + 2 < M.length)
    (hmoved : L[k + 1]? ≠ L[k]? ∨ M[k + 1]? ≠ M[k]?)
    (h0x : L[0]? = some c.mousex_snap) (h0y : M[0]? = some c.mousey_snap) :
    ∃ r, ((new_polygon_add H what c).bind
        (fun a => if a.2 = true then some a.1 else new_polygon_tail H what a.1)) = some r ∧
      r.undo = c.doc :: c.undo ∧
      r.doc.poly = c.doc.poly ++
        [(c.rectcolor, polygon_of (k + 2) (L.take (k + 1) ++ [c.mousex_snap])
            (M.take (k + 1) ++ [c.mousey_snap]))] ∧
      r.doc.wire = c.doc.wire ∧
      r.ui_state = clear_bits c.ui_state H.STARTPOLYGON ∧
      r.nl_points = 0 ∧ r.nl_maxpoints = 0 ∧ r.nl_polyx = none ∧ r.nl_polyy = none := by
  have hadd2 := new_polygon_add_commit H what c L M k hend hL hM hn hlL hlM hmoved
  have hA0 : ((L.set (k + 1) c.mousex_snap).set (k + 2) c.mousex_snap)[k + 1]?
      = ((L.set (k + 1) c.mousex_snap).set (k + 2) c.mousex_snap)[0]? := by
    rw [List.getElem?_set_ne (by omega), List.getElem?_set_self (by omega),
      List.getElem?_set_ne (by omega), List.getElem?_set_ne (by omega), h0x]
  have hB0 : ((M.set (k + 1) c.mousey_snap).set (k + 2) c.mousey_snap)[k + 1]?
      = ((M.set (k + 1) c.mousey_snap).set (k + 2) c.mousey_snap)[0]? := by
    rw [List.getElem?_set_ne (by omega), List.getElem?_set_self (by omega),
      List.getElem?_set_ne (by omega), List.getElem?_set_ne (by omega), h0y]
  have hends := new_polygon_ends_closed H what
    { c with nl_points := k + 2, nl_polyx := some (((L.set (k + 1) c.mousex_snap).set (k + 2) c.mousex_snap)), nl_polyy := some (((M.set (k + 1) c.mousey_snap).set (k + 2) c.mousey_snap)) }
    _ _ k hadd rfl rfl rfl (by simp; omega) (by simp; omega) hA0 hB0
  obtain ⟨r, hr, hr1, hr2, hr3, hr4, hr5, hr6, hr7, hr8⟩ := new_polygon_finish_some H
    { c with nl_points := k + 2, nl_polyx := some (((L.set (k + 1) c.mousex_snap).set (k + 2) c.mousex_snap)), nl_polyy := some (((M.set (k + 1) c.mousey_snap).set (k + 2) c.mousey_snap)) }
    _ _ rfl rfl (by simp; omega) (by simp; omega)
  refine ⟨r, ?_, hr1, ?_, hr3, hr4, hr5, hr6, hr7, hr8⟩
  · rw [hadd2]
    simp only [Option.some_bind, Bool.false_eq_true, if_false]
    unfold new_polygon_tail
    simp only [hends, Option.bind_eq_bind, Option.some_bind, if_true, hr, hrub, ne_eq,
      not_true_eq_false, if_false]
  · rw [hr2]
    simp only
    rw [take_set_set L (k + 1) _ _ hlL, take_set_set M (k + 1) _ _ hlM]

/-- The closing of a polygon where the buffer has room: a polygon placement
holds the committed vertices `0..k` and the rubber point `k+1`
(`nl_points = k+1`), the arrays are allocated with
`nl_maxpoints` elements and have room for the rubber point after the next
vertex once the storage check has run. An ADD phase (no PLACE, END or RUBBER
bit) finds the rubber point moved off vertex `k`, so it commits the vertex
`(mousex_snap, mousey_snap)`, and this vertex equals vertex 0. Then
new_polygon returns, one undo snapshot of the document is pushed, one polygon
is stored after the polygons present, of the `k+2` vertices `0..k` and the
closing one, the STARTPOLYGON bit is cleared, the point count and the
capacity are 0 and the two arrays are freed. -/
theorem new_polygon_closes_on_first_vertex (H : GestureHelpers) (what : Nat) (c : GestureCtx)
    (xs ys : List Rat) (k : Nat)
    (hadd : what &&& H.ADD ≠ 0) (hpl : what &&& H.PLACE = 0) (hend : what &&& H.END = 0)
    (hrub : what &&& H.RUBBER = 0)
    (hn : c.nl_points = k + 1)
    (hx : c.nl_polyx = some xs) (hy : c.nl_polyy = some ys)
    (hlx : xs.length = c.nl_maxpoints) (hly : ys.length = c.nl_maxpoints)
    (hin : c.nl_points < c.nl_maxpoints)
    (hroom : c.nl_points + 1 < (new_polygon_storage H c).nl_maxpoints)
    (hmoved : xs[k + 1]? ≠ xs[k]? ∨ ys[k + 1]? ≠ ys[k]?)
    (h0x : xs[0]? = some c.mousex_snap) (h0y : ys[0]? = some c.mousey_snap) :
    ∃ r, new_polygon H what c = some r ∧ r.undo = c.doc :: c.undo ∧
      r.doc.poly = c.doc.poly ++
        [(c.rectcolor, polygon_of (k + 2) (xs.take (k + 1) ++ [c.mousex_snap])
            (ys.take (k + 1) ++ [c.mousey_snap]))] ∧
      r.doc.wire = c.doc.wire ∧
      r.ui_state = clear_bits c.ui_state H.STARTPOLYGON ∧
      r.nl_points = 0 ∧ r.nl_maxpoints = 0 ∧ r.nl_polyx = none ∧ r.nl_polyy = none := by
  obtain ⟨L, M, hL, hM, hlL, hlM, hLg, hMg, hp, hmx, hmy, hrc, hf⟩ :=
    new_polygon_storage_room H c xs ys hx hy hlx hly hin hroom
  simp only [gesture_frame, Prod.mk.injEq] at hf
  obtain ⟨hdoc, hundo, -, hui, -⟩ := hf
  rw [hn] at hlL hlM
  have hk1 : k + 1 < xs.length := by omega
  have hk1y : k + 1 < ys.length := by omega
  have hmoved2 : L[k + 1]? ≠ L[k]? ∨ M[k + 1]? ≠ M[k]? := by
    rw [hLg (k + 1) hk1, hLg k (by omega), hMg (k + 1) hk1y, hMg k (by omega)]
    exact hmoved
  obtain ⟨r, hr, hr1, hr2, hr3, hr4, hr5⟩ := new_polygon_closes_core H what
    (new_polygon_storage H c) L M k hadd hend hrub (hp.trans hn) hL hM hlL hlM hmoved2
    (by rw [hLg 0 (by omega), hmx]; exact h0x) (by rw [hMg 0 (by omega), hmy]; exact h0y)
  refine ⟨r, ?_, ?_, ?_, ?_, ?_, hr5⟩
  · unfold new_polygon
    simp only [hpl, hadd, ne_eq, not_true_eq_false, not_false_eq_true, if_false, if_true,
      Option.bind_eq_bind, Option.some_bind]
    exact hr
  · rw [hr1, hdoc, hundo]
  · rw [hr2, hdoc, hrc, hmx, hmy, take_eq_of_getElem L xs (k + 1) hLg (by omega),
      take_eq_of_getElem M ys (k + 1) hMg (by omega)]
  · rw [hr3, hdoc]
  · rw [hr4, hui]

/-- The closing of a polygon at a concrete input: vertices (1,2), (5,2),
rubber point (7,9), the mouse on vertex 0: the polygon (1,2), (5,2), (1,2) is stored and the gesture
ended. -/
theorem new_polygon_closes_on_first_vertex_witness :
    ∃ r, new_polygon gesture_helpers 16 polygon_pending = some r ∧
      r.undo = [{ wire := [], poly := [] }] ∧
      r.doc.poly = [] ++ [(4, polygon_of 3 [1, 5, 1] [2, 2, 2])] ∧
      r.doc.wire = [] ∧
      r.ui_state = clear_bits 2 2 ∧
      r.nl_points = 0 ∧ r.nl_maxpoints = 0 ∧ r.nl_polyx = none ∧ r.nl_polyy = none :=
  new_polygon_closes_on_first_vertex gesture_helpers 16 polygon_pending
    [1, 5, 7, 0] [2, 2, 9, 0] 1 (by decide) (by decide) (by decide) (by decide)
    rfl rfl rfl rfl rfl (by decide) (by decide) (Or.inl (by decide)) rfl rfl

/-! ## The viewport -/

theorem zoom_factor_mul_div (H : ViewHelpers) (z a : Rat) (hf : zoom_factor H z ≠ 0) :
    a / zoom_factor H z * zoom_factor H z = a := by
  field_simp

/-- C15, the claim as stated fails: at a zoom below CADMINZOOM view_zoom
returns at once, and view_unzoom then doubles the zoom. -/
theorem view_zoom_unzoom_below_min :
    (view_unzoom view_helpers 2 (view_zoom view_helpers 2 (empty_view 1000 500 5 (1 / 10000000)))).zoom
      ≠ (empty_view 1000 500 5 (1 / 10000000)).zoom := by
  norm_num [view_unzoom, view_zoom, view_helpers, empty_view, zoom_factor]

/-- C15, amended: with `unzoom_nodrift` set, a zoom not below CADMINZOOM, the
zoom after view_zoom not above CADMAXZOOM and a factor other than 0 (the
factor is `z`, or CADZOOMSTEP when `z` is 0), view_zoom(z) followed by
view_unzoom(z) at the same snapped mouse position restores xorigin, yorigin
and zoom. change_linewidth is taken to leave these and the mouse position
alone. -/
theorem view_zoom_unzoom_restores (H : ViewHelpers) (z : Rat) (v : ViewCtx)
    (hn : H.unzoom_nodrift = true) (hcl : keeps_viewport (H.change_linewidth (-1)))
    (hf : zoom_factor H z ≠ 0) (hmin : ¬ v.zoom < H.CADMINZOOM)
    (hmax : ¬ v.zoom / zoom_factor H z > H.CADMAXZOOM) :
    (view_unzoom H z (view_zoom H z v)).xorigin = v.xorigin ∧
    (view_unzoom H z (view_zoom H z v)).yorigin = v.yorigin ∧
    (view_unzoom H z (view_zoom H z v)).zoom = v.zoom := by
  have h1 : (view_zoom H z v).zoom = v.zoom / zoom_factor H z ∧
      (view_zoom H z v).xorigin = -v.mousex_snap + (v.mousex_snap + v.xorigin) / zoom_factor H z ∧
      (view_zoom H z v).yorigin = -v.mousey_snap + (v.mousey_snap + v.yorigin) / zoom_factor H z ∧
      (view_zoom H z v).mousex_snap = v.mousex_snap ∧
      (view_zoom H z v).mousey_snap = v.mousey_snap := by
    unfold view_zoom
    simp only [if_neg hmin]
    obtain ⟨a, b, c, _, e, f⟩ := hcl
      { v with zoom := v.zoom / zoom_factor H z, mooz := 1 / (v.zoom / zoom_factor H z), xorigin := -v.mousex_snap + (v.mousex_snap + v.xorigin) / zoom_factor H z, yorigin := -v.mousey_snap + (v.mousey_snap + v.yorigin) / zoom_factor H z }
    exact ⟨c, a, b, e, f⟩
  obtain ⟨hz, hx, hy, hmx, hmy⟩ := h1
  have hmax2 : ¬ (view_zoom H z v).zoom > H.CADMAXZOOM := by rw [hz]; exact hmax
  unfold view_unzoom
  simp only [if_neg hmax2, hn, if_true]
  obtain ⟨a, b, c, _, _, _⟩ := hcl
    { view_zoom H z v with zoom := (view_zoom H z v).zoom * zoom_factor H z, mooz := 1 / ((view_zoom H z v).zoom * zoom_factor H z), xorigin := -(view_zoom H z v).mousex_snap + ((view_zoom H z v).mousex_snap + (view_zoom H z v).xorigin) * zoom_factor H z, yorigin := -(view_zoom H z v).mousey_snap + ((view_zoom H z v).mousey_snap + (view_zoom H z v).yorigin) * zoom_factor H z }
  rw [a, b, c]
  simp only [hz, hx, hy, hmx, hmy]
  refine ⟨?_, ?_, ?_⟩
  · rw [show v.mousex_snap + (-v.mousex_snap + (v.mousex_snap + v.xorigin) / zoom_factor H z)
        = (v.mousex_snap + v.xorigin) / zoom_factor H z by ring, zoom_factor_mul_div H z _ hf]
    ring
  · rw [show v.mousey_snap + (-v.mousey_snap + (v.mousey_snap + v.yorigin) / zoom_factor H z)
        = (v.mousey_snap + v.yorigin) / zoom_factor H z by ring, zoom_factor_mul_div H z _ hf]
    ring
  · exact zoom_factor_mul_div H z _ hf

theorem view_helpers_keeps_viewport (w : Rat) : keeps_viewport (view_helpers.change_linewidth w) :=
  fun _ => ⟨rfl, rfl, rfl, rfl, rfl, rfl⟩

/-- C15, amended, at a concrete input: zoom 1, origin (3,4), mouse at (10,20),
factor 2. -/
theorem view_zoom_unzoom_restores_witness :
    (view_unzoom view_helpers 2 (view_zoom view_helpers 2
      { empty_view 1000 500 5 1 with xorigin := 3, yorigin := 4, mousex_snap := 10, mousey_snap := 20 })).xorigin = 3 ∧
    (view_unzoom view_helpers 2 (view_zoom view_helpers 2
      { empty_view 1000 500 5 1 with xorigin := 3, yorigin := 4, mousex_snap := 10, mousey_snap := 20 })).yorigin = 4 ∧
    (view_unzoom view_helpers 2 (view_zoom view_helpers 2
      { empty_view 1000 500 5 1 with xorigin := 3, yorigin := 4, mousex_snap := 10, mousey_snap := 20 })).zoom = 1 :=
  view_zoom_unzoom_restores view_helpers 2
    { empty_view 1000 500 5 1 with xorigin := 3, yorigin := 4, mousex_snap := 10, mousey_snap := 20 }
    rfl (view_helpers_keeps_viewport (-1))
    (by norm_num [zoom_factor]) (by norm_num [empty_view, view_helpers])
    (by norm_num [empty_view, view_helpers, zoom_factor])

theorem calc_drawing_bbox_area (H : ViewHelpers) (v : ViewCtx) (selected : Int)
    (hnet : keeps_area H.prepare_netlist_structs) :
    (calc_drawing_bbox H v selected).2.lw = v.lw ∧
    (calc_drawing_bbox H v selected).2.areaw = v.areaw ∧
    (calc_drawing_bbox H v selected).2.areah = v.areah := by
  unfold calc_drawing_bbox
  simp only
  split_ifs
  · exact hnet v
  · exact ⟨rfl, rfl, rfl⟩

theorem zoom_full_area_size (H : ViewHelpers) (v : ViewCtx) :
    (zoom_full_area H v).areaw - 4 * H.INT_WIDTH (zoom_full_area H v).lw = v.xrect_width ∧
    (zoom_full_area H v).areah - 4 * H.INT_WIDTH (zoom_full_area H v).lw = v.xrect_height := by
  unfold zoom_full_area
  split_ifs <;> simp only <;> constructor <;> ring

theorem ite_gt_eq_max (a b : Rat) : (if b > a then b else a) = max a b := by
  rw [max_def]
  split_ifs with h1 h2 h2
  · rfl
  · exact absurd (le_of_lt h1) h2
  · exact le_antisymm h2 (not_lt.mp h1)
  · rfl

/-- C16: after zoom_full with bit 0 of `flags` set, in a window of
`xrect_width` x `xrect_height` pixels, the zoom is the larger of the ratios
bounding box width / window width and bounding box height / window height,
divided by `shrink`, the bounding box being the one calc_drawing_bbox computes
once the drawing area is set; and mooz is 1/zoom. prepare_netlist_structs is
taken to leave line width and drawing area alone, change_linewidth to leave
zoom and mooz alone. -/
theorem zoom_full_fits (H : ViewHelpers) (dr sel : Int) (flags : Nat) (shrink : Rat)
    (v : ViewCtx) (hflag : flags &&& 1 ≠ 0)
    (hnet : keeps_area H.prepare_netlist_structs)
    (hcl : keeps_viewport (H.change_linewidth (-1))) :
    (zoom_full H dr sel flags shrink v).zoom
      = max
          (((calc_drawing_bbox H (zoom_full_area H v) sel).1.x2
            - (calc_drawing_bbox H (zoom_full_area H v) sel).1.x1) / (v.xrect_width : Rat))
          (((calc_drawing_bbox H (zoom_full_area H v) sel).1.y2
            - (calc_drawing_bbox H (zoom_full_area H v) sel).1.y1) / (v.xrect_height : Rat))
        / shrink ∧
    (zoom_full H dr sel flags shrink v).mooz = 1 / (zoom_full H dr sel flags shrink v).zoom := by
  obtain ⟨a1, a2, a3⟩ := calc_drawing_bbox_area H (zoom_full_area H v) sel hnet
  obtain ⟨w1, w2⟩ := zoom_full_area_size H v
  unfold zoom_full
  simp only [if_pos hflag]
  obtain ⟨-, -, hz, hm, -, -⟩ := hcl (zoom_full_fit H flags shrink
    (calc_drawing_bbox H (zoom_full_area H v) sel).1
    (calc_drawing_bbox H (zoom_full_area H v) sel).2)
  rw [hz, hm]
  unfold zoom_full_fit
  simp only [a1, a2, a3, w1, w2, ite_gt_eq_max, and_self]

theorem one_rect_view_bbox :
    (calc_drawing_bbox view_helpers (zoom_full_area view_helpers one_rect_view) 0).1
      = { x1 := 0, y1 := 0, x2 := 100, y2 := 50 } := by
  decide

theorem view_helpers_keeps_area : keeps_area view_helpers.prepare_netlist_structs :=
  fun _ => ⟨rfl, rfl, rfl⟩

/-- C16, at a concrete input: the sheet of the single rectangle (0,0)-(100,50)
in a window of 1000 x 500 pixels, `shrink` 1: the zoom is 1/10 and mooz 10. -/
theorem zoom_full_fits_witness :
    (zoom_full view_helpers 1 0 1 1 one_rect_view).zoom = 1 / 10 ∧
    (zoom_full view_helpers 1 0 1 1 one_rect_view).mooz = 10 := by
  have h := zoom_full_fits view_helpers 1 0 1 1 one_rect_view (by decide)
    view_helpers_keeps_area (view_helpers_keeps_viewport (-1))
  rw [one_rect_view_bbox] at h
  obtain ⟨h1, h2⟩ := h
  have e : (zoom_full view_helpers 1 0 1 1 one_rect_view).zoom = 1 / 10 := by
    rw [h1]
    norm_num [one_rect_view, empty_view]
  exact ⟨e, by rw [h2, e]; norm_num⟩

/-! ## The hierarchy -/

/-- C17, the claim as stated fails: the selected instance `X0` has a symbol
without a type; descend_schematic returns 1 and the level is 1. -/
theorem descend_schematic_untyped_descends :
    (descend_schematic (hier_helpers untyped_parent) 0 (top_level untyped_parent)).map
      (fun r => (r.2, r.1.currsch)) = some (1, 1) := by
  decide

theorem descend_refused_congr (a b : HierCtx) (hi : b.view.inst = a.view.inst)
    (hs : b.view.sym = a.view.sym) (hsel : b.sel_array = a.sel_array) :
    descend_refused b (sel_n b) = descend_refused a (sel_n a) := by
  unfold descend_refused inst_symbol sel_n
  rw [hi, hs, hsel]

/-- C17, amended: when exactly one instance is selected and its symbol has a
type that is neither "subcircuit" nor "primitive", descend_schematic returns
0 and pushes no hierarchy frame: the level, the port-maps, the saved
viewports, the instances and the symbols are those before the call. On a
sheet that has a name the state is the one before the call; on a sheet without
a name the save of lines 1664-1677 comes first, and the state is either the
one before the call or the one save_schematic left, save_schematic being a
function that pushes no frame and leaves instances, symbols and selection
alone. -/
theorem descend_schematic_refuses (H : HierHelpers) (instnumber : Int) (c : HierCtx)
    (type : String) (hsel : wrong_selection c = false)
    (hsave : c.sch.getD c.currsch "" = "" → save_keeps_hierarchy H)
    (ht : (inst_symbol c (sel_n c)).bind (fun s => s.type) = some type)
    (h1 : type ≠ "subcircuit") (h2 : type ≠ "primitive") :
    ∃ r, descend_schematic H instnumber c = some (r, 0) ∧
      r.currsch = c.currsch ∧ r.portmap = c.portmap ∧ r.zoom_array = c.zoom_array ∧
      r.view.inst = c.view.inst ∧ r.view.sym = c.view.sym ∧
      (c.sch.getD c.currsch "" ≠ "" → r = c) ∧
      (r = c ∨ ∃ res, r = (H.save_schematic res c).1) := by
  have hr : descend_refused c (sel_n c) = true := by
    unfold descend_refused
    rw [ht]
    simp [h1, h2]
  by_cases hname : c.sch.getD c.currsch "" = ""
  · obtain hk := hsave hname
    by_cases hres : H.save_file_dialog (c.sch.getD c.currsch "") = ""
    · have hu : descend_unnamed H c = (c, true) := by
        unfold descend_unnamed
        rw [if_pos hname]
        dsimp only
        rw [if_pos hres]
      refine ⟨c, ?_, rfl, rfl, rfl, rfl, rfl, fun _ => rfl, Or.inl rfl⟩
      unfold descend_schematic
      simp only [hsel, hu, Bool.false_eq_true, if_false, if_true]
    · obtain ⟨k1, k2, k3, k4, k5, k6⟩ :=
        hk (H.save_file_dialog (c.sch.getD c.currsch "")) c
      have hr2 := (descend_refused_congr c _ k4 k5 k6).trans hr
      refine ⟨(H.save_schematic (H.save_file_dialog (c.sch.getD c.currsch "")) c).1, ?_,
        k1, k2, k3, k4, k5, fun h => absurd hname h, Or.inr ⟨_, rfl⟩⟩
      by_cases hz : (H.save_schematic (H.save_file_dialog (c.sch.getD c.currsch "")) c).2 = 0
      · have hu : descend_unnamed H c
            = ((H.save_schematic (H.save_file_dialog (c.sch.getD c.currsch "")) c).1, true) := by
          unfold descend_unnamed
          rw [if_pos hname]
          dsimp only
          rw [if_neg hres, if_pos hz]
        unfold descend_schematic
        simp only [hsel, hu, Bool.false_eq_true, if_false, if_true]
      · have hu : descend_unnamed H c
            = ((H.save_schematic (H.save_file_dialog (c.sch.getD c.currsch "")) c).1, false) := by
          unfold descend_unnamed
          rw [if_pos hname]
          dsimp only
          rw [if_neg hres, if_neg hz]
        unfold descend_schematic
        simp only [hsel, hu, Bool.false_eq_true, if_false, hr2, if_true]
  · have hu : descend_unnamed H c = (c, false) := by
      unfold descend_unnamed
      rw [if_neg hname]
    refine ⟨c, ?_, rfl, rfl, rfl, rfl, rfl, fun _ => rfl, Or.inl rfl⟩
    unfold descend_schematic
    simp [hsel, hu, hr]

/-- C17, amended, at a concrete input: the selected instance `R1` of a symbol
of type "resistor" on a sheet without a name, which save_schematic names
"sub.sch" before the refusal. -/
theorem descend_schematic_refuses_witness :
    (descend_schematic (hier_helpers resistor_parent) 0 unnamed_resistor_top).map
      (fun r => (r.2, r.1.currsch, r.1.sch, r.1.portmap.length))
      = some ((0 : Int), (0 : Nat), ["sub.sch", "", ""], (3 : Nat)) ∧
    ∃ r, descend_schematic (hier_helpers resistor_parent) 0 unnamed_resistor_top = some (r, 0) ∧
      r.currsch = unnamed_resistor_top.currsch ∧ r.portmap = unnamed_resistor_top.portmap ∧
      r.zoom_array = unnamed_resistor_top.zoom_array ∧
      r.view.inst = unnamed_resistor_top.view.inst ∧
      r.view.sym = unnamed_resistor_top.view.sym ∧
      (unnamed_resistor_top.sch.getD unnamed_resistor_top.currsch "" ≠ "" →
        r = unnamed_resistor_top) ∧
      (r = unnamed_resistor_top ∨
        ∃ res, r = ((hier_helpers resistor_parent).save_schematic res unnamed_resistor_top).1) :=
  ⟨by decide,
   descend_schematic_refuses (hier_helpers resistor_parent) 0 unnamed_resistor_top
     "resistor" (by decide) (fun _ _ _ => ⟨rfl, rfl, rfl, rfl, rfl, rfl⟩) (by decide)
     (by decide) (by decide)⟩

theorem descend_inst_number_two (H : HierHelpers) (instnumber : Int) (hin : H.input_line ≠ "") :
    descend_inst_number H instnumber 2 = some 1 ∨ descend_inst_number H instnumber 2 = some 2 := by
  unfold descend_inst_number
  simp only [show (2 : Int) > 1 by decide, if_true, hin, if_false]
  split_ifs <;> simp only [Option.map_some', Option.some.injEq] <;> split_ifs <;> omega

/-- C18, the claim as stated fails: descending into sub-instance 1 of
`X0[1:0]`, pin `a[1:0]` on net `n[3:0]`, the port-map of the new level is
a[1] -> n[3], a[0] -> n[2]; descending into sub-instance 2 it is
a[1] -> n[1], a[0] -> n[0]. -/
theorem descend_schematic_bus_first :
    (descend_schematic (hier_helpers bus_parent) 1 (top_level bus_parent)).map
      (fun r => r.1.portmap.getD 1 none) = some (some [("a[0]", "n[2]"), ("a[1]", "n[3]")]) ∧
    (descend_schematic (hier_helpers bus_parent) 2 (top_level bus_parent)).map
      (fun r => r.1.portmap.getD 1 none) = some (some [("a[0]", "n[0]"), ("a[1]", "n[1]")]) := by
  constructor <;> decide

theorem descend_schematic_bus_proper (instnumber : Int) :
    descend_schematic (hier_helpers bus_parent) instnumber (top_level bus_parent)
      = descend_proper (hier_helpers bus_parent) instnumber (top_level bus_parent) 0 := by
  rfl

theorem descend_proper_of_number (H : HierHelpers) (i j : Int) (c : HierCtx) (n : Nat)
    (h : descend_inst_number H i (descend_expand H c n).2
      = descend_inst_number H j (descend_expand H c n).2) :
    descend_proper H i c n = descend_proper H j c n := by
  unfold descend_proper
  simp only [h]

/-- C18, amended: for the instance `X0[1:0]` with pin `a[1:0]` on net
`n[3:0]`, whatever `instnumber` is given, descend_schematic returns 1 and the
port-map of the new level is a[1] -> n[3], a[0] -> n[2] when the sub-instance
descended into is the first (the leftmost, `X0[1]`), and a[1] -> n[1],
a[0] -> n[0] when it is the second (`X0[0]`). -/
theorem descend_schematic_bus_portmap (instnumber : Int) :
    (descend_schematic (hier_helpers bus_parent) instnumber (top_level bus_parent)).map
      (fun r => (r.2, r.1.portmap.getD 1 none))
      = some (1, some
          (if descend_inst_number (hier_helpers bus_parent) instnumber 2 = some 2 then
            [("a[0]", "n[0]"), ("a[1]", "n[1]")]
          else [("a[0]", "n[2]"), ("a[1]", "n[3]")])) := by
  rw [descend_schematic_bus_proper]
  have he : (descend_expand (hier_helpers bus_parent) (top_level bus_parent) 0).2 = 2 := by
    decide
  rcases descend_inst_number_two (hier_helpers bus_parent) instnumber (by decide) with h | h
  · rw [descend_proper_of_number (hier_helpers bus_parent) instnumber 1 (top_level bus_parent) 0
      (by rw [he, h]; decide), h]
    decide
  · rw [descend_proper_of_number (hier_helpers bus_parent) instnumber 2 (top_level bus_parent) 0
      (by rw [he, h]; decide), h]
    decide

/-- C19, the claim as stated fails: the instance `X0[1:0]` expands to two
sub-instances and its single-bit pin `a` is on the net `#net1`; the entry
stored is `net1`, without a suffix. -/
theorem descend_schematic_auto_net_single_bit :
    (descend_schematic (hier_helpers auto_net_parent) 1 (top_level auto_net_parent)).map
      (fun r => r.1.portmap.getD 1 none) = some (some [("a", "net1")]) := by
  decide

/-- C19, amended: when the net found for bit `k` of a pin begins with `#`,
the entry is stored without this first character; the suffix
`[(inst_mult - inst_number + 1) * mult - k]` is appended when the pin has more
than one bit (`mult > 1`), and no suffix is appended for a single-bit pin,
whatever the multiplicity of the instance. -/
theorem port_net_auto_named (H : HierHelpers) (net_node : String)
    (net_mult mult inst_mult inst_number k : Int) (rest : List Char)
    (hs : (H.find_nth net_node ","
        (Int.tmod ((inst_number - 1) * mult + k - 1) net_mult + 1)).toList = '#' :: rest) :
    port_net H net_node net_mult mult inst_mult inst_number k
      = if mult > 1 then
          String.mk rest ++ "[" ++ H.my_itoa ((inst_mult - inst_number + 1) * mult - k) ++ "]"
        else String.mk rest := by
  have hd : (H.find_nth net_node ","
      (Int.tmod ((inst_number - 1) * mult + k - 1) net_mult + 1)).data = '#' :: rest := hs
  unfold port_net
  simp only [hs, List.head?_cons, if_true]
  split_ifs
  · apply String.ext
    simp [hd]
  · rw [hs]
    rfl

/-- C19, amended, at a concrete input: the net `#net1` of the second
sub-instance of two, on bit 1 of a pin of two bits and on a single-bit pin. -/
theorem port_net_auto_named_witness :
    port_net (hier_helpers bus_parent) "#net1" 1 2 2 2 1 = "net1[1]" ∧
    port_net (hier_helpers bus_parent) "#net1" 1 1 2 2 1 = "net1" :=
  ⟨port_net_auto_named (hier_helpers bus_parent) "#net1" 1 2 2 2 1 "net1".toList (by decide),
   port_net_auto_named (hier_helpers bus_parent) "#net1" 1 1 2 2 1 "net1".toList (by decide)⟩

theorem remove_symbols_loop_some (n : Nat) :
    ∀ s : SymCache, s.symbols = n → n ≤ s.sym.length →
      ∃ s1, remove_symbols_loop n s = some s1 := by
  induction n with
  | zero => intro s _ _; exact ⟨s, rfl⟩
  | succ j ih =>
    intro s hs hl
    obtain ⟨sj, -, h1⟩ := remove_symbol_last s (by omega) (by omega)
    have hj : s.symbols - 1 = j := by omega
    rw [hj] at h1
    obtain ⟨s2, h4⟩ := ih { s with sym := s.sym.set j (clear_symbol sj), symbols := j } rfl
      (by simp only [List.length_set]; omega)
    exact ⟨s2, by simp only [remove_symbols_loop, h1, Option.some_bind, h4]⟩

theorem remove_symbols_some (H : HierHelpers) (v : ViewCtx) :
    ∃ v1, remove_symbols H v = some v1 := by
  unfold remove_symbols
  obtain ⟨s1, h1⟩ := remove_symbols_loop_some v.sym.length
    { sym := v.sym, symbols := v.sym.length,
      inst := v.inst.map (fun i => { H.delete_inst_node i with ptr := -1 }),
      instances := (v.inst.map (fun i => { H.delete_inst_node i with ptr := -1 })).length,
      num_syms := 0 } rfl (le_refl _)
  simp only [h1]
  exact ⟨_, rfl⟩

theorem same_stack_refl (a : HierCtx) : same_stack a a := ⟨rfl, rfl⟩

theorem same_stack_trans {a b c : HierCtx} (h1 : same_stack a b) (h2 : same_stack b c) :
    same_stack a c := ⟨h2.1.trans h1.1, h2.2.trans h1.2⟩

theorem same_stack_view (a : HierCtx) (v : ViewCtx) : same_stack a { a with view := v } :=
  ⟨rfl, rfl⟩

theorem save_keeps (H : HierHelpers) (ok : hier_helpers_ok H) (confirm : Int) (c : HierCtx) :
    same_stack c (save H confirm c).1 ∧
    (save H confirm c).1.view.xorigin = c.view.xorigin ∧
    (save H confirm c).1.view.yorigin = c.view.yorigin ∧
    (save H confirm c).1.view.zoom = c.view.zoom := by
  have h1 := ok.save_stack (c.sch.getD c.currsch "") c
  have h2 := ok.save_origin (c.sch.getD c.currsch "") c
  simp only at h1 h2
  unfold save
  simp only
  split_ifs <;> first | exact ⟨⟨rfl, rfl⟩, rfl, rfl, rfl⟩ | exact ⟨h1, h2⟩

theorem descend_unnamed_keeps (H : HierHelpers) (ok : hier_helpers_ok H) (c : HierCtx) :
    same_stack c (descend_unnamed H c).1 ∧
    (descend_unnamed H c).1.view.xorigin = c.view.xorigin ∧
    (descend_unnamed H c).1.view.yorigin = c.view.yorigin ∧
    (descend_unnamed H c).1.view.zoom = c.view.zoom := by
  have h1 := ok.save_stack (H.save_file_dialog (c.sch.getD c.currsch "")) c
  have h2 := ok.save_origin (H.save_file_dialog (c.sch.getD c.currsch "")) c
  simp only at h1 h2
  unfold descend_unnamed
  simp only
  split_ifs <;> first | exact ⟨⟨rfl, rfl⟩, rfl, rfl, rfl⟩ | exact ⟨h1, h2⟩

theorem descend_modified_keeps (H : HierHelpers) (ok : hier_helpers_ok H) (c : HierCtx) :
    same_stack c (descend_modified H c).1 ∧
    (descend_modified H c).1.view.xorigin = c.view.xorigin ∧
    (descend_modified H c).1.view.yorigin = c.view.yorigin ∧
    (descend_modified H c).1.view.zoom = c.view.zoom := by
  obtain ⟨a1, a3, a4, a5⟩ := save_keeps H ok 1 c
  have h1 : same_stack (save H 1 c).1 (H.clear_all_hilights (save H 1 c).1) :=
    ok.clear_stack (save H 1 c).1
  have h2 := ok.clear_origin (save H 1 c).1
  unfold descend_modified
  simp only
  split_ifs
  · exact ⟨same_stack_trans a1 h1, h2.1.trans a3, h2.2.1.trans a4, h2.2.2.trans a5⟩
  · exact ⟨a1, a3, a4, a5⟩
  · exact ⟨same_stack_trans a1 h1, h2.1.trans a3, h2.2.1.trans a4, h2.2.2.trans a5⟩
  · exact ⟨a1, a3, a4, a5⟩
  · exact ⟨⟨rfl, rfl⟩, rfl, rfl, rfl⟩

theorem descend_hilight_keeps (H : HierHelpers) (ok : hier_helpers_ok H) (c : HierCtx) :
    same_stack c (descend_hilight H c) := by
  unfold descend_hilight
  split_ifs
  · exact same_stack_trans (same_stack_view c _) (ok.propagate 1 0 _)
  · exact same_stack_refl c

theorem descend_load_keeps (H : HierHelpers) (ok : hier_helpers_ok H) (c c1 : HierCtx) (n : Nat)
    (h : descend_load H c n = some c1) : same_stack c c1 := by
  unfold descend_load at h
  obtain ⟨v3, hv⟩ := remove_symbols_some H (H.unselect_all 1 (H.hilight_child_pins c)).view
  simp only [hv, Option.some.injEq] at h
  subst h
  have e1 : same_stack c (H.hilight_child_pins c) := ok.child_pins c
  have e2 : same_stack (H.hilight_child_pins c) (H.unselect_all 1 (H.hilight_child_pins c)) :=
    ok.unselect 1 _
  have e3 := same_stack_view (H.unselect_all 1 (H.hilight_child_pins c)) v3
  have e4 : same_stack _ _ := ok.load
    (H.get_sch_from_sym (H.unselect_all 1 (H.hilight_child_pins c)) n)
    { H.unselect_all 1 (H.hilight_child_pins c) with view := v3 }
  have e5 := descend_hilight_keeps H ok (H.load_schematic
    (H.get_sch_from_sym (H.unselect_all 1 (H.hilight_child_pins c)) n)
    { H.unselect_all 1 (H.hilight_child_pins c) with view := v3 })
  exact same_stack_trans (same_stack_trans (same_stack_trans (same_stack_trans
    (same_stack_trans e1 e2) e3) e4) e5) (same_stack_view _ _)

theorem go_back_reload_keeps (H : HierHelpers) (ok : hier_helpers_ok H) (emb : Bool)
    (c : HierCtx) : same_stack c (go_back_reload H emb c) := by
  have e : same_stack c (H.load_schematic (c.sch.getD c.currsch "") c) := ok.load _ c
  unfold go_back_reload
  simp only
  split_ifs
  · exact same_stack_trans e (same_stack_view _ _)
  · exact e

theorem go_back_hilight_keeps (H : HierHelpers) (ok : hier_helpers_ok H) (t : Int)
    (c : HierCtx) : same_stack c (go_back_hilight H t c) := by
  unfold go_back_hilight
  split_ifs
  · exact same_stack_trans (ok.parent_pins c) (ok.propagate 1 1 _)
  · exact ok.propagate 1 1 c
  · exact same_stack_refl c

theorem go_back_load_keeps (H : HierHelpers) (ok : hier_helpers_ok H) (t : Int) (c : HierCtx) :
    ∃ c1, go_back_load H t c = some c1 ∧ c1.currsch = c.currsch - 1 ∧
      c1.zoom_array = c.zoom_array := by
  unfold go_back_load
  obtain ⟨v2, hv⟩ := remove_symbols_some H (H.unselect_all 1 c).view
  simp only [hv]
  refine ⟨_, rfl, ?_⟩
  have e1 : same_stack c (H.unselect_all 1 c) := ok.unselect 1 c
  have e2 := same_stack_view (H.unselect_all 1 c) v2
  have key : ∀ d : HierCtx, same_stack c d → ∀ emb : Bool,
      (go_back_hilight H t (go_back_reload H emb (go_back_leave d))).currsch = c.currsch - 1 ∧
      (go_back_hilight H t (go_back_reload H emb (go_back_leave d))).zoom_array
        = c.zoom_array := by
    intro d hd emb
    have f1 := go_back_reload_keeps H ok emb (go_back_leave d)
    have f2 := go_back_hilight_keeps H ok t (go_back_reload H emb (go_back_leave d))
    have f3 := same_stack_trans f1 f2
    constructor
    · rw [f3.1]
      show d.currsch - 1 = c.currsch - 1
      rw [hd.1]
    · rw [f3.2]
      exact hd.2
  split_ifs with hs
  · exact key _ (same_stack_trans (same_stack_trans e1 e2) (ok.load_sym _ _)) _
  · exact key _ (same_stack_trans e1 e2) _

theorem descend_proper_pushes (H : HierHelpers) (ok : hier_helpers_ok H) (instnumber : Int)
    (c c1 : HierCtx) (n : Nat) (h : descend_proper H instnumber c n = some (c1, 1)) :
    c1.currsch = c.currsch + 1 ∧
    c1.zoom_array = c.zoom_array.set c.currsch
      { x := c.view.xorigin, y := c.view.yorigin, zoom := c.view.zoom } := by
  unfold descend_proper at h
  simp only at h
  obtain ⟨p1, p2, p3, -, -, -⟩ := ok.netlist_view c.view
  cases hk : descend_inst_number H instnumber (descend_expand H c n).2 with
  | none =>
    rw [hk] at h
    simp at h
  | some k =>
    rw [hk] at h
    simp only [Option.map_eq_some', Prod.mk.injEq, and_true] at h
    obtain ⟨c4, h4, rfl⟩ := h
    obtain ⟨q1, q2⟩ := descend_load_keeps H ok _ _ n h4
    rw [q1, q2]
    simp only [descend_push, descend_portmap, p1, p2, p3, and_self]

theorem descend_schematic_pushes (H : HierHelpers) (ok : hier_helpers_ok H) (instnumber : Int)
    (c c1 : HierCtx) (h : descend_schematic H instnumber c = some (c1, 1)) :
    c1.currsch = c.currsch + 1 ∧
    c1.zoom_array = c.zoom_array.set c.currsch
      { x := c.view.xorigin, y := c.view.yorigin, zoom := c.view.zoom } := by
  unfold descend_schematic at h
  simp only at h
  obtain ⟨⟨a1, a2⟩, a3, a4, a5⟩ := descend_unnamed_keeps H ok c
  obtain ⟨⟨b1, b2⟩, b3, b4, b5⟩ := descend_modified_keeps H ok (descend_unnamed H c).1
  split_ifs at h
  · simp at h
  · simp at h
  · simp at h
  · simp at h
  · obtain ⟨e1, e2⟩ := descend_proper_pushes H ok instnumber _ c1 _ h
    rw [e1, e2, b1, b2, b3, b4, b5, a1, a2, a3, a4, a5]
    exact ⟨rfl, rfl⟩

/-- C20: the functions outside actions.c are taken to leave the level and the
saved viewports alone, and those run before the viewport is saved to leave
origin and zoom alone. When descend_schematic returns 1 from a level that is
a slot of `zoom_array`, and go_back is called on the sheet it loaded while
this sheet is not modified, then go_back ends at the level of the parent with
xorigin, yorigin and zoom as they were before the descent and with mooz equal
to 1/zoom. -/
theorem descend_go_back_restores (H : HierHelpers) (ok : hier_helpers_ok H)
    (instnumber confirm : Int) (c c1 : HierCtx)
    (hd : descend_schematic H instnumber c = some (c1, 1))
    (hmod : c1.view.modified = 0) (hlen : c.currsch < c.zoom_array.length) :
    ∃ c2, go_back H confirm c1 = some c2 ∧ c2.currsch = c.currsch ∧
      c2.view.xorigin = c.view.xorigin ∧ c2.view.yorigin = c.view.yorigin ∧
      c2.view.zoom = c.view.zoom ∧ c2.view.mooz = 1 / c2.view.zoom := by
  obtain ⟨e1, e2⟩ := descend_schematic_pushes H ok instnumber c c1 hd
  obtain ⟨c7, h7, g1, g2⟩ := go_back_load_keeps H ok c1.netlist_type c1
  have hs : go_back_save H confirm c1 = (c1, false) := by
    unfold go_back_save
    simp [hmod]
  have hpos : c1.currsch > 0 := by omega
  refine ⟨go_back_view H c7, ?_, ?_⟩
  · unfold go_back
    simp only [if_pos hpos, hs, Bool.false_eq_true, if_false, h7, Option.map_some']
  · have hc : c7.currsch = c.currsch := by omega
    have hz : c7.zoom_array.getD c7.currsch { x := 0, y := 0, zoom := 0 }
        = { x := c.view.xorigin, y := c.view.yorigin, zoom := c.view.zoom } := by
      rw [hc, g2, e2, List.getD_eq_getElem?_getD, List.getElem?_set_self hlen]
      rfl
    obtain ⟨l1, l2, l3, l4, -, -⟩ := ok.linewidth
      { c7.view with xorigin := c.view.xorigin, yorigin := c.view.yorigin, zoom := c.view.zoom, mooz := 1 / c.view.zoom }
    unfold go_back_view
    simp only [hz]
    exact ⟨hc, l1, l2, l3, by rw [l4, l3]⟩

theorem hier_helpers_is_ok (top : ViewCtx) : hier_helpers_ok (hier_helpers top) where
  save_stack := fun _ _ => ⟨rfl, rfl⟩
  save_origin := fun _ _ => ⟨rfl, rfl, rfl⟩
  clear_stack := fun _ => ⟨rfl, rfl⟩
  clear_origin := fun _ => ⟨rfl, rfl, rfl⟩
  netlist_view := fun _ => ⟨rfl, rfl, rfl, rfl, rfl, rfl⟩
  child_pins := fun _ => ⟨rfl, rfl⟩
  parent_pins := fun _ => ⟨rfl, rfl⟩
  propagate := fun _ _ _ => ⟨rfl, rfl⟩
  unselect := fun _ _ => ⟨rfl, rfl⟩
  load := fun _ _ => ⟨rfl, rfl⟩
  load_sym := fun _ _ => ⟨rfl, rfl⟩
  linewidth := fun _ => ⟨rfl, rfl, rfl, rfl, rfl, rfl⟩

theorem bus_child_descended :
    descend_schematic (hier_helpers bus_parent) 1 (top_level bus_parent)
      = some (bus_child, 1) := by
  have h : (descend_schematic (hier_helpers bus_parent) 1 (top_level bus_parent)).map Prod.snd
      = some 1 := by decide
  unfold bus_child
  cases hd : descend_schematic (hier_helpers bus_parent) 1 (top_level bus_parent) with
  | none => rw [hd] at h; simp at h
  | some r =>
    rw [hd] at h
    simp only [Option.map_some', Option.some.injEq] at h
    rw [← h]

/-- C20, at a concrete input: from "top.sch" at origin (3,4) and zoom 2 into
the first sub-instance of `X0[1:0]` and back. -/
theorem descend_go_back_restores_witness :
    ∃ c2, go_back (hier_helpers bus_parent) 1 bus_child = some c2 ∧ c2.currsch = 0 ∧
      c2.view.xorigin = 3 ∧ c2.view.yorigin = 4 ∧ c2.view.zoom = 2 ∧
      c2.view.mooz = 1 / c2.view.zoom :=
  descend_go_back_restores (hier_helpers bus_parent) (hier_helpers_is_ok bus_parent) 1 1
    (top_level bus_parent) bus_child bus_child_descended (by decide) (by decide)

/-! ## `escape_chars` and `change_to_unix_fn` -/

theorem my_realloc_chars_spec (p : Option (List Char)) (n : Nat) (hn : 0 < n) :
    ∃ buf, my_realloc_chars p n = some buf ∧ buf.length = n ∧
      ∀ k, k ≤ (p.getD []).length → k ≤ n → buf.take k = (p.getD []).take k := by
  refine ⟨(p.getD [] ++ List.replicate n NUL).take n, ?_, ?_, ?_⟩
  · simp [my_realloc_chars, Nat.pos_iff_ne_zero.mp hn]
  · simp
  · intro k hk hkn
    rw [List.take_take, Nat.min_eq_left hkn, List.take_append_of_le_length hk]

theorem write_chars_spec (cs : List Char) :
    ∀ (dest : List Char) (d : Nat), d + cs.length ≤ dest.length →
      ∃ dest1, write_chars cs (some dest) d = some (dest1, d + cs.length) ∧
        dest1.length = dest.length ∧ dest1.take (d + cs.length) = dest.take d ++ cs := by
  induction cs with
  | nil => intro dest d _; exact ⟨dest, rfl, rfl, by simp⟩
  | cons c cs ih =>
    intro dest d h
    simp only [List.length_cons] at h
    have hd : d < dest.length := by omega
    obtain ⟨dest1, h1, h2, h3⟩ := ih (dest.set d c) (d + 1) (by simp; omega)
    refine ⟨dest1, ?_, ?_, ?_⟩
    · simp only [write_chars, if_pos hd, h1, List.length_cons]
      congr 2
      omega
    · simpa using h2
    · have e : d + (c :: cs).length = d + 1 + cs.length := by simp; omega
      rw [e, h3]
      rw [take_succ_set dest d c hd]
      simp

theorem escape_char_length (c : Char) : (escape_char c).length ≤ 2 := by
  unfold escape_char
  split_ifs <;> simp

theorem escape_loop_spec (src : List Char) :
    ∀ (dest : List Char) (size d : Nat), dest.length = size → d + 1 ≤ size →
      ∃ dest1 size1 d1, escape_loop src (some dest) size d = some (dest1, size1, d1) ∧
        dest1.length = size1 ∧ d1 + 1 ≤ size1 ∧
        dest1.take d1 = dest.take d ++ src.flatMap escape_char := by
  induction src with
  | nil => intro dest size d h1 h2; exact ⟨dest, size, d, rfl, h1, h2, by simp⟩
  | cons c rest ih =>
    intro dest size d h1 h2
    have hl := escape_char_length c
    by_cases hg : d ≥ size - 2
    · obtain ⟨buf, b1, b2, b3⟩ := my_realloc_chars_spec (some dest) (size + 2) (by omega)
      obtain ⟨dest2, w1, w2, w3⟩ := write_chars_spec (escape_char c) buf d (by omega)
      obtain ⟨dest3, size3, d3, e1, e2, e3, e4⟩ := ih dest2 (size + 2) (d + (escape_char c).length)
        (by omega) (by omega)
      refine ⟨dest3, size3, d3, ?_, e2, e3, ?_⟩
      · simp only [escape_loop, if_pos hg, b1, w1, e1]
      · rw [e4, w3, b3 d (by simp; omega) (by omega)]
        simp
    · obtain ⟨dest2, w1, w2, w3⟩ := write_chars_spec (escape_char c) dest d (by omega)
      obtain ⟨dest3, size3, d3, e1, e2, e3, e4⟩ := ih dest2 size (d + (escape_char c).length)
        (by omega) (by omega)
      refine ⟨dest3, size3, d3, ?_, e2, e3, ?_⟩
      · simp only [escape_loop, if_neg hg, w1, e1]
      · rw [e4, w3]
        simp

theorem escape_chars_value (dest : Option (List Char)) (s : String) :
    ∃ buf, escape_chars dest (some s)
      = some (some buf, some (String.mk (s.toList.flatMap escape_char))) := by
  obtain ⟨buf, b1, b2, -⟩ := my_realloc_chars_spec dest (s.toList.length + 1) (by omega)
  obtain ⟨dest1, size1, d1, e1, e2, e3, e4⟩ := escape_loop_spec s.toList buf
    (s.toList.length + 1) 0 b2 (by omega)
  have hd : d1 < dest1.length := by omega
  refine ⟨dest1.set d1 NUL, ?_⟩
  simp only [escape_chars, b1, e1, if_pos hd, take_set_same, e4, List.take_zero, List.nil_append]

theorem unescape_escape_char (c : Char) (rest : List Char) :
    unescape (escape_char c ++ rest) = c :: unescape rest := by
  unfold escape_char
  split_ifs with h1 h2 h3
  · simp [unescape, h1]
  · have : ('t' : Char) ≠ 'n' := by decide
    simp [unescape, h2, this]
  · have hn : c ≠ 'n' := by
      intro e; rw [e] at h3; revert h3; decide
    have ht : c ≠ 't' := by
      intro e; rw [e] at h3; revert h3; decide
    simp [unescape, hn, ht]
  · have hb : c ≠ BACKSLASH := by
      intro e; rw [e] at h3; revert h3; decide
    cases rest with
    | nil => simp [unescape]
    | cons b r => simp only [List.singleton_append, unescape, if_neg hb]

theorem unescape_escape (s : List Char) : unescape (s.flatMap escape_char) = s := by
  induction s with
  | nil => rfl
  | cons c rest ih => rw [List.flatMap_cons, unescape_escape_char, ih]

/-- C30: for every string and whatever the static buffer holds, escape_chars
returns the concatenation of the encodings of the characters (line feed as
backslash `n`, tab as backslash `t`, each of backslash, apostrophe, blank,
`;`, `$`, `!`, `#`, braces, square brackets and double quote as a backslash
followed by the character, any other character as itself), no write leaving
the buffer; and two strings with the same result are equal. -/
theorem escape_chars_injective (d1 d2 : Option (List Char)) (s t : String) :
    (escape_chars d1 (some s)).map Prod.snd
      = some (some (String.mk (s.toList.flatMap escape_char))) ∧
    ((escape_chars d1 (some s)).map Prod.snd = (escape_chars d2 (some t)).map Prod.snd →
      s = t) := by
  obtain ⟨b1, h1⟩ := escape_chars_value d1 s
  obtain ⟨b2, h2⟩ := escape_chars_value d2 t
  refine ⟨by rw [h1]; rfl, ?_⟩
  intro h
  rw [h1, h2] at h
  simp only [Option.map_some', Option.some.injEq] at h
  have e := congrArg (fun x : String => unescape x.data) h
  simp only [unescape_escape] at e
  exact String.ext e

/-- C30, at a concrete input: the encoding of a string of a blank, a tab, a
backslash and a bracket, and the equality of two strings with that result. -/
theorem escape_chars_injective_witness :
    (escape_chars none (some "a b\t[c]")).map Prod.snd = some (some "a\\ b\\t\\[c\\]") ∧
    "a b" ++ "\t[c]" = "a b\t[c]" :=
  ⟨by decide,
   (escape_chars_injective none (some ['z', 'z']) ("a b" ++ "\t[c]") "a b\t[c]").2 (by decide)⟩

/-- C29: the buffer `a\\b` (a, two backslashes, b) holds `a/bb` after
change_to_unix_fn, four characters as before: the write index stops at 3 and
no NUL is written there, so the last character stays. -/
theorem change_to_unix_fn_keeps_tail :
    change_to_unix_fn ['a', BACKSLASH, BACKSLASH, 'b'] = ['a', '/', 'b', 'b'] := by
  decide

/-! ## `save` and the cancelled descent -/

theorem save_unfold (H : HierHelpers) (confirm : Int) (c : HierCtx) :
    save H confirm c =
      if file_changed_on_disk H c = true ∨ c.view.modified ≠ 0 then
        if (if file_changed_on_disk H c = true then 0 else confirm) ≠ 0 then
          if H.ask_save = "" then (c, -1)
          else if H.ask_save = "yes" then H.save_schematic (c.sch.getD c.currsch "") c
          else (c, 0)
        else H.save_schematic (c.sch.getD c.currsch "") c
      else (c, 1) := by
  rfl

/-- C21: `save(confirm)`. (1) When the sheet is not modified and the file has
not changed on disk, the value is 1 and the state is kept, whatever
save_schematic is (it is not invoked). (2) When the sheet is modified, the
file has not changed and `confirm` is not 0: an empty answer of ask_save gives
-1 and the answer "yes" gives the result of save_schematic, any other answer
gives 0, the state kept whatever save_schematic is in the first and the last
case; and when save_schematic does not itself return -1, the value is -1 if
and only if the answer is empty. (3) When `confirm` is 0 and the sheet is
modified, the result is the one of save_schematic. -/
theorem save_tri_state (H : HierHelpers) (confirm : Int) (c : HierCtx)
    (ss : String → HierCtx → HierCtx × Int) :
    (file_changed_on_disk H c = false → c.view.modified = 0 →
      save (with_save_schematic H ss) confirm c = (c, 1)) ∧
    (file_changed_on_disk H c = false → c.view.modified ≠ 0 → confirm ≠ 0 →
      (H.ask_save = "" → save (with_save_schematic H ss) confirm c = (c, -1)) ∧
      (H.ask_save = "yes" →
        save H confirm c = H.save_schematic (c.sch.getD c.currsch "") c) ∧
      (H.ask_save ≠ "" → H.ask_save ≠ "yes" →
        save (with_save_schematic H ss) confirm c = (c, 0)) ∧
      ((H.save_schematic (c.sch.getD c.currsch "") c).2 ≠ -1 →
        ((save H confirm c).2 = -1 ↔ H.ask_save = ""))) ∧
    (c.view.modified ≠ 0 → confirm = 0 →
      save H confirm c = H.save_schematic (c.sch.getD c.currsch "") c) := by
  have hf : file_changed_on_disk (with_save_schematic H ss) c = file_changed_on_disk H c := rfl
  have ha : (with_save_schematic H ss).ask_save = H.ask_save := rfl
  refine ⟨?_, ?_, ?_⟩
  · intro h1 h2
    rw [save_unfold, hf, h1]
    simp [h2]
  · intro h1 h2 h3
    refine ⟨?_, ?_, ?_, ?_⟩
    · intro h4
      rw [save_unfold, hf, ha, h1]
      simp [h2, h3, h4]
    · intro h4
      rw [save_unfold, h1]
      simp [h2, h3, h4]
    · intro h4 h5
      rw [save_unfold, hf, ha, h1]
      simp [h2, h3, h4, h5]
    · intro h4
      rw [save_unfold, h1]
      simp only [Bool.false_eq_true, false_or, ne_eq, h2, not_false_eq_true, if_true, if_false,
        h3]
      by_cases e1 : H.ask_save = ""
      · simp [e1]
      · by_cases e2 : H.ask_save = "yes"
        · simpa [e1, e2] using h4
        · simp [e1, e2]
  · intro h2 h3
    rw [save_unfold]
    simp [h2, h3]

/-- C21, at a concrete input: the sheet "top.sch" modified, no file on disk
newer than the sheet, `confirm` 1: the answers "", "yes" and "no". -/
theorem save_tri_state_witness :
    save (with_ask_save (hier_helpers bus_parent) "") 1 (modified_sheet (top_level bus_parent))
      = (modified_sheet (top_level bus_parent), -1) ∧
    (save (hier_helpers bus_parent) 1 (modified_sheet (top_level bus_parent))).2 = 1 ∧
    save (with_ask_save (hier_helpers bus_parent) "no") 1 (modified_sheet (top_level bus_parent))
      = (modified_sheet (top_level bus_parent), 0) ∧
    save (hier_helpers bus_parent) 1 (top_level bus_parent) = (top_level bus_parent, 1) :=
  ⟨((save_tri_state (with_ask_save (hier_helpers bus_parent) "") 1
      (modified_sheet (top_level bus_parent))
      (with_ask_save (hier_helpers bus_parent) "").save_schematic).2.1
      rfl (by decide) (by decide)).1 rfl,
   by
    rw [((save_tri_state (hier_helpers bus_parent) 1 (modified_sheet (top_level bus_parent))
      (hier_helpers bus_parent).save_schematic).2.1 rfl (by decide) (by decide)).2.1 rfl]
    rfl,
   ((save_tri_state (with_ask_save (hier_helpers bus_parent) "no") 1
      (modified_sheet (top_level bus_parent))
      (with_ask_save (hier_helpers bus_parent) "no").save_schematic).2.1
      rfl (by decide) (by decide)).2.2.1 (by decide) (by decide),
   (save_tri_state (hier_helpers bus_parent) 1 (top_level bus_parent)
      (hier_helpers bus_parent).save_schematic).1 rfl (by decide)⟩

theorem save_cancel_state (H : HierHelpers) (confirm : Int) (c : HierCtx)
    (h : (save H confirm c).2 = -1)
    (hss : (H.save_schematic (c.sch.getD c.currsch "") c).2 ≠ -1) :
    save H confirm c = (c, -1) := by
  rw [save_unfold] at h ⊢
  split_ifs at h ⊢ <;> first | rfl | exact absurd h hss

/-- C22: the sheet has a name and is modified, and save returns -1, which
save_schematic itself does not return: the user has cancelled. Then
descend_schematic returns 0 and the state is the one before the call (taken
after rebuild_selected_array). -/
theorem descend_schematic_cancel (H : HierHelpers) (instnumber : Int) (c : HierCtx)
    (hname : c.sch.getD c.currsch "" ≠ "") (hmod : c.view.modified ≠ 0)
    (hcancel : (save H 1 c).2 = -1)
    (hss : (H.save_schematic (c.sch.getD c.currsch "") c).2 ≠ -1) :
    descend_schematic H instnumber c = some (c, 0) := by
  have hu : descend_unnamed H c = (c, false) := by
    unfold descend_unnamed
    rw [if_neg hname]
  have hs := save_cancel_state H 1 c hcancel hss
  have hm : descend_modified H c = (c, true) := by
    unfold descend_modified
    simp [hmod, hs]
  unfold descend_schematic
  simp only [hu, hm]
  split_ifs <;> rfl

/-- C22, at a concrete input: "top.sch" modified, the instance `X0[1:0]`
selected, the ask_save dialog cancelled. -/
theorem descend_schematic_cancel_witness :
    descend_schematic (with_ask_save (hier_helpers bus_parent) "") 1
        (modified_sheet (top_level bus_parent))
      = some (modified_sheet (top_level bus_parent), 0) :=
  descend_schematic_cancel (with_ask_save (hier_helpers bus_parent) "") 1
    (modified_sheet (top_level bus_parent)) (by decide) (by decide) (by decide) (by decide)

/-! ## The storage of `new_polygon` -/

theorem new_polygon_storage_noop (H : GestureHelpers) (c : GestureCtx)
    (h : c.nl_points + 1 < c.nl_maxpoints) : new_polygon_storage H c = c := by
  unfold new_polygon_storage
  rw [if_neg (by omega)]

theorem new_polygon_rubber_phase (H : GestureHelpers) (what : Nat) (c : GestureCtx)
    (A B : List Rat) (hr : what &&& H.RUBBER ≠ 0) (hp : what &&& H.PLACE = 0)
    (ha : what &&& H.ADD = 0) (hs : what &&& H.SET = 0) (he : what &&& H.END = 0)
    (hst : new_polygon_storage H c = c)
    (hA : c.nl_polyx = some A) (hB : c.nl_polyy = some B)
    (hlA : c.nl_points < A.length) (hlB : c.nl_points < B.length) :
    new_polygon H what c = some { c with nl_polyx := some (A.set c.nl_points c.mousex_snap), nl_polyy := some (B.set c.nl_points c.mousey_snap) } := by
  unfold new_polygon
  simp only [hp, ha, ne_eq, not_true_eq_false, if_false, hst,
    Option.bind_eq_bind, Option.some_bind, Bool.false_eq_true]
  unfold new_polygon_tail new_polygon_ends
  simp only [hs, he, ha, ne_eq, not_true_eq_false, or_self, if_false, Option.bind_eq_bind,
    Option.some_bind, Bool.false_eq_true, hr, not_false_eq_true, if_true]
  unfold new_polygon_rubber
  simp only [hA, hB, arr_set_some _ _ _ hlA, arr_set_some _ _ _ hlB, Option.bind_eq_bind,
    Option.some_bind]

theorem new_polygon_ends_open (H : GestureHelpers) (what : Nat) (c : GestureCtx)
    (A : List Rat) (k : Nat) (hs : what &&& H.SET = 0) (he : what &&& H.END = 0)
    (hA : c.nl_polyx = some A) (hn : c.nl_points = k + 2) (hl : k + 1 < A.length)
    (hx : A[k + 1]? ≠ A[0]?) :
    new_polygon_ends H what c = some false := by
  unfold new_polygon_ends
  simp only [hs, he, ne_eq, not_true_eq_false, or_self, if_false]
  split_ifs with h1
  · rfl
  · have e0 : arr_get (some A) 0 = A[0]? := arr_get_nat A 0
    have hn2 : c.nl_points = (k + 1) + 1 := hn
    rw [hA, hn2, arr_get_pred, e0, List.getElem?_eq_getElem hl,
      List.getElem?_eq_getElem (show 0 < A.length by omega)]
    rw [List.getElem?_eq_getElem hl, List.getElem?_eq_getElem (show 0 < A.length by omega)] at hx
    have hne : A[k + 1] ≠ A[0] := fun e => hx (congrArg some e)
    simp [hne]

theorem new_polygon_add_phase (H : GestureHelpers) (what : Nat) (c : GestureCtx)
    (A B : List Rat) (k : Nat) (hadd : what &&& H.ADD ≠ 0) (hp : what &&& H.PLACE = 0)
    (hr : what &&& H.RUBBER = 0) (hs : what &&& H.SET = 0) (he : what &&& H.END = 0)
    (hroom : c.nl_points + 1 < c.nl_maxpoints)
    (hA : c.nl_polyx = some A) (hB : c.nl_polyy = some B) (hn : c.nl_points = k + 1)
    (hlA : k + 2 < A.length) (hlB : k + 2 < B.length)
    (hmoved : A[k + 1]? ≠ A[k]? ∨ B[k + 1]? ≠ B[k]?)
    (hopen : A[0]? ≠ some c.mousex_snap) :
    new_polygon H what c = some { c with nl_points := k + 2, nl_polyx := some (((A.set (k + 1) c.mousex_snap).set (k + 2) c.mousex_snap)), nl_polyy := some (((B.set (k + 1) c.mousey_snap).set (k + 2) c.mousey_snap)) } := by
  have h1 := new_polygon_add_commit H what c A B k he hA hB hn hlA hlB hmoved
  have h2 := new_polygon_ends_open H what
    { c with nl_points := k + 2, nl_polyx := some (((A.set (k + 1) c.mousex_snap).set (k + 2) c.mousex_snap)), nl_polyy := some (((B.set (k + 1) c.mousey_snap).set (k + 2) c.mousey_snap)) }
    _ k hs he rfl rfl (by simp; omega)
    (by
      rw [List.getElem?_set_ne (by omega), List.getElem?_set_self (by omega),
        List.getElem?_set_ne (by omega), List.getElem?_set_ne (by omega)]
      exact fun e => hopen e.symm)
  unfold new_polygon
  simp only [hp, hadd, ne_eq, not_true_eq_false, not_false_eq_true, if_false, if_true,
    new_polygon_storage_noop H c hroom, Option.bind_eq_bind, Option.some_bind, h1,
    Bool.false_eq_true]
  unfold new_polygon_tail
  simp only [h2, Option.bind_eq_bind, Option.some_bind, Bool.false_eq_true, if_false, hr, ne_eq,
    not_true_eq_false]

theorem new_polygon_storage_full (H : GestureHelpers) (c : GestureCtx) (A B : List Rat)
    (k : Nat) (hC : H.CADCHUNKALLOC = k + 2) (hm : c.nl_maxpoints = k + 2)
    (hA : c.nl_polyx = some A) (hB : c.nl_polyy = some B) (hn : c.nl_points = k + 1)
    (hlA : A.length = k + 2) (hlB : B.length = k + 2) :
    new_polygon_storage H c = c := by
  have hdiv : (k + 1) / (k + 2) = 0 := Nat.div_eq_of_lt (by omega)
  unfold new_polygon_storage
  rw [if_pos (by rw [hn, hm]; push_cast; omega)]
  have e1 : my_realloc_doubles c.nl_polyx ((1 + c.nl_points / H.CADCHUNKALLOC) * H.CADCHUNKALLOC)
      = c.nl_polyx := by
    rw [hn, hC, hdiv, hA]
    simp [my_realloc_doubles, hlA]
  have e2 : my_realloc_doubles c.nl_polyy ((1 + c.nl_points / H.CADCHUNKALLOC) * H.CADCHUNKALLOC)
      = c.nl_polyy := by
    rw [hn, hC, hdiv, hB]
    simp [my_realloc_doubles, hlB]
  have e3 : (1 + c.nl_points / H.CADCHUNKALLOC) * H.CADCHUNKALLOC = c.nl_maxpoints := by
    rw [hn, hC, hdiv, hm]; omega
  simp only [e1, e2]
  simp only [e3]

theorem new_polygon_add_off_buffer (H : GestureHelpers) (what : Nat) (c : GestureCtx)
    (A B : List Rat) (k : Nat) (hadd : what &&& H.ADD ≠ 0) (hp : what &&& H.PLACE = 0)
    (he : what &&& H.END = 0)
    (hC : H.CADCHUNKALLOC = k + 2) (hm : c.nl_maxpoints = k + 2)
    (hA : c.nl_polyx = some A) (hB : c.nl_polyy = some B) (hn : c.nl_points = k + 1)
    (hlA : A.length = k + 2) (hlB : B.length = k + 2)
    (hmoved : A[k + 1]? ≠ A[k]? ∨ B[k + 1]? ≠ B[k]?) :
    new_polygon H what c = none := by
  have hst := new_polygon_storage_full H c A B k hC hm hA hB hn hlA hlB
  have hmv := new_polygon_moved_true c A B k hA hB hn (by omega) (by omega) hmoved
  have hnext : new_polygon_next { c with nl_polyx := some (A.set (k + 1) c.mousex_snap), nl_polyy := some (B.set (k + 1) c.mousey_snap) } = none := by
    unfold new_polygon_next
    simp only [hn]
    rw [arr_get_pred, List.getElem?_set_self (by omega)]
    simp [arr_set, hlA]
  unfold new_polygon
  simp only [hp, hadd, ne_eq, not_true_eq_false, not_false_eq_true, if_false, if_true, hst,
    Option.bind_eq_bind, Option.some_bind]
  unfold new_polygon_add
  simp only [he, ne_eq, not_true_eq_false, if_false, hmv, Option.bind_eq_bind, Option.some_bind,
    if_true, hA, hB, hn, arr_set_some A (k + 1) _ (show k + 1 < A.length by omega),
    arr_set_some B (k + 1) _ (show k + 1 < B.length by omega)]
  simp only [hn] at hnext
  simp only [hnext, Option.none_bind]

theorem new_polygon_place_phase (H : GestureHelpers) (what : Nat) (c : GestureCtx) (C : Nat)
    (hp : what &&& H.PLACE ≠ 0) (ha : what &&& H.ADD = 0) (hs : what &&& H.SET = 0)
    (he : what &&& H.END = 0) (hr : what &&& H.RUBBER = 0)
    (hC : H.CADCHUNKALLOC = C + 2) (hm : c.nl_maxpoints = 0)
    (hA : c.nl_polyx = none) (hB : c.nl_polyy = none) :
    ∃ r, new_polygon H what c = some r ∧ r.nl_points = 1 ∧ r.nl_maxpoints = C + 2 ∧
      r.nl_polyx = some (((List.replicate (C + 2) 0).set 0 c.mousex_snap).set 1 c.mousex_snap) ∧
      r.nl_polyy = some (((List.replicate (C + 2) 0).set 0 c.mousey_snap).set 1 c.mousey_snap) := by
  have hst : new_polygon_storage H { c with nl_points := 0 } = { c with nl_points := 0, nl_maxpoints := C + 2, nl_polyx := some (List.replicate (C + 2) 0), nl_polyy := some (List.replicate (C + 2) 0) } := by
    unfold new_polygon_storage
    rw [if_pos (by simp [hm])]
    simp [hC, hA, hB, my_realloc_doubles]
  have hnext := new_polygon_next_some
    { c with nl_points := 0, nl_maxpoints := C + 2, nl_polyx := some ((List.replicate (C + 2) 0).set 0 c.mousex_snap), nl_polyy := some ((List.replicate (C + 2) 0).set 0 c.mousey_snap) }
    _ _ 0 c.mousex_snap c.mousey_snap rfl rfl rfl
    (by rw [List.getElem?_set_self (by simp)]) (by rw [List.getElem?_set_self (by simp)])
    (by simp) (by simp)
  have hends : ∀ x : GestureCtx, new_polygon_ends H what x = some false := by
    intro x
    unfold new_polygon_ends
    simp [hs, he, ha]
  have hrun : new_polygon H what c = some
      { c with nl_points := 0 + 1, nl_maxpoints := C + 2, nl_polyx := some (((List.replicate (C + 2) 0).set 0 c.mousex_snap).set (0 + 1) c.mousex_snap), nl_polyy := some (((List.replicate (C + 2) 0).set 0 c.mousey_snap).set (0 + 1) c.mousey_snap), ui_state := c.ui_state ||| H.STARTPOLYGON, mod := set_modify H.TEXT_FLOATER 1 c.mod } := by
    unfold new_polygon
    simp only [hp, ha, ne_eq, not_false_eq_true, not_true_eq_false, if_true, if_false, hst,
      Option.bind_eq_bind]
    unfold new_polygon_place
    simp only [arr_set_some _ 0 _ (show 0 < (List.replicate (C + 2) (0 : Rat)).length by simp),
      Option.bind_eq_bind, Option.some_bind, hnext, Bool.false_eq_true, if_false]
    unfold new_polygon_tail
    simp only [hends, Option.bind_eq_bind, Option.some_bind, Bool.false_eq_true, if_false, hr,
      ne_eq, not_true_eq_false]
  exact ⟨_, hrun, rfl, rfl, rfl, rfl⟩

theorem new_polygon_rubber_props (H : GestureHelpers) (what : Nat) (c : GestureCtx)
    (A B : List Rat) (x y : Rat) (n : Nat) (hr : what &&& H.RUBBER ≠ 0)
    (hp : what &&& H.PLACE = 0)
    (ha : what &&& H.ADD = 0) (hs : what &&& H.SET = 0) (he : what &&& H.END = 0)
    (hst : new_polygon_storage H { c with mousex_snap := x, mousey_snap := y } = { c with mousex_snap := x, mousey_snap := y })
    (hA : c.nl_polyx = some A) (hB : c.nl_polyy = some B) (hn : c.nl_points = n)
    (hlA : n < A.length) (hlB : n < B.length) :
    ∃ r, new_polygon H what { c with mousex_snap := x, mousey_snap := y } = some r ∧
      r.nl_points = n ∧ r.nl_maxpoints = c.nl_maxpoints ∧ r.mousex_snap = x ∧
      r.mousey_snap = y ∧ r.nl_polyx = some (A.set n x) ∧ r.nl_polyy = some (B.set n y) := by
  have h := new_polygon_rubber_phase H what { c with mousex_snap := x, mousey_snap := y } A B
    hr hp ha hs he hst hA hB (by rw [← hn] at hlA; exact hlA) (by rw [← hn] at hlB; exact hlB)
  refine ⟨_, h, hn, rfl, rfl, rfl, ?_, ?_⟩
  · show some (A.set c.nl_points x) = _
    rw [hn]
  · show some (B.set c.nl_points y) = _
    rw [hn]

theorem new_polygon_add_props (H : GestureHelpers) (what : Nat) (c : GestureCtx)
    (A B : List Rat) (k : Nat) (hadd : what &&& H.ADD ≠ 0) (hp : what &&& H.PLACE = 0)
    (hr : what &&& H.RUBBER = 0) (hs : what &&& H.SET = 0) (he : what &&& H.END = 0)
    (hroom : c.nl_points + 1 < c.nl_maxpoints)
    (hA : c.nl_polyx = some A) (hB : c.nl_polyy = some B) (hn : c.nl_points = k + 1)
    (hlA : k + 2 < A.length) (hlB : k + 2 < B.length)
    (hmoved : A[k + 1]? ≠ A[k]? ∨ B[k + 1]? ≠ B[k]?)
    (hopen : A[0]? ≠ some c.mousex_snap) :
    ∃ r, new_polygon H what c = some r ∧ r.nl_points = k + 2 ∧
      r.nl_maxpoints = c.nl_maxpoints ∧
      r.nl_polyx = some ((A.set (k + 1) c.mousex_snap).set (k + 2) c.mousex_snap) ∧
      r.nl_polyy = some ((B.set (k + 1) c.mousey_snap).set (k + 2) c.mousey_snap) :=
  ⟨_, new_polygon_add_phase H what c A B k hadd hp hr hs he hroom hA hB hn hlA hlB hmoved hopen,
    rfl, rfl, rfl, rfl⟩

theorem polygon_run_zero : ∃ c, polygon_run 0 = some c ∧ polygon_run_state 0 c := by
  obtain ⟨r, h1, h2, h3, h4, h5⟩ := new_polygon_place_phase gesture_helpers 1 (gesture_start 0)
    510 (by decide) (by decide) (by decide) (by decide) (by decide) rfl rfl rfl rfl
  have hl : ∀ v w : Rat, (((List.replicate (510 + 2) (0 : Rat)).set 0 v).set 1 w).length = 512 := by
    intro v w
    rw [List.length_set, List.length_set, List.length_replicate]
  refine ⟨r, h1, h2, h3, _, _, h4, h5, hl _ _, hl _ _, ?_, ?_, ?_, ?_⟩
  · rw [List.getElem?_set_ne (by omega),
      List.getElem?_set_self (by rw [List.length_replicate]; omega)]
    rfl
  · rw [List.getElem?_set_ne (by omega),
      List.getElem?_set_self (by rw [List.length_replicate]; omega)]
    rfl
  · rw [List.getElem?_set_self (by rw [List.length_set, List.length_replicate]; omega)]
    rfl
  · rw [List.getElem?_set_ne (by omega),
      List.getElem?_set_self (by rw [List.length_replicate]; omega)]
    rfl

theorem polygon_run_step (k : Nat) (hk : k ≤ 509) (c : GestureCtx)
    (h : polygon_run_state k c) :
    ∃ r, polygon_move_add ((k : Rat) + 1) c = some r ∧ polygon_run_state (k + 1) r := by
  obtain ⟨hn, hm, xs, ys, hx, hy, hlx, hly, x0, xk, -, y0⟩ := h
  obtain ⟨r1, e1, n1, m1, mx1, -, px1, py1⟩ := new_polygon_rubber_props gesture_helpers 2 c
    xs ys ((k : Rat) + 1) 0 (k + 1)
    (by decide) (by decide) (by decide) (by decide) (by decide)
    (new_polygon_storage_noop _ _ (by
      show c.nl_points + 1 < c.nl_maxpoints
      rw [hn, hm]; omega)) hx hy hn (by omega) (by omega)
  have hne : ((k : Rat) + 1) ≠ (k : Rat) := by
    intro e
    linarith
  have hne0 : (0 : Rat) ≠ (k : Rat) + 1 := by
    have : (0 : Rat) ≤ (k : Rat) := Nat.cast_nonneg k
    intro e
    linarith
  obtain ⟨r2, e2, n2, m2, px2, py2⟩ := new_polygon_add_props gesture_helpers 16 r1
    (xs.set (k + 1) ((k : Rat) + 1)) (ys.set (k + 1) 0) k
    (by decide) (by decide) (by decide) (by decide) (by decide)
    (by rw [n1, m1, hm]; omega) px1 py1 n1
    (by rw [List.length_set]; omega) (by rw [List.length_set]; omega)
    (Or.inl (by
      rw [List.getElem?_set_self (by omega), List.getElem?_set_ne (by omega), xk]
      exact fun e => hne (Option.some.inj e)))
    (by
      rw [List.getElem?_set_ne (by omega), x0, mx1]
      exact fun e => hne0 (Option.some.inj e))
  refine ⟨r2, ?_, ?_⟩
  · unfold polygon_move_add
    rw [e1, Option.some_bind, e2]
  · refine ⟨n2, by rw [m2, m1, hm], _, _, px2, py2,
      by rw [List.length_set, List.length_set, List.length_set]; exact hlx,
      by rw [List.length_set, List.length_set, List.length_set]; exact hly, ?_, ?_, ?_, ?_⟩
    · rw [List.getElem?_set_ne (by omega), List.getElem?_set_ne (by omega),
        List.getElem?_set_ne (by omega), x0]
    · rw [List.getElem?_set_ne (by omega),
        List.getElem?_set_self (by rw [List.length_set]; omega), mx1]
      push_cast
      rfl
    · rw [List.getElem?_set_self (by rw [List.length_set, List.length_set]; omega), mx1]
      push_cast
      rfl
    · rw [List.getElem?_set_ne (by omega), List.getElem?_set_ne (by omega),
        List.getElem?_set_ne (by omega), y0]

theorem polygon_run_reaches (k : Nat) (hk : k ≤ 510) :
    ∃ c, polygon_run k = some c ∧ polygon_run_state k c := by
  induction k with
  | zero => exact polygon_run_zero
  | succ j ih =>
    obtain ⟨c, h1, h2⟩ := ih (by omega)
    obtain ⟨r, h3, h4⟩ := polygon_run_step j (by omega) c h2
    refine ⟨r, ?_, h4⟩
    simp only [polygon_run, h1, Option.some_bind]
    exact h3

/-- C27: from the empty buffer, a PLACE phase and 510 ADD phases, each after
a RUBBER phase at a new position, leave 511 points in a buffer of
CADCHUNKALLOC = 512 elements; the storage check then keeps the capacity at
512, so that `nl_points + 1 < nl_maxpoints` fails, and the next ADD phase
writes `nl_polyx[512]`, off the buffer. -/
theorem new_polygon_chunk_overrun :
    (∃ c, polygon_run 510 = some c ∧ c.nl_points = 511 ∧
      (new_polygon_storage gesture_helpers c).nl_maxpoints = 512) ∧
    polygon_run 511 = none := by
  obtain ⟨c, h1, h2⟩ := polygon_run_reaches 510 (le_refl _)
  obtain ⟨hn, hm, xs, ys, hx, hy, hlx, hly, x0, xk, xr⟩ := h2
  have hst := new_polygon_storage_full gesture_helpers c xs ys 510 rfl hm hx hy hn hlx hly
  refine ⟨⟨c, h1, hn, by rw [hst, hm]⟩, ?_⟩
  obtain ⟨r1, e1, n1, m1, mx1, -, px1, py1⟩ := new_polygon_rubber_props gesture_helpers 2 c
    xs ys (((510 : Nat) : Rat) + 1) 0 (510 + 1)
    (by decide) (by decide) (by decide) (by decide) (by decide)
    (new_polygon_storage_full gesture_helpers _ xs ys 510 rfl hm hx hy hn hlx hly) hx hy hn
    (by omega) (by omega)
  have hoff := new_polygon_add_off_buffer gesture_helpers 16 r1
    (xs.set (510 + 1) (((510 : Nat) : Rat) + 1)) (ys.set (510 + 1) 0) 510
    (by decide) (by decide) (by decide) rfl (by rw [m1, hm]) px1 py1 n1
    (by rw [List.length_set]; exact hlx) (by rw [List.length_set]; exact hly)
    (Or.inl (by
      rw [List.getElem?_set_self (by omega), List.getElem?_set_ne (by omega), xk]
      intro e
      have := Option.some.inj e
      norm_num at this))
  show (polygon_run 510).bind (polygon_move_add (((510 : Nat) : Rat) + 1)) = none
  rw [h1, Option.some_bind]
  unfold polygon_move_add
  rw [e1, Option.some_bind, hoff]

/-- C14: a polygon placement started at (0,0) holds the 511 committed
vertices (0,0), (1,0), ..., (510,0) in buffers of CADCHUNKALLOC = 512
elements, and a RUBBER phase has put the rubber point on vertex 0. The ADD
phase that should commit this vertex and close the polygon does not make
room first: the storage check leaves the capacity at 512, and the statement
`nl_polyx[nl_points] = nl_polyx[nl_points-1]` of line 2865 writes element 512,
off the buffer, before the polygon is stored. -/
theorem new_polygon_close_off_buffer :
    ∃ c xs ys, polygon_run 510 = some c ∧ c.nl_points = 511 ∧ c.nl_maxpoints = 512 ∧
      c.nl_polyx = some xs ∧ c.nl_polyy = some ys ∧ xs.length = 512 ∧ ys.length = 512 ∧
      xs[0]? = some 0 ∧ ys[0]? = some 0 ∧
      ∃ r, new_polygon gesture_helpers 2 { c with mousex_snap := 0, mousey_snap := 0 } = some r ∧
        r.nl_points = 511 ∧ r.mousex_snap = 0 ∧ r.mousey_snap = 0 ∧
        (new_polygon_storage gesture_helpers r).nl_maxpoints = 512 ∧
        new_polygon gesture_helpers 16 r = none := by
  obtain ⟨c, h1, h2⟩ := polygon_run_reaches 510 (le_refl _)
  obtain ⟨hn, hm, xs, ys, hx, hy, hlx, hly, x0, xk, -, y0⟩ := h2
  obtain ⟨r1, e1, n1, m1, mx1, my1, px1, py1⟩ := new_polygon_rubber_props gesture_helpers 2 c
    xs ys 0 0 (510 + 1)
    (by decide) (by decide) (by decide) (by decide) (by decide)
    (new_polygon_storage_full gesture_helpers _ xs ys 510 rfl hm hx hy hn hlx hly) hx hy hn
    (by omega) (by omega)
  have hst := new_polygon_storage_full gesture_helpers r1 (xs.set (510 + 1) 0)
    (ys.set (510 + 1) 0) 510 rfl (by rw [m1, hm]) px1 py1 n1
    (by rw [List.length_set]; exact hlx) (by rw [List.length_set]; exact hly)
  have hoff := new_polygon_add_off_buffer gesture_helpers 16 r1
    (xs.set (510 + 1) 0) (ys.set (510 + 1) 0) 510
    (by decide) (by decide) (by decide) rfl (by rw [m1, hm]) px1 py1 n1
    (by rw [List.length_set]; exact hlx) (by rw [List.length_set]; exact hly)
    (Or.inl (by
      rw [List.getElem?_set_self (by omega), List.getElem?_set_ne (by omega), xk]
      intro e
      have := Option.some.inj e
      norm_num at this))
  exact ⟨c, xs, ys, h1, hn, hm, hx, hy, hlx, hly, x0, y0, r1, e1, n1, mx1, my1,
    by rw [hst, m1, hm], hoff⟩

/-! ## The mode bits of the gestures -/

theorem new_wire_store_ui (H : GestureHelpers) (c : GestureCtx) :
    (new_wire_store H c).1.ui_state = c.ui_state ∧ (new_wire_store H c).1.mod = c.mod ∧
    (new_wire_store H c).1.undo = c.undo := by
  have key : ∀ (p : Prop) [Decidable p] (a b : GestureCtx × Int),
      (a.1.ui_state = c.ui_state ∧ a.1.mod = c.mod ∧ a.1.undo = c.undo) →
      (b.1.ui_state = c.ui_state ∧ b.1.mod = c.mod ∧ b.1.undo = c.undo) →
      ((if p then a else b).1.ui_state = c.ui_state ∧ (if p then a else b).1.mod = c.mod ∧
        (if p then a else b).1.undo = c.undo) := by
    intro p _ a b ha hb
    split_ifs <;> assumption
  unfold new_wire_store
  refine key _ _ _ ?_ (key _ _ _ ?_ ⟨rfl, rfl, rfl⟩)
  · dsimp only
    refine key _ _ _ ?_ (key _ _ _ ⟨rfl, rfl, rfl⟩ ⟨rfl, rfl, rfl⟩)
    exact key _ _ _ ⟨rfl, rfl, rfl⟩ ⟨rfl, rfl, rfl⟩
  · dsimp only
    refine key _ _ _ ?_ (key _ _ _ ⟨rfl, rfl, rfl⟩ ⟨rfl, rfl, rfl⟩)
    exact key _ _ _ ⟨rfl, rfl, rfl⟩ ⟨rfl, rfl, rfl⟩

theorem new_wire_commit_ui (H : GestureHelpers) (c : GestureCtx) :
    (new_wire_commit H c).1.ui_state = c.ui_state := by
  unfold new_wire_commit
  simp only
  split_ifs <;> first | rfl | exact (new_wire_store_ui H (gesture_push_undo c)).1

theorem new_wire_commit_idle (H : GestureHelpers) (c : GestureCtx)
    (h : c.ui_state &&& H.STARTWIRE = 0) : new_wire_commit H c = (c, 0) := by
  unfold new_wire_commit
  rw [if_neg (fun hc => hc.1 h)]

theorem new_wire_arm_ui (H : GestureHelpers) (mx my : Rat) (c : GestureCtx) :
    (new_wire_arm H mx my c).ui_state = c.ui_state :=
  congrArg (fun f => f.2.2.2.1) (new_wire_arm_frame H mx my c)

theorem new_wire_rubber_ui (H : GestureHelpers) (clear : Bool) (mx my : Rat) (c : GestureCtx) :
    (new_wire_rubber H clear mx my c).ui_state = H.rebuild_selected_array c.doc c.ui_state :=
  congrArg (fun f => f.2.2.2.1) (new_wire_rubber_frame H clear mx my c)

theorem new_wire_place_ui (H : GestureHelpers) (what : Nat) (mx my : Rat) (c : GestureCtx) :
    (new_wire_place H what mx my c).ui_state = c.ui_state ||| H.STARTWIRE := by
  unfold new_wire_place
  simp only
  split_ifs <;> simp only [new_wire_arm_ui, new_wire_commit_ui]

theorem new_wire_bits (H : GestureHelpers) (m : Nat) (hk : keeps_mode_bits H m)
    (hm : m &&& H.STARTWIRE = 0) (what : Nat) (mx my : Rat) (c : GestureCtx) :
    (new_wire H what mx my c).ui_state &&& m = c.ui_state &&& m := by
  unfold new_wire
  simp only
  split_ifs <;>
    first
    | rfl
    | simp only [new_wire_rubber_ui, hk.1, clear_bits_and_disjoint _ _ _ hm, new_wire_place_ui,
        or_and_disjoint _ _ _ hm]

theorem new_line_store_ui (H : GestureHelpers) (c : GestureCtx) :
    (new_line_store H c).1.ui_state = c.ui_state := by
  have key : ∀ (p : Prop) [Decidable p] (a b : GestureCtx × Int),
      a.1.ui_state = c.ui_state → b.1.ui_state = c.ui_state →
      (if p then a else b).1.ui_state = c.ui_state := by
    intro p _ a b ha hb
    split_ifs <;> assumption
  unfold new_line_store
  refine key _ _ _ ?_ (key _ _ _ ?_ rfl)
  · dsimp only
    refine key _ _ _ ?_ (key _ _ _ rfl rfl)
    exact key _ _ _ rfl rfl
  · dsimp only
    refine key _ _ _ ?_ (key _ _ _ rfl rfl)
    exact key _ _ _ rfl rfl

theorem new_line_commit_ui (H : GestureHelpers) (c : GestureCtx) :
    (new_line_commit H c).ui_state = c.ui_state := by
  unfold new_line_commit
  simp only
  split_ifs <;> first | rfl | exact new_line_store_ui H (gesture_push_undo c)

theorem new_line_commit_idle (H : GestureHelpers) (c : GestureCtx)
    (h : c.ui_state &&& H.STARTLINE = 0) : new_line_commit H c = c := by
  unfold new_line_commit
  rw [if_neg (fun hc => hc.2 h)]

theorem new_line_place_ui (H : GestureHelpers) (c : GestureCtx) :
    (new_line_place H c).ui_state = c.ui_state ||| H.STARTLINE := by
  show (new_line_commit H c).ui_state ||| H.STARTLINE = _
  rw [new_line_commit_ui]

theorem new_line_rubber_frame (H : GestureHelpers) (clear : Bool) (c : GestureCtx) :
    gesture_frame (new_line_rubber H clear c) = gesture_frame (restore_selection H c) := by
  unfold new_line_rubber
  simp only
  split_ifs <;> rfl

theorem new_line_bits (H : GestureHelpers) (m : Nat) (hk : keeps_mode_bits H m)
    (hm : m &&& H.STARTLINE = 0) (what : Nat) (c : GestureCtx) :
    (new_line H what c).ui_state &&& m = c.ui_state &&& m := by
  have hr : ∀ cl x, (new_line_rubber H cl x).ui_state = H.rebuild_selected_array x.doc x.ui_state :=
    fun cl x => congrArg (fun f => f.2.2.2.1) (new_line_rubber_frame H cl x)
  unfold new_line
  simp only
  split_ifs <;>
    first
    | rfl
    | simp only [hr, hk.1, clear_bits_and_disjoint _ _ _ hm, new_line_place_ui,
        or_and_disjoint _ _ _ hm]

theorem new_rect_commit_ui (H : GestureHelpers) (c : GestureCtx) :
    (new_rect_commit H c).1.ui_state = c.ui_state := by
  unfold new_rect_commit
  split_ifs <;> rfl

theorem new_rect_commit_idle (H : GestureHelpers) (c : GestureCtx)
    (h : c.ui_state &&& H.STARTRECT = 0) : new_rect_commit H c = (c, 0) := by
  unfold new_rect_commit
  rw [if_neg (fun hc => hc.2 h)]

theorem new_rect_place_ui (H : GestureHelpers) (c : GestureCtx) :
    (new_rect_place H c).ui_state = c.ui_state ||| H.STARTRECT := by
  unfold new_rect_place
  simp only
  split_ifs <;>
    (show (new_rect_commit H c).1.ui_state ||| H.STARTRECT = _
     rw [new_rect_commit_ui])

theorem new_rect_bits (H : GestureHelpers) (m : Nat)
    (hm : m &&& H.STARTRECT = 0) (what : Nat) (c : GestureCtx) :
    (new_rect H what c).ui_state &&& m = c.ui_state &&& m := by
  have hr : ∀ x, (new_rect_rubber x).ui_state = x.ui_state := fun _ => rfl
  unfold new_rect
  simp only
  split_ifs <;>
    first
    | rfl
    | simp only [hr, clear_bits_and_disjoint _ _ _ hm, new_rect_place_ui,
        or_and_disjoint _ _ _ hm]

theorem arc_through_frame (H : GestureHelpers) (c : GestureCtx) :
    gesture_frame (arc_through H c) = gesture_frame c := by
  unfold arc_through
  simp only
  split_ifs <;> rfl

theorem new_arc_rubber_frame (H : GestureHelpers) (c : GestureCtx) :
    gesture_frame (new_arc_rubber H c) = gesture_frame c := by
  unfold new_arc_rubber
  split_ifs
  · rfl
  · exact arc_through_frame H _
  · rfl

theorem new_arc_set_ui (H : GestureHelpers) (m : Nat) (hm : m &&& H.STARTARC = 0)
    (c : GestureCtx) : (new_arc_set H c).ui_state &&& m = c.ui_state &&& m := by
  have ha : ∀ x, (arc_through H x).ui_state = x.ui_state :=
    fun x => congrArg (fun f => f.2.2.2.1) (arc_through_frame H x)
  unfold new_arc_set
  simp only
  split_ifs
  · rfl
  · show clear_bits (arc_through H _).ui_state H.STARTARC &&& m = _
    rw [clear_bits_and_disjoint _ _ _ hm, ha]
  · show clear_bits (arc_through H _).ui_state H.STARTARC &&& m = _
    rw [clear_bits_and_disjoint _ _ _ hm, ha]
  · rfl

theorem new_arc_bits (H : GestureHelpers) (m : Nat)
    (hm : m &&& H.STARTARC = 0) (what : Nat) (sweep : Rat) (c : GestureCtx) :
    (new_arc H what sweep c).ui_state &&& m = c.ui_state &&& m := by
  have hr : ∀ x, (new_arc_rubber H x).ui_state = x.ui_state :=
    fun x => congrArg (fun f => f.2.2.2.1) (new_arc_rubber_frame H x)
  have hp : (new_arc_place H sweep c).ui_state &&& m = c.ui_state &&& m :=
    or_and_disjoint _ _ _ hm
  unfold new_arc
  simp only
  split_ifs <;> first | rfl | simp only [hr, new_arc_set_ui H m hm, hp]

theorem zoom_rectangle_bits (H : GestureHelpers) (m : Nat) (hk : keeps_mode_bits H m)
    (hm : m &&& H.STARTZOOM = 0) (what : Nat) (c : GestureCtx) :
    (zoom_rectangle H what c).ui_state &&& m = c.ui_state &&& m := by
  have hr : ∀ x, (zoom_rectangle_rubber H x).ui_state &&& m = x.ui_state &&& m :=
    fun x => hk.1 _ _
  have he : ∀ x, (zoom_rectangle_end H x).ui_state &&& m = x.ui_state &&& m := by
    intro x
    unfold zoom_rectangle_end
    simp only
    rw [hk.2.2]
    split_ifs <;> exact clear_bits_and_disjoint _ _ _ hm
  have hs : ({ anchor_at_mouse c with ui_state := c.ui_state ||| H.STARTZOOM } : GestureCtx).ui_state
      &&& m = c.ui_state &&& m := or_and_disjoint _ _ _ hm
  unfold zoom_rectangle
  simp only
  split_ifs <;> first | rfl | simp only [hr, he, hs]

theorem select_rect_bits (H : GestureHelpers) (m : Nat) (hk : keeps_mode_bits H m)
    (hm : m &&& H.STARTSELECT = 0) (what : Nat) (select : Int) (c : GestureCtx) :
    (select_rect H what select c).ui_state &&& m = c.ui_state &&& m := by
  unfold select_rect
  split_ifs
  · unfold select_rect_rubber
    simp only
    split_ifs
    · show (H.select_inside _ _ _ _ _ _).ui_state &&& m = _
      rw [hk.2.1]
      exact hk.1 _ _
    · exact hk.1 _ _
  · exact or_and_disjoint _ _ _ hm
  · show clear_bits (H.select_inside _ _ _ _ _ _).ui_state H.STARTSELECT &&& m = _
    rw [clear_bits_and_disjoint _ _ _ hm, hk.2.1]
  · rfl

/-! ### `new_polygon` step by step -/

theorem new_polygon_storage_frame (H : GestureHelpers) (c : GestureCtx) :
    gesture_frame (new_polygon_storage H c) = gesture_frame c := by
  unfold new_polygon_storage
  split_ifs <;> rfl

theorem new_polygon_next_frame (c r : GestureCtx) (h : new_polygon_next c = some r) :
    gesture_frame r = gesture_frame c := by
  unfold new_polygon_next at h
  simp only [Option.bind_eq_bind, Option.bind_eq_some, Option.some.injEq] at h
  obtain ⟨_, _, _, _, _, _, _, _, rfl⟩ := h
  rfl

theorem new_polygon_rubber_frame (c r : GestureCtx) (h : new_polygon_rubber c = some r) :
    gesture_frame r = gesture_frame c := by
  unfold new_polygon_rubber at h
  simp only [Option.bind_eq_bind, Option.bind_eq_some, Option.some.injEq] at h
  obtain ⟨_, _, _, _, rfl⟩ := h
  rfl

theorem new_polygon_place_frame (H : GestureHelpers) (c r : GestureCtx)
    (h : new_polygon_place H c = some r) :
    r.ui_state = c.ui_state ||| H.STARTPOLYGON ∧ r.doc = c.doc ∧ r.undo = c.undo ∧
    r.mod = set_modify H.TEXT_FLOATER 1 c.mod := by
  unfold new_polygon_place at h
  simp only [Option.bind_eq_bind, Option.bind_eq_some, Option.some.injEq] at h
  obtain ⟨_, _, _, _, c1, h1, rfl⟩ := h
  have hf := new_polygon_next_frame _ _ h1
  simp only [gesture_frame, Prod.mk.injEq] at hf
  obtain ⟨f1, f2, f3, f4, _⟩ := hf
  exact ⟨by rw [f4], f1, f2, by rw [f3]⟩

theorem new_polygon_add_frame (H : GestureHelpers) (what : Nat) (c : GestureCtx)
    (r : GestureCtx × Bool) (h : new_polygon_add H what c = some r) :
    gesture_frame r.1 = gesture_frame c := by
  unfold new_polygon_add at h
  split_ifs at h
  · simp only [Option.bind_eq_bind, Option.bind_eq_some, Option.some.injEq] at h
    obtain ⟨_, _, _, _, _, _, _, _, c1, h1, rfl⟩ := h
    exact (new_polygon_next_frame _ c1 h1).trans rfl
  · simp only [Option.bind_eq_bind, Option.bind_eq_some] at h
    obtain ⟨mv, _, h2⟩ := h
    split_ifs at h2
    · simp only [Option.bind_eq_bind, Option.bind_eq_some, Option.some.injEq] at h2
      obtain ⟨_, _, _, _, c1, h1, rfl⟩ := h2
      exact (new_polygon_next_frame _ c1 h1).trans rfl
    · simp only [Option.some.injEq] at h2
      subst h2
      rfl

theorem store_poly_frame (c r : GestureCtx) (points : Nat) (h : store_poly c points = some r) :
    r.ui_state = c.ui_state ∧ r.undo = c.undo ∧ r.mod = c.mod := by
  unfold store_poly at h
  split at h
  · split_ifs at h
    simp only [Option.some.injEq] at h
    subst h
    exact ⟨rfl, rfl, rfl⟩
  · exact absurd h (by simp)

theorem new_polygon_finish_ui (H : GestureHelpers) (c r : GestureCtx)
    (h : new_polygon_finish H c = some r) :
    r.ui_state = clear_bits c.ui_state H.STARTPOLYGON := by
  unfold new_polygon_finish at h
  simp only [Option.bind_eq_bind, Option.bind_eq_some, Option.some.injEq] at h
  obtain ⟨c1, h1, rfl⟩ := h
  show clear_bits c1.ui_state _ = _
  rw [(store_poly_frame _ _ _ h1).1]
  rfl

theorem new_polygon_rubber_part (H : GestureHelpers) (what : Nat) (y r : GestureCtx)
    (h : (if what &&& H.RUBBER ≠ 0 then new_polygon_rubber y else some y) = some r) :
    gesture_frame r = gesture_frame y := by
  split_ifs at h
  · exact new_polygon_rubber_frame _ _ h
  · simp only [Option.some.injEq] at h
    rw [h]

theorem new_polygon_tail_unfold (H : GestureHelpers) (what : Nat) (c : GestureCtx) :
    new_polygon_tail H what c =
      (new_polygon_ends H what c).bind fun e =>
        (if e = true then new_polygon_finish H c else some c).bind fun y =>
          if what &&& H.RUBBER ≠ 0 then new_polygon_rubber y else some y := by
  unfold new_polygon_tail
  cases new_polygon_ends H what c with
  | none => rfl
  | some e => cases e <;> rfl

theorem new_polygon_tail_bits (H : GestureHelpers) (m : Nat) (hm : m &&& H.STARTPOLYGON = 0)
    (what : Nat) (c r : GestureCtx) (h : new_polygon_tail H what c = some r) :
    r.ui_state &&& m = c.ui_state &&& m := by
  rw [new_polygon_tail_unfold, Option.bind_eq_some] at h
  obtain ⟨e, _, h⟩ := h
  rw [Option.bind_eq_some] at h
  obtain ⟨y, h1, h2⟩ := h
  have k : r.ui_state = y.ui_state :=
    congrArg (fun f => f.2.2.2.1) (new_polygon_rubber_part H what y r h2)
  rw [k]
  cases e with
  | true =>
    rw [if_pos rfl] at h1
    rw [new_polygon_finish_ui H c y h1, clear_bits_and_disjoint _ _ _ hm]
  | false =>
    rw [if_neg (by decide)] at h1
    rw [← Option.some.inj h1]

theorem new_polygon_tail_frame (H : GestureHelpers) (what : Nat) (c r : GestureCtx)
    (hs : what &&& H.SET = 0) (ha : what &&& H.ADD = 0) (he : what &&& H.END = 0)
    (h : new_polygon_tail H what c = some r) : gesture_frame r = gesture_frame c := by
  have hends : new_polygon_ends H what c = some false := by
    unfold new_polygon_ends
    simp [hs, he, ha]
  rw [new_polygon_tail_unfold, hends, Option.some_bind, if_neg (by decide),
    Option.some_bind] at h
  exact new_polygon_rubber_part H what c r h

theorem new_polygon_rest_bits (H : GestureHelpers) (m : Nat) (hm : m &&& H.STARTPOLYGON = 0)
    (what : Nat) (p : GestureCtx × Bool) (r : GestureCtx)
    (h : (if p.2 = true then some p.1 else new_polygon_tail H what p.1) = some r) :
    r.ui_state &&& m = p.1.ui_state &&& m := by
  split_ifs at h
  · simp only [Option.some.injEq] at h
    rw [h]
  · exact new_polygon_tail_bits H m hm what p.1 r h

theorem new_polygon_add_part (H : GestureHelpers) (m : Nat) (hm : m &&& H.STARTPOLYGON = 0)
    (what : Nat) (c2 r : GestureCtx)
    (h : ((if what &&& H.ADD ≠ 0 then new_polygon_add H what c2 else some (c2, false)).bind
      fun p => if p.2 = true then some p.1 else new_polygon_tail H what p.1) = some r) :
    r.ui_state &&& m = c2.ui_state &&& m := by
  rw [Option.bind_eq_some] at h
  obtain ⟨p, h1, h2⟩ := h
  have k : p.1.ui_state = c2.ui_state := by
    split_ifs at h1
    · exact congrArg (fun f => f.2.2.2.1) (new_polygon_add_frame H what c2 p h1)
    · simp only [Option.some.injEq] at h1
      rw [← h1]
  rw [new_polygon_rest_bits H m hm what p r h2, k]

theorem new_polygon_unfold (H : GestureHelpers) (what : Nat) (c : GestureCtx) :
    new_polygon H what c =
      ((if what &&& H.PLACE ≠ 0 then
          new_polygon_place H (new_polygon_storage H { c with nl_points := 0 })
        else some (new_polygon_storage H c)).bind fun c2 =>
        (if what &&& H.ADD ≠ 0 then new_polygon_add H what c2 else some (c2, false)).bind
          fun p => if p.2 = true then some p.1 else new_polygon_tail H what p.1) := by
  unfold new_polygon
  split_ifs <;> rfl

theorem new_polygon_bits (H : GestureHelpers) (m : Nat) (hm : m &&& H.STARTPOLYGON = 0)
    (what : Nat) (c r : GestureCtx) (h : new_polygon H what c = some r) :
    r.ui_state &&& m = c.ui_state &&& m := by
  rw [new_polygon_unfold, Option.bind_eq_some] at h
  obtain ⟨c2, h2, h3⟩ := h
  have hst : ∀ x, (new_polygon_storage H x).ui_state = x.ui_state :=
    fun x => congrArg (fun f => f.2.2.2.1) (new_polygon_storage_frame H x)
  have k2 : c2.ui_state &&& m = c.ui_state &&& m := by
    split_ifs at h2
    · rw [(new_polygon_place_frame H _ _ h2).1, or_and_disjoint _ _ _ hm, hst]
    · simp only [Option.some.injEq] at h2
      rw [← h2, hst]
  rw [new_polygon_add_part H m hm what c2 r h3, k2]

/-- The concrete helpers keep every mode bit but the flag SELECTION. -/
theorem gesture_helpers_keep (m : Nat) (hm : m &&& 128 = 0) :
    keeps_mode_bits gesture_helpers m :=
  ⟨fun doc u => selection_flag_keeps m hm doc u, fun _ _ _ _ _ _ => rfl, fun _ _ => rfl⟩

/-- C24: each gesture changes no bit of `ui_state` outside its own mode bit
and what rebuild_selected_array, select_inside and change_linewidth write:
for a mask `m` these three keep (as they do the bits START*), a call of
new_wire, new_line, new_rect, new_arc, new_polygon, zoom_rectangle or
select_rect with any phase bits `what` leaves `ui_state & m` as it was,
provided `m` does not hold the gesture's own mode bit. -/
theorem gesture_mode_bits (H : GestureHelpers) (m : Nat) (hk : keeps_mode_bits H m)
    (what : Nat) (c : GestureCtx) :
    (m &&& H.STARTWIRE = 0 →
      ∀ mx my, (new_wire H what mx my c).ui_state &&& m = c.ui_state &&& m) ∧
    (m &&& H.STARTLINE = 0 → (new_line H what c).ui_state &&& m = c.ui_state &&& m) ∧
    (m &&& H.STARTRECT = 0 → (new_rect H what c).ui_state &&& m = c.ui_state &&& m) ∧
    (m &&& H.STARTARC = 0 →
      ∀ sweep, (new_arc H what sweep c).ui_state &&& m = c.ui_state &&& m) ∧
    (m &&& H.STARTPOLYGON = 0 →
      ∀ r, new_polygon H what c = some r → r.ui_state &&& m = c.ui_state &&& m) ∧
    (m &&& H.STARTZOOM = 0 → (zoom_rectangle H what c).ui_state &&& m = c.ui_state &&& m) ∧
    (m &&& H.STARTSELECT = 0 →
      ∀ select, (select_rect H what select c).ui_state &&& m = c.ui_state &&& m) :=
  ⟨fun hm mx my => new_wire_bits H m hk hm what mx my c,
   fun hm => new_line_bits H m hk hm what c,
   fun hm => new_rect_bits H m hm what c,
   fun hm sweep => new_arc_bits H m hm what sweep c,
   fun hm r h => new_polygon_bits H m hm what c r h,
   fun hm => zoom_rectangle_bits H m hk hm what c,
   fun hm select => select_rect_bits H m hk hm what select c⟩

/-- C24, at a concrete input: a rubber-band zoom started, dragged and ended
while a wire is being placed leaves STARTWIRE (bit 1) set. -/
theorem gesture_mode_bits_witness :
    keeps_mode_bits gesture_helpers 1 ∧ wire_armed.ui_state = 1 ∧
    (zoom_rectangle gesture_helpers 64 wire_armed).ui_state = 33 ∧
    (zoom_rectangle gesture_helpers 64 wire_armed).ui_state &&& 1 = wire_armed.ui_state &&& 1 :=
  ⟨gesture_helpers_keep 1 (by decide), by decide, by decide,
   (gesture_mode_bits gesture_helpers 1 (gesture_helpers_keep 1 (by decide)) 64
      wire_armed).2.2.2.2.2.1 (by decide)⟩

/-! ## The START phase of `select_rect` -/

/-- C25, refuted: with a rubber-band selection in progress (`nl_sem = 1`,
STARTSELECT set, anchor (10,20), opposite corner (30,40), select mode 1) a
nested `select_rect(START, 0)` with the pointer at (50,60) moves both corners
to (50,60) and sets the mode to 0. -/
theorem select_rect_nested_start_accepted :
    selecting.nl_sem = 1 ∧ selecting.ui_state &&& gesture_helpers.STARTSELECT ≠ 0 ∧
    (selecting.nl_xr, selecting.nl_yr, selecting.nl_xr2, selecting.nl_yr2, selecting.nl_sel)
      = (10, 20, 30, 40, 1) ∧
    ((select_rect gesture_helpers 64 0 selecting).nl_xr,
     (select_rect gesture_helpers 64 0 selecting).nl_yr,
     (select_rect gesture_helpers 64 0 selecting).nl_xr2,
     (select_rect gesture_helpers 64 0 selecting).nl_yr2,
     (select_rect gesture_helpers 64 0 selecting).nl_sel) = (50, 60, 50, 60, 0) := by
  decide

/-- C25, amended: a `select_rect(START, select)` (START set, RUBBER clear)
is carried out whatever the semaphore `nl_sem` and the bit STARTSELECT hold:
the mode `nl_sel` becomes `select`, the anchor and the opposite corner both
become `(mx_double_save, my_double_save)`, STARTSELECT is set and `nl_sem`
becomes 1; nothing else changes. -/
theorem select_rect_start_restarts (H : GestureHelpers) (what : Nat) (select : Int)
    (c : GestureCtx) (hr : what &&& H.RUBBER = 0) (hs : what &&& H.START ≠ 0) :
    select_rect H what select c = { c with nl_sel := select, ui_state := c.ui_state ||| H.STARTSELECT, nl_xr := c.mx_double_save, nl_xr2 := c.mx_double_save, nl_yr := c.my_double_save, nl_yr2 := c.my_double_save, nl_sem := 1 } := by
  unfold select_rect
  rw [if_neg (by rw [hr]; exact fun h => h rfl), if_pos hs]
  rfl

/-- C25, amended, at a concrete input: the nested start of
`select_rect_nested_start_accepted`. -/
theorem select_rect_start_restarts_witness :
    select_rect gesture_helpers 64 0 selecting = { selecting with nl_sel := 0, ui_state := selecting.ui_state ||| gesture_helpers.STARTSELECT, nl_xr := selecting.mx_double_save, nl_xr2 := selecting.mx_double_save, nl_yr := selecting.my_double_save, nl_yr2 := selecting.my_double_save, nl_sem := 1 } :=
  select_rect_start_restarts gesture_helpers 64 0 selecting (by decide) (by decide)

/-! ## The document during a placement -/

theorem doc_frame_of_frame {a b : GestureCtx} (h : gesture_frame a = gesture_frame b) :
    doc_frame a = doc_frame b := by
  simp only [gesture_frame, Prod.mk.injEq] at h
  simp only [doc_frame, h.1, h.2.1, h.2.2.1]

theorem new_wire_keeps_doc (H : GestureHelpers) (what : Nat) (mx my : Rat) (c : GestureCtx)
    (hidle : what &&& H.PLACE ≠ 0 → c.ui_state &&& H.STARTWIRE = 0) :
    doc_frame (new_wire H what mx my c) = doc_frame c := by
  have h1 : doc_frame (if what &&& H.PLACE ≠ 0 then new_wire_place H what mx my c else c)
      = doc_frame c := by
    split_ifs with h
    · unfold new_wire_place
      rw [new_wire_commit_idle H c (hidle h)]
      simp only [ne_eq, not_true_eq_false, if_false]
      split_ifs
      · show doc_frame (new_wire_arm H mx my c) = doc_frame c
        exact doc_frame_of_frame (new_wire_arm_frame H mx my c)
      · rfl
    · rfl
  have h2 : ∀ x : GestureCtx, doc_frame (if what &&& H.END ≠ 0 then
      { x with ui_state := clear_bits x.ui_state H.STARTWIRE } else x) = doc_frame x := by
    intro x
    split_ifs <;> rfl
  have h3 : ∀ x : GestureCtx, doc_frame (if what &&& H.RUBBER ≠ 0 then
      new_wire_rubber H (decide (what &&& H.CLEAR ≠ 0)) mx my x else x) = doc_frame x := by
    intro x
    split_ifs
    · exact (doc_frame_of_frame (new_wire_rubber_frame H _ mx my x)).trans rfl
    · rfl
  unfold new_wire
  simp only
  rw [h3, h2, h1]

theorem new_line_keeps_doc (H : GestureHelpers) (what : Nat) (c : GestureCtx)
    (hidle : what &&& H.PLACE ≠ 0 → c.ui_state &&& H.STARTLINE = 0) :
    doc_frame (new_line H what c) = doc_frame c := by
  have h1 : doc_frame (if what &&& H.PLACE ≠ 0 then new_line_place H c else c)
      = doc_frame c := by
    split_ifs with h
    · unfold new_line_place
      rw [new_line_commit_idle H c (hidle h)]
      rfl
    · rfl
  have h2 : ∀ x : GestureCtx, doc_frame (if what &&& H.END ≠ 0 then
      { x with ui_state := clear_bits x.ui_state H.STARTLINE } else x) = doc_frame x := by
    intro x
    split_ifs <;> rfl
  have h3 : ∀ x : GestureCtx, doc_frame (if what &&& H.RUBBER ≠ 0 then
      new_line_rubber H (decide (what &&& H.CLEAR ≠ 0)) x else x) = doc_frame x := by
    intro x
    split_ifs
    · exact (doc_frame_of_frame (new_line_rubber_frame H _ x)).trans rfl
    · rfl
  unfold new_line
  simp only
  rw [h3, h2, h1]

theorem new_rect_keeps_doc (H : GestureHelpers) (what : Nat) (c : GestureCtx)
    (hidle : what &&& H.PLACE ≠ 0 → c.ui_state &&& H.STARTRECT = 0) :
    doc_frame (new_rect H what c) = doc_frame c := by
  have h1 : doc_frame (if what &&& H.PLACE ≠ 0 then new_rect_place H c else c)
      = doc_frame c := by
    split_ifs with h
    · unfold new_rect_place
      rw [new_rect_commit_idle H c (hidle h)]
      rfl
    · rfl
  have h2 : ∀ x : GestureCtx, doc_frame (if what &&& H.END ≠ 0 then
      { x with ui_state := clear_bits x.ui_state H.STARTRECT } else x) = doc_frame x := by
    intro x
    split_ifs <;> rfl
  have h3 : ∀ x : GestureCtx, doc_frame (if what &&& H.RUBBER ≠ 0 then
      new_rect_rubber x else x) = doc_frame x := by
    intro x
    split_ifs <;> rfl
  unfold new_rect
  simp only
  rw [h3, h2, h1]

theorem new_arc_keeps_doc (H : GestureHelpers) (what : Nat) (sweep : Rat) (c : GestureCtx)
    (hs : what &&& H.SET = 0) : doc_frame (new_arc H what sweep c) = doc_frame c := by
  have h1 : doc_frame (if what &&& H.PLACE ≠ 0 then new_arc_place H sweep c else c)
      = doc_frame c := by
    split_ifs <;> rfl
  have h3 : ∀ x : GestureCtx, doc_frame (if what &&& H.RUBBER ≠ 0 then
      new_arc_rubber H x else x) = doc_frame x := by
    intro x
    split_ifs
    · exact doc_frame_of_frame (new_arc_rubber_frame H x)
    · rfl
  unfold new_arc
  simp only [hs, ne_eq, not_true_eq_false, if_false]
  rw [h3]
  exact h1

theorem new_polygon_keeps_doc (H : GestureHelpers) (what : Nat) (c r : GestureCtx)
    (hs : what &&& H.SET = 0) (ha : what &&& H.ADD = 0) (he : what &&& H.END = 0)
    (h : new_polygon H what c = some r) :
    r.doc = c.doc ∧ r.undo = c.undo ∧
    r.mod = if what &&& H.PLACE ≠ 0 then set_modify H.TEXT_FLOATER 1 c.mod else c.mod := by
  rw [new_polygon_unfold, Option.bind_eq_some] at h
  obtain ⟨c2, h2, h3⟩ := h
  rw [if_neg (by rw [ha]; exact fun h => h rfl), Option.some_bind,
    if_neg (show ¬ ((c2, false) : GestureCtx × Bool).2 = true from Bool.false_ne_true)] at h3
  have k := new_polygon_tail_frame H what c2 r hs ha he h3
  simp only [gesture_frame, Prod.mk.injEq] at k
  obtain ⟨k1, k2, k3, -⟩ := k
  rw [k1, k2, k3]
  split_ifs at h2 ⊢
  · obtain ⟨-, p2, p3, p4⟩ := new_polygon_place_frame H _ _ h2
    have f := new_polygon_storage_frame H { c with nl_points := 0 }
    simp only [gesture_frame, Prod.mk.injEq] at f
    exact ⟨p2.trans f.1, p3.trans f.2.1, by rw [p4, f.2.2.1]⟩
  · have f := new_polygon_storage_frame H c
    simp only [gesture_frame, Prod.mk.injEq] at f
    rw [← Option.some.inj h2]
    exact ⟨f.1, f.2.1, f.2.2.1⟩

/-- C26, refuted: on the empty sheet with no gesture in progress (STARTPOLYGON
clear, `modified = 0`) the PLACE phase of new_polygon returns with
`modified = 1`. -/
theorem new_polygon_place_marks_modified :
    (gesture_start 0).ui_state &&& gesture_helpers.STARTPOLYGON = 0 ∧
    (gesture_start 0).mod.modified = 0 ∧
    (new_polygon gesture_helpers 1 (gesture_start 0)).map (fun r => r.mod.modified) = some 1 := by
  obtain ⟨r, h, -⟩ := new_polygon_place_phase gesture_helpers 1 (gesture_start 0)
    510 (by decide) (by decide) (by decide) (by decide) (by decide) rfl rfl rfl rfl
  have k := (new_polygon_keeps_doc gesture_helpers 1 (gesture_start 0) r (by decide) (by decide)
    (by decide) h).2.2
  refine ⟨by decide, by decide, ?_⟩
  rw [h, Option.map_some', k]
  decide

/-- C26, amended: a call of a placement gesture with the phase bits PLACE or
RUBBER and without SET, ADD and END, the PLACE phase starting from idle (own
mode bit clear), stores nothing and pushes no undo snapshot; new_wire,
new_line, new_rect and new_arc also leave the modification state as it is,
and so does new_polygon in a call without PLACE, but the PLACE phase of
new_polygon calls `set_modify(1)`. -/
theorem gesture_arm_rubber_keeps_doc (H : GestureHelpers) (what : Nat) (c : GestureCtx)
    (hs : what &&& H.SET = 0) (ha : what &&& H.ADD = 0) (he : what &&& H.END = 0) :
    ((what &&& H.PLACE ≠ 0 → c.ui_state &&& H.STARTWIRE = 0) →
      ∀ mx my, doc_frame (new_wire H what mx my c) = doc_frame c) ∧
    ((what &&& H.PLACE ≠ 0 → c.ui_state &&& H.STARTLINE = 0) →
      doc_frame (new_line H what c) = doc_frame c) ∧
    ((what &&& H.PLACE ≠ 0 → c.ui_state &&& H.STARTRECT = 0) →
      doc_frame (new_rect H what c) = doc_frame c) ∧
    (∀ sweep, doc_frame (new_arc H what sweep c) = doc_frame c) ∧
    (∀ r, new_polygon H what c = some r →
      r.doc = c.doc ∧ r.undo = c.undo ∧
      r.mod = if what &&& H.PLACE ≠ 0 then set_modify H.TEXT_FLOATER 1 c.mod else c.mod) :=
  ⟨fun hi mx my => new_wire_keeps_doc H what mx my c hi,
   fun hi => new_line_keeps_doc H what c hi,
   fun hi => new_rect_keeps_doc H what c hi,
   fun sweep => new_arc_keeps_doc H what sweep c hs,
   fun r h => new_polygon_keeps_doc H what c r hs ha he h⟩

/-- C26, amended, at a concrete input: the PLACE phases on the empty sheet,
and a RUBBER phase of new_line while a wire is armed. -/
theorem gesture_arm_rubber_keeps_doc_witness :
    (∀ mx my, doc_frame (new_wire gesture_helpers 1 mx my (gesture_start 0))
      = doc_frame (gesture_start 0)) ∧
    doc_frame (new_line gesture_helpers 2 wire_armed) = doc_frame wire_armed ∧
    (new_line gesture_helpers 2 wire_armed).nl_x2 = 3 :=
  ⟨(gesture_arm_rubber_keeps_doc gesture_helpers 1 (gesture_start 0) (by decide) (by decide)
      (by decide)).1 (fun _ => by decide),
   (gesture_arm_rubber_keeps_doc gesture_helpers 2 wire_armed (by decide) (by decide)
      (by decide)).2.1 (fun h => absurd rfl h),
   by decide⟩

/-! ## `change_layer` -/

/-- C28: on a sheet whose selection is one arc of layer 4, with current layer
5, change_layer moves the arc to layer 5 after pushing an undo snapshot, and
returns without calling `set_modify(1)`: the modification state is as it was,
`modified = 0`. The same sheet with a selected line in place of the arc ends
with `modified = 1`. -/
theorem change_layer_arc_not_marked :
    (change_layer layer_helpers arc_selected).map (fun r => (r.arc, r.undo.length, r.mod))
      = some ([[], [], [], [], [], [{ x := 0, y := 0, r := 5, a := 0, b := 90, sel := 0,
                                      prop_ptr := none }]], 1, arc_selected.mod) ∧
    arc_selected.mod.modified = 0 ∧
    (change_layer layer_helpers line_selected).map (fun r => (r.line, r.mod.modified))
      = some ([[], [], [], [], [], [{ x1 := 0, y1 := 0, x2 := 5, y2 := 5, sel := 0,
                                      prop_ptr := none }]], 1) := by
  decide

/-! ## `place_symbol` -/

end Xschem
